import Mathlib

/-!
# Sprite plane update engine of `drivers/gpu/drm/i915/intel_sprite.c`

A shallow embedding of the plane controller (`intel_update_plane`,
`intel_disable_plane`, `intel_plane_queue_unpin`, `intel_plane_init`), of the
geometry code inside `intel_update_plane`, of the `update_plane`, `disable_plane` and
colorkey backends, and of the z-order code (`i915_set_plane_zorder` with the two alpha
functions), followed by the theorems that settle the specification's claims.

Conventions.  A C `int` is an `Int` in `[-2^31, 2^31)`, a `uint32_t` or
`unsigned int` an `Int` in `[0, 2^32)`; every arithmetic step of the source that
can leave the range is wrapped explicitly with `to_int` / `to_u32`.  Register
values are `Nat` below `2^32`; the constants of `i915_reg.h`, which is not among the
sources, are fields of parameter structures, and the theorems say what they assume of
them.  `x >> n` on an `int` is the arithmetic shift,
written `x / 2^n` (`/` on `Int` rounds towards minus infinity for a positive
divisor).
-/

namespace IntelSprite

/-! ## Machine integers and constants of absent headers -/

/-- The value a C `int` takes when the mathematical result is `x`
(two's complement wrap-around; the kernel is built with wrapping overflow). -/
def to_int (x : Int) : Int := (x + 2147483648) % 4294967296 - 2147483648

/-- The value a `uint32_t` / `unsigned int` takes when the mathematical result is `x`. -/
def to_u32 (x : Int) : Int := x % 4294967296

/-- The macro `clamp_t(int64_t, x, INT_MIN, INT_MAX)`. -/
def clamp_int (x : Int) : Int :=
  if x < -2147483648 then -2147483648 else if 2147483647 < x then 2147483647 else x

/-- The errno `EINVAL`. -/
def EINVAL : Int := 22

/-- The errno `ERANGE`. -/
def ERANGE : Int := 34

/-- The errno `ENODEV`. -/
def ENODEV : Int := 19

/-- The tiling mode `I915_TILING_NONE`. -/
def I915_TILING_NONE : Nat := 0

/-- The tiling mode `I915_TILING_X`. -/
def I915_TILING_X : Nat := 1

/-- The tiling mode `I915_TILING_Y`. -/
def I915_TILING_Y : Nat := 2

/-! ## Rectangles (`drm_rect`) -/

/-- The `struct drm_rect` of the DRM core: four `int` coordinates. -/
structure drm_rect where
  x1 : Int
  y1 : Int
  x2 : Int
  y2 : Int
deriving DecidableEq, Repr

/-- Modelled from the spec: `drm_rect_width` is an inline helper of `drm/drm_rect.h`,
which is not among the sources.  The width of a rectangle, `x2 - x1`, as an `int`. -/
def drm_rect_width (r : drm_rect) : Int := to_int (r.x2 - r.x1)

/-- Modelled from the spec: `drm_rect_height` is an inline helper of `drm/drm_rect.h`,
which is not among the sources.  The height of a rectangle, `y2 - y1`, as an `int`. -/
def drm_rect_height (r : drm_rect) : Int := to_int (r.y2 - r.y1)

/-- Modelled from the spec: `drm_rect_visible` is an inline helper of `drm/drm_rect.h`,
which is not among the sources.  Spec 4.1: "Visibility becomes false if the clipped
destination is empty": a rectangle shows something when both width and height are
positive. -/
def drm_rect_visible (r : drm_rect) : Bool :=
  decide (0 < drm_rect_width r) && decide (0 < drm_rect_height r)

/-- Modelled from the spec: `drm_rect_equals` is an inline helper of `drm/drm_rect.h`,
which is not among the sources.  Spec 4.1: "the final destination rectangle exactly
equals the full visible clip rectangle": all four coordinates agree. -/
def drm_rect_equals (r1 r2 : drm_rect) : Bool :=
  decide (r1.x1 = r2.x1) && decide (r1.x2 = r2.x2) &&
  decide (r1.y1 = r2.y1) && decide (r1.y2 = r2.y2)

/-- Modelled from the spec: `drm_rect_adjust_size` is an inline helper of
`drm/drm_rect.h`, which is not among the sources.  Spec 4.1: "Adjust the source
rectangle's size so width/height are exact integer multiples of the scale factor":
the width changes by `dw` and the height by `dh`, the change being split between the
two edges (`x1 -= dw >> 1; x2 += (dw + 1) >> 1`, and the same vertically), so the
rectangle keeps its centre. -/
def drm_rect_adjust_size (r : drm_rect) (dw dh : Int) : drm_rect :=
  { x1 := to_int (r.x1 - dw / 2)
    y1 := to_int (r.y1 - dh / 2)
    x2 := to_int (r.x2 + to_int (dw + 1) / 2)
    y2 := to_int (r.y2 + to_int (dh + 1) / 2) }

/-- Modelled from the spec: `drm_rect_intersect` belongs to `drm_rect.c`, which is not
among the sources.  Spec 4.1: "Clip destination against `clip_rect`": the first
rectangle is replaced by its intersection with the second; the result says whether
the intersection is visible. -/
def drm_rect_intersect (r1 r2 : drm_rect) : Bool × drm_rect :=
  let r : drm_rect :=
    { x1 := max r1.x1 r2.x1
      y1 := max r1.y1 r2.y1
      x2 := min r1.x2 r2.x2
      y2 := min r1.y2 r2.y2 }
  (drm_rect_visible r, r)

/-- Result of `drm_rect_clip_scaled`: the visibility flag and the two rectangles it
leaves behind its pointer arguments. -/
structure clip_result where
  visible : Bool
  src : drm_rect
  dst : drm_rect
deriving DecidableEq, Repr

/-- Modelled from the spec: `drm_rect_clip_scaled` belongs to `drm_rect.c`, which is
not among the sources.  Spec 4.1: "Clip destination against `clip_rect` (the visible
output area) using scaled clipping: shrinking the destination rectangle
proportionally shrinks the source rectangle so the effective scale factor is
preserved.  Visibility becomes false if the clipped destination is empty."  For each
edge of `dst` that sticks out of `clip` by `diff` pixels the matching edge of `src`
moves inwards by `diff * scale` (computed in 64 bits and clamped to the `int`
range); then `dst` is intersected with `clip`. -/
def drm_rect_clip_scaled (src dst clip : drm_rect) (hscale vscale : Int) : clip_result :=
  let dl := to_int (clip.x1 - dst.x1)
  let sx1 := if 0 < dl then clamp_int (src.x1 + dl * hscale) else src.x1
  let dt := to_int (clip.y1 - dst.y1)
  let sy1 := if 0 < dt then clamp_int (src.y1 + dt * vscale) else src.y1
  let dr := to_int (dst.x2 - clip.x2)
  let sx2 := if 0 < dr then clamp_int (src.x2 - dr * hscale) else src.x2
  let db := to_int (dst.y2 - clip.y2)
  let sy2 := if 0 < db then clamp_int (src.y2 - db * vscale) else src.y2
  let i := drm_rect_intersect dst clip
  { visible := i.1, src := { x1 := sx1, y1 := sy1, x2 := sx2, y2 := sy2 }, dst := i.2 }

/-- Modelled from the spec: `drm_calc_scale` belongs to `drm_rect.c`, which is not
among the sources.  Spec 4.1: "Compute ... scale factors from the ... source/destination;
reject if negative (malformed rectangle)": the quotient of a source extent (16.16
fixed point) by a destination extent (pixels); `-EINVAL` when either extent is
negative, 0 for an empty destination. -/
def drm_calc_scale (src dst : Int) : Int :=
  if src < 0 ∨ dst < 0 then -EINVAL
  else if dst = 0 then 0
  else src / dst

/-- Modelled from the spec: `drm_rect_calc_hscale` belongs to `drm_rect.c`, which is
not among the sources.  Spec 4.1: "recompute exact (non-relaxed) scale factors on the
clipped rectangles; each must lie within `[min_scale, max_scale]`; violation is a
distinct rejection": the horizontal factor, or a negative errno (`-ERANGE` outside
the limits). -/
def drm_rect_calc_hscale (src dst : drm_rect) (min_hscale max_hscale : Int) : Int :=
  let src_w := drm_rect_width src
  let dst_w := drm_rect_width dst
  let hscale := drm_calc_scale src_w dst_w
  if hscale < 0 ∨ dst_w = 0 then hscale
  else if hscale < min_hscale ∨ max_hscale < hscale then -ERANGE
  else hscale

/-- Modelled from the spec: `drm_rect_calc_vscale` belongs to `drm_rect.c`, which is
not among the sources.  The vertical counterpart of `drm_rect_calc_hscale`. -/
def drm_rect_calc_vscale (src dst : drm_rect) (min_vscale max_vscale : Int) : Int :=
  let src_h := drm_rect_height src
  let dst_h := drm_rect_height dst
  let vscale := drm_calc_scale src_h dst_h
  if vscale < 0 ∨ dst_h = 0 then vscale
  else if vscale < min_vscale ∨ max_vscale < vscale then -ERANGE
  else vscale

/-- Modelled from the spec: `drm_rect_calc_hscale_relaxed` belongs to `drm_rect.c`,
which is not among the sources.  Spec 4.1: "Compute relaxed horizontal/vertical scale
factors from the unclipped source/destination; reject if negative (malformed
rectangle)", and "scale-factor legality is the authoritative rejection point -
clipping ... only fails independently from the final scale check, never from the
relaxed pre-clip estimate": the quotient of the widths without the legality check
(the limits are passed, the estimate is never refused for them); negative only for a
malformed rectangle.  It is an estimate: both rectangles stay as they are. -/
def drm_rect_calc_hscale_relaxed (src dst : drm_rect) (_min_hscale _max_hscale : Int) : Int :=
  let src_w := drm_rect_width src
  let dst_w := drm_rect_width dst
  drm_calc_scale src_w dst_w

/-- Modelled from the spec: `drm_rect_calc_vscale_relaxed` belongs to `drm_rect.c`,
which is not among the sources.  The vertical counterpart of
`drm_rect_calc_hscale_relaxed`. -/
def drm_rect_calc_vscale_relaxed (src dst : drm_rect) (_min_vscale _max_vscale : Int) : Int :=
  let src_h := drm_rect_height src
  let dst_h := drm_rect_height dst
  drm_calc_scale src_h dst_h

/-! ## Data model of the plane controller -/

/-- The pixel formats named in `intel_sprite.c` (`DRM_FORMAT_*` fourcc codes of
`drm_fourcc.h`), and `other` for every further code, carried with the bytes per pixel
that `drm_format_plane_cpp` reports for it. -/
inductive drm_format
  | DRM_FORMAT_YUYV
  | DRM_FORMAT_UYVY
  | DRM_FORMAT_VYUY
  | DRM_FORMAT_YVYU
  | DRM_FORMAT_RGB565
  | DRM_FORMAT_XRGB8888
  | DRM_FORMAT_ARGB8888
  | DRM_FORMAT_XBGR8888
  | DRM_FORMAT_ABGR8888
  | DRM_FORMAT_XBGR2101010
  | DRM_FORMAT_ABGR2101010
  | other (fourcc : Nat) (cpp : Int)
deriving DecidableEq, Repr

open drm_format

/-- Modelled from the spec: `drm_format_plane_cpp` belongs to `drm_crtc.c`, which is not
among the sources.  Spec 4.1 "format bytes-per-pixel": the bytes one pixel of plane 0
takes, 2 for the packed YUV 4:2:2 formats and for RGB565, 4 for the 32 bit RGB
formats. -/
def drm_format_plane_cpp : drm_format → Int
  | DRM_FORMAT_YUYV => 2
  | DRM_FORMAT_UYVY => 2
  | DRM_FORMAT_VYUY => 2
  | DRM_FORMAT_YVYU => 2
  | DRM_FORMAT_RGB565 => 2
  | DRM_FORMAT_XRGB8888 => 4
  | DRM_FORMAT_ARGB8888 => 4
  | DRM_FORMAT_XBGR8888 => 4
  | DRM_FORMAT_ABGR8888 => 4
  | DRM_FORMAT_XBGR2101010 => 4
  | DRM_FORMAT_ABGR2101010 => 4
  | other _ cpp => cpp

/-- The function `format_is_yuv`. -/
def format_is_yuv (format : drm_format) : Bool :=
  match format with
  | DRM_FORMAT_YUYV => true
  | DRM_FORMAT_UYVY => true
  | DRM_FORMAT_VYUY => true
  | DRM_FORMAT_YVYU => true
  | _ => false

/-- The fields of `struct drm_i915_gem_object` the sprite code reads; `handle` tells
one buffer from another, `ggtt_offset` is `i915_gem_obj_ggtt_offset(obj)`. -/
structure drm_i915_gem_object where
  handle : Nat
  tiling_mode : Nat
  ggtt_offset : Int
deriving DecidableEq, Repr

/-- The fields of `struct drm_framebuffer` / `struct intel_framebuffer` the sprite
code reads (`pitch` is `pitches[0]`). -/
structure drm_framebuffer where
  width : Int
  height : Int
  pitch : Int
  pixel_format : drm_format
  obj : drm_i915_gem_object
deriving DecidableEq, Repr

/-- The fields of `struct intel_crtc` the sprite code reads or writes
(`pipe_src_w`, `pipe_src_h` are `config.pipe_src_w`, `config.pipe_src_h`). -/
structure intel_crtc where
  pipe : Int
  plane : Int
  active : Bool
  pipe_src_w : Int
  pipe_src_h : Int
  primary_enabled : Bool
  disable_sprite : Bool
deriving DecidableEq, Repr

/-- The set of backend function pointers `intel_plane_init` installs in a plane
(`update_plane`, `disable_plane`, `update_colorkey`, `get_colorkey`,
`current_surface`): the `ilk_*`, the `ivb_*` or the `vlv_*` functions. -/
inductive plane_funcs
  | ilk
  | ivb
  | vlv
deriving DecidableEq, Repr

/-- The `struct intel_plane`.  `current_surface` is what the plane's `current_surface`
callback returns, `none` when the pointer is NULL: `ilk_current_surface` and
`ivb_current_surface` return the constant `DVSSURFLIVE(pipe)` / `SPRSURFLIVE(pipe)`.
`fb` and `crtc` are the fields `base.fb` and `base.crtc` of the embedded
`struct drm_plane`; the DRM core sets them, the functions of this file only read
them. -/
structure intel_plane where
  pipe : Int
  plane : Int
  can_scale : Bool
  max_downscale : Int
  funcs : plane_funcs
  current_surface : Option Int
  crtc_x : Int
  crtc_y : Int
  crtc_w : Int
  crtc_h : Int
  src_x : Int
  src_y : Int
  src_w : Int
  src_h : Int
  obj : Option drm_i915_gem_object
  fb : Option drm_framebuffer
  crtc : Option intel_crtc
deriving DecidableEq, Repr

/-- The geometry arguments of `intel_update_plane`: `crtc_x`, `crtc_y` are `int`,
`crtc_w`, `crtc_h` are `unsigned int` (pixels), `src_*` are `uint32_t` in 16.16 fixed
point. -/
structure plane_request where
  crtc_x : Int
  crtc_y : Int
  crtc_w : Int
  crtc_h : Int
  src_x : Int
  src_y : Int
  src_w : Int
  src_h : Int
deriving DecidableEq, Repr

/-- The `WARN_ON` assertions of `intel_update_plane`. -/
inductive WARN
  | src_viewport_enlarged
  | scaling_on_fixed_plane
  | primary_off_but_hidden
deriving DecidableEq, Repr

/-- The local variables of `intel_update_plane` that hold the resolved geometry.
`src` is the 16.16 source rectangle, `hscale`, `vscale` the last values of the scale
factors, `warns` the assertions that fired on the way. -/
structure resolved where
  visible : Bool
  crtc_x : Int
  crtc_y : Int
  crtc_w : Int
  crtc_h : Int
  src_x : Int
  src_y : Int
  src_w : Int
  src_h : Int
  disable_primary : Bool
  hscale : Int
  vscale : Int
  src : drm_rect
  warns : List WARN
deriving DecidableEq, Repr

/-- How the geometry part of `intel_update_plane` ends: a `BUG_ON` halts the kernel,
`error` is an early `return` of a negative errno, `ok` goes on with the geometry. -/
inductive resolve_result
  | BUG
  | error (code : Int) (warns : List WARN)
  | ok (g : resolved)
deriving DecidableEq, Repr

/-! ## The geometry code of `intel_update_plane` -/

/-- The rectangle `src` of `intel_update_plane` (lines 1175-1181). -/
def request_src (a : plane_request) : drm_rect :=
  { x1 := to_int a.src_x
    x2 := to_int (to_u32 (a.src_x + a.src_w))
    y1 := to_int a.src_y
    y2 := to_int (to_u32 (a.src_y + a.src_h)) }

/-- The rectangle `dst` of `intel_update_plane` (lines 1182-1188). -/
def request_dst (a : plane_request) : drm_rect :=
  { x1 := a.crtc_x
    x2 := to_int (to_u32 (a.crtc_x + a.crtc_w))
    y1 := a.crtc_y
    y2 := to_int (to_u32 (a.crtc_y + a.crtc_h)) }

/-- The rectangle `clip` of `intel_update_plane` (lines 1189-1192). -/
def pipe_clip (crtc : intel_crtc) : drm_rect :=
  { x1 := 0
    y1 := 0
    x2 := if crtc.active then crtc.pipe_src_w else 0
    y2 := if crtc.active then crtc.pipe_src_h else 0 }

/-- The value of `max_scale` (line 1235). -/
def plane_max_scale (p : intel_plane) : Int := to_int (p.max_downscale * 65536)

/-- The value of `min_scale` (line 1236). -/
def plane_min_scale (p : intel_plane) : Int := if p.can_scale then 1 else 65536

/-- Lines 1309-1342 of `intel_update_plane`: the size restrictions when scaling, and
`disable_primary`.  The argument holds the local variables at line 1309. -/
def intel_update_plane_limits (p : intel_plane) (crtc : intel_crtc) (fb : drm_framebuffer)
    (s : resolved) : resolve_result :=
  let pixel_size := drm_format_plane_cpp fb.pixel_format
  -- Check size restrictions when scaling
  let scaling := s.visible && (decide (s.src_w ≠ s.crtc_w) || decide (s.src_h ≠ s.crtc_h))
  let warns :=
    if scaling && !p.can_scale then s.warns ++ [WARN.scaling_on_fixed_plane] else s.warns
  let visible :=
    if scaling && (decide (s.crtc_w < 3) || decide (s.crtc_h < 3)) then false else s.visible
  let visible :=
    if scaling && (decide (s.src_w < 3) || decide (s.src_h < 3)) then false else visible
  let width_bytes := to_u32 (to_u32 (s.src_x * pixel_size) % 64 + s.src_w * pixel_size)
  if scaling && (decide (2048 < s.src_w) || decide (2048 < s.src_h) ||
      decide (4096 < width_bytes) || decide (4096 < fb.pitch)) then
    resolve_result.error (-EINVAL) warns
  else
    let dst : drm_rect :=
      { x1 := s.crtc_x
        x2 := to_int (to_u32 (s.crtc_x + s.crtc_w))
        y1 := s.crtc_y
        y2 := to_int (to_u32 (s.crtc_y + s.crtc_h)) }
    -- If the sprite is completely covering the primary plane,
    -- we can disable the primary and save power.
    let disable_primary := drm_rect_equals dst (pipe_clip crtc)
    let warns :=
      if disable_primary && !visible && crtc.active
      then warns ++ [WARN.primary_off_but_hidden] else warns
    resolve_result.ok
      { s with visible := visible, disable_primary := disable_primary, warns := warns }

/-- Lines 1235-1307 of `intel_update_plane`: scale factors, clipping, the exact scale
check, and the adjustment to whole (macro)pixels.  `ok` holds the local variables at
line 1309 (`disable_primary` still has its initial value `false`). -/
def intel_update_plane_clip (p : intel_plane) (crtc : intel_crtc) (fb : drm_framebuffer)
    (a : plane_request) : resolve_result :=
  let src := request_src a
  let dst := request_dst a
  let clip := pipe_clip crtc
  let max_scale := plane_max_scale p
  let min_scale := plane_min_scale p
  let hscale := drm_rect_calc_hscale_relaxed src dst min_scale max_scale
  if hscale < 0 then resolve_result.BUG else
  let vscale := drm_rect_calc_vscale_relaxed src dst min_scale max_scale
  if vscale < 0 then resolve_result.BUG else
  let c := drm_rect_clip_scaled src dst clip hscale vscale
  let crtc_x := c.dst.x1
  let crtc_y := c.dst.y1
  let crtc_w := to_u32 (drm_rect_width c.dst)
  let crtc_h := to_u32 (drm_rect_height c.dst)
  if c.visible then
    -- check again in case clipping clamped the results
    let hscale := drm_rect_calc_hscale c.src c.dst min_scale max_scale
    if hscale < 0 then resolve_result.error hscale [] else
    let vscale := drm_rect_calc_vscale c.src c.dst min_scale max_scale
    if vscale < 0 then resolve_result.error vscale [] else
    -- Make the source viewport size an exact multiple of the scaling factors.
    let src := drm_rect_adjust_size c.src
      (to_int (drm_rect_width c.dst * hscale - drm_rect_width c.src))
      (to_int (drm_rect_height c.dst * vscale - drm_rect_height c.src))
    -- sanity check to make sure the src viewport wasn't enlarged
    let warns :=
      if src.x1 < to_int a.src_x ∨ src.y1 < to_int a.src_y ∨
         to_int (to_u32 (a.src_x + a.src_w)) < src.x2 ∨
         to_int (to_u32 (a.src_y + a.src_h)) < src.y2
      then [WARN.src_viewport_enlarged] else []
    -- Hardware doesn't handle subpixel coordinates.
    let src_x := to_u32 (src.x1 / 65536)
    let src_w := to_u32 (drm_rect_width src / 65536)
    let src_y := to_u32 (src.y1 / 65536)
    let src_h := to_u32 (drm_rect_height src / 65536)
    let yuv := format_is_yuv fb.pixel_format
    let src_x := if yuv then src_x - src_x % 2 else src_x
    let src_w := if yuv then src_w - src_w % 2 else src_w
    -- Must keep src and dst the same if we can't scale.
    let crtc_w := if yuv && !p.can_scale then crtc_w - crtc_w % 2 else crtc_w
    let visible := if yuv && decide (crtc_w = 0) then false else true
    resolve_result.ok
      { visible := visible
        crtc_x := crtc_x, crtc_y := crtc_y, crtc_w := crtc_w, crtc_h := crtc_h
        src_x := src_x, src_y := src_y, src_w := src_w, src_h := src_h
        disable_primary := false
        hscale := hscale, vscale := vscale, src := src, warns := warns }
  else
    resolve_result.ok
      { visible := false
        crtc_x := crtc_x, crtc_y := crtc_y, crtc_w := crtc_w, crtc_h := crtc_h
        src_x := a.src_x, src_y := a.src_y, src_w := a.src_w, src_h := a.src_h
        disable_primary := false
        hscale := hscale, vscale := vscale, src := c.src, warns := [] }

/-- Lines 1235-1342 of `intel_update_plane`: from the request to the resolved
geometry. -/
def intel_update_plane_resolve (p : intel_plane) (crtc : intel_crtc) (fb : drm_framebuffer)
    (a : plane_request) : resolve_result :=
  match intel_update_plane_clip p crtc fb a with
  | resolve_result.ok s => intel_update_plane_limits p crtc fb s
  | r => r

/-- The result of the scaled clipping of line 1244, as a function of the request. -/
def clip_of (p : intel_plane) (crtc : intel_crtc) (a : plane_request) : clip_result :=
  drm_rect_clip_scaled (request_src a) (request_dst a) (pipe_clip crtc)
    (drm_rect_calc_hscale_relaxed (request_src a) (request_dst a)
      (plane_min_scale p) (plane_max_scale p))
    (drm_rect_calc_vscale_relaxed (request_src a) (request_dst a)
      (plane_min_scale p) (plane_max_scale p))

/-- The exact horizontal scale factor of line 1253, computed on the clipped rectangles. -/
def exact_hscale (p : intel_plane) (crtc : intel_crtc) (a : plane_request) : Int :=
  drm_rect_calc_hscale (clip_of p crtc a).src (clip_of p crtc a).dst
    (plane_min_scale p) (plane_max_scale p)

/-- The exact vertical scale factor of line 1262, computed on the clipped rectangles. -/
def exact_vscale (p : intel_plane) (crtc : intel_crtc) (a : plane_request) : Int :=
  drm_rect_calc_vscale (clip_of p crtc a).src (clip_of p crtc a).dst
    (plane_min_scale p) (plane_max_scale p)

/-- The 16.16 source rectangle after `drm_rect_adjust_size` (line 1272). -/
def adjusted_src (p : intel_plane) (crtc : intel_crtc) (a : plane_request) : drm_rect :=
  drm_rect_adjust_size (clip_of p crtc a).src
    (to_int (drm_rect_width (clip_of p crtc a).dst * exact_hscale p crtc a -
      drm_rect_width (clip_of p crtc a).src))
    (to_int (drm_rect_height (clip_of p crtc a).dst * exact_vscale p crtc a -
      drm_rect_height (clip_of p crtc a).src))

/-! ## The plane controller -/

/-- What the controller does to buffers and to the hardware, in order. The two
backend calls go through the function pointers of the plane. -/
inductive action
  | pin_and_fence_fb_obj (obj : drm_i915_gem_object)
  | update_plane (fb : drm_framebuffer) (crtc_x crtc_y crtc_w crtc_h : Int)
      (src_x src_y src_w src_h : Int) (disable_primary : Bool)
  | disable_plane
  | unpin_fb_obj (obj : drm_i915_gem_object)
  | crtc_queue_unpin (obj : drm_i915_gem_object)
deriving DecidableEq, Repr

/-- How a call ends: `BUG` halts the kernel, `ret v` returns `v`. -/
inductive retval
  | BUG
  | ret (v : Int)
deriving DecidableEq, Repr

/-- A call of the controller: the value returned, the plane afterwards, and the
actions performed. -/
structure outcome where
  ret : retval
  plane : intel_plane
  trace : List action
deriving DecidableEq, Repr

/-- The function `intel_plane_queue_unpin`: the action that releases `obj`. -/
def intel_plane_queue_unpin (plane : intel_plane) (obj : drm_i915_gem_object) : List action :=
  match plane.current_surface with
  | some live =>
    if live ≠ obj.ggtt_offset then [action.unpin_fb_obj obj]
    else [action.crtc_queue_unpin obj]
  | none => [action.crtc_queue_unpin obj]

/-- The function `intel_update_plane`.  `pin_ret` is what
`intel_pin_and_fence_fb_obj` returns for the buffer of `fb`. -/
def intel_update_plane (plane : intel_plane) (crtc : intel_crtc) (fb : drm_framebuffer)
    (a : plane_request) (pin_ret : Int) : outcome :=
  let obj := fb.obj
  let old_obj := plane.obj
  -- Don't modify another pipe's plane
  if plane.pipe ≠ crtc.pipe then ⟨retval.ret (-EINVAL), plane, []⟩ else
  if fb.width < 3 ∨ fb.height < 3 ∨ 16384 < fb.pitch then ⟨retval.ret (-EINVAL), plane, []⟩ else
  -- Sprite planes can be linear or x-tiled surfaces
  if ¬ (obj.tiling_mode = I915_TILING_NONE ∨ obj.tiling_mode = I915_TILING_X) then
    ⟨retval.ret (-EINVAL), plane, []⟩ else
  match intel_update_plane_resolve plane crtc fb a with
  | resolve_result.BUG => ⟨retval.BUG, plane, []⟩
  | resolve_result.error code _ => ⟨retval.ret code, plane, []⟩
  | resolve_result.ok g =>
    if pin_ret ≠ 0 then ⟨retval.ret pin_ret, plane, [action.pin_and_fence_fb_obj obj]⟩ else
    let plane1 : intel_plane :=
      { plane with
        crtc_x := a.crtc_x, crtc_y := a.crtc_y, crtc_w := a.crtc_w, crtc_h := a.crtc_h
        src_x := a.src_x, src_y := a.src_y, src_w := a.src_w, src_h := a.src_h
        obj := some obj }
    let hw : List action :=
      if crtc.active then
        if g.visible then
          [action.update_plane fb g.crtc_x g.crtc_y g.crtc_w g.crtc_h
            g.src_x g.src_y g.src_w g.src_h g.disable_primary]
        else [action.disable_plane]
      else []
    -- Unpin old obj after new one is active to avoid ugliness
    let unpin : List action :=
      match old_obj with
      | some o => intel_plane_queue_unpin plane1 o
      | none => []
    ⟨retval.ret 0, plane1, [action.pin_and_fence_fb_obj obj] ++ hw ++ unpin⟩

/-- The function `intel_disable_plane`. -/
def intel_disable_plane (plane : intel_plane) : outcome :=
  match plane.fb with
  | none => ⟨retval.ret 0, plane, []⟩
  | some _ =>
    match plane.crtc with
    | none => ⟨retval.ret (-EINVAL), plane, []⟩
    | some crtc =>
      let hw : List action := if crtc.active then [action.disable_plane] else []
      match plane.obj with
      | some o => ⟨retval.ret 0, { plane with obj := none }, hw ++ intel_plane_queue_unpin plane o⟩
      | none => ⟨retval.ret 0, plane, hw⟩

/-- Both rectangles of the request fit the `int` coordinates of a `drm_rect`: the
arguments are values of their C types, and neither `crtc_x + crtc_w`, `crtc_y + crtc_h`
nor `src_x + src_w`, `src_y + src_h` leaves the `int` range. -/
def plane_request.well_formed (a : plane_request) : Prop :=
  -2147483648 ≤ a.crtc_x ∧ -2147483648 ≤ a.crtc_y ∧ 0 ≤ a.crtc_w ∧ 0 ≤ a.crtc_h ∧
  a.crtc_w ≤ 2147483647 ∧ a.crtc_h ≤ 2147483647 ∧
  a.crtc_x + a.crtc_w ≤ 2147483647 ∧ a.crtc_y + a.crtc_h ≤ 2147483647 ∧
  0 ≤ a.src_x ∧ 0 ≤ a.src_y ∧ 0 ≤ a.src_w ∧ 0 ≤ a.src_h ∧
  a.src_x + a.src_w ≤ 2147483647 ∧ a.src_y + a.src_h ≤ 2147483647

instance (a : plane_request) : Decidable a.well_formed := by
  unfold plane_request.well_formed; infer_instance

/-- The pipe source size is a pair of non-negative `int`s. -/
def intel_crtc.sized (crtc : intel_crtc) : Prop :=
  0 ≤ crtc.pipe_src_w ∧ crtc.pipe_src_w ≤ 2147483647 ∧
  0 ≤ crtc.pipe_src_h ∧ crtc.pipe_src_h ≤ 2147483647

instance (crtc : intel_crtc) : Decidable crtc.sized := by
  unfold intel_crtc.sized; infer_instance

/-- The request passes the three guards at the head of `intel_update_plane`
(lines 1208-1228). -/
def passes_guards (plane : intel_plane) (crtc : intel_crtc) (fb : drm_framebuffer) : Prop :=
  plane.pipe = crtc.pipe ∧ 3 ≤ fb.width ∧ 3 ≤ fb.height ∧ fb.pitch ≤ 16384 ∧
  (fb.obj.tiling_mode = I915_TILING_NONE ∨ fb.obj.tiling_mode = I915_TILING_X)

instance (plane : intel_plane) (crtc : intel_crtc) (fb : drm_framebuffer) :
    Decidable (passes_guards plane crtc fb) := by
  unfold passes_guards; infer_instance

/-! ## Plane construction (`intel_plane_init`) -/

/-- What the sprite code asks of the device: `INTEL_INFO(dev)->gen`, the platform
predicates `IS_IVYBRIDGE`, `IS_VALLEYVIEW`, `IS_HASWELL`, `IS_BROADWELL`, and
`dev_priv->fbc.plane`. -/
structure drm_device where
  gen : Int
  is_ivybridge : Bool
  is_valleyview : Bool
  is_haswell : Bool
  is_broadwell : Bool
  fbc_plane : Int
deriving DecidableEq, Repr

/-- The constants of `i915_reg.h` (not among the sources) that the embedded code uses:
the enable bits of the plane control registers and the offsets of the two live-surface
registers as functions of the pipe. -/
structure i915_reg where
  DISPLAY_PLANE_ENABLE : Nat
  DVS_ENABLE : Nat
  SPRITE_ENABLE : Nat
  SP_ENABLE : Nat
  DVSSURFLIVE : Int → Int
  SPRSURFLIVE : Int → Int

/-- The table `ilk_plane_formats`. -/
def ilk_plane_formats : List drm_format :=
  [DRM_FORMAT_XRGB8888, DRM_FORMAT_YUYV, DRM_FORMAT_YVYU, DRM_FORMAT_UYVY, DRM_FORMAT_VYUY]

/-- The table `snb_plane_formats`. -/
def snb_plane_formats : List drm_format :=
  [DRM_FORMAT_XBGR8888, DRM_FORMAT_XRGB8888, DRM_FORMAT_YUYV, DRM_FORMAT_YVYU,
   DRM_FORMAT_UYVY, DRM_FORMAT_VYUY]

/-- The table `vlv_plane_formats`. -/
def vlv_plane_formats : List drm_format :=
  [DRM_FORMAT_RGB565, DRM_FORMAT_ABGR8888, DRM_FORMAT_ARGB8888, DRM_FORMAT_XBGR8888,
   DRM_FORMAT_XRGB8888, DRM_FORMAT_XBGR2101010, DRM_FORMAT_ABGR2101010, DRM_FORMAT_YUYV,
   DRM_FORMAT_YVYU, DRM_FORMAT_UYVY, DRM_FORMAT_VYUY]

/-- A plane as `kzalloc` leaves it, with the capabilities and callbacks given. -/
def new_plane (pipe plane : Int) (can_scale : Bool) (max_downscale : Int)
    (funcs : plane_funcs) (current_surface : Option Int) : intel_plane :=
  { pipe := pipe, plane := plane, can_scale := can_scale, max_downscale := max_downscale
    funcs := funcs, current_surface := current_surface
    crtc_x := 0, crtc_y := 0, crtc_w := 0, crtc_h := 0
    src_x := 0, src_y := 0, src_w := 0, src_h := 0
    obj := none, fb := none, crtc := none }

/-- The function `intel_plane_init`, for a device on which `kzalloc` and
`drm_plane_init` succeed: the plane it registers and the format list it registers
with it, or the errno it returns. -/
def intel_plane_init (hw : i915_reg) (dev : drm_device) (pipe plane : Int) :
    Except Int (intel_plane × List drm_format) :=
  if dev.gen < 5 then Except.error (-ENODEV)
  else if dev.gen = 5 ∨ dev.gen = 6 then
    Except.ok (new_plane pipe plane true 16 plane_funcs.ilk (some (hw.DVSSURFLIVE pipe)),
      if dev.gen = 6 then snb_plane_formats else ilk_plane_formats)
  else if dev.gen = 7 ∨ dev.gen = 8 then
    let can_scale := dev.is_ivybridge
    let max_downscale : Int := if dev.is_ivybridge then 2 else 1
    if dev.is_valleyview then
      Except.ok (new_plane pipe plane can_scale max_downscale plane_funcs.vlv none,
        vlv_plane_formats)
    else
      Except.ok (new_plane pipe plane can_scale max_downscale plane_funcs.ivb
        (some (hw.SPRSURFLIVE pipe)), snb_plane_formats)
  else Except.error (-ENODEV)

/-- The plane has the scaling capabilities of a plane registered by
`intel_plane_init`; the geometry, buffer and framebuffer fields may have moved on. -/
def plane_of_init (p : intel_plane) : Prop :=
  ∃ (hw : i915_reg) (dev : drm_device) (pipe plane : Int) (p0 : intel_plane)
    (formats : List drm_format),
    intel_plane_init hw dev pipe plane = Except.ok (p0, formats) ∧
    p.can_scale = p0.can_scale ∧ p.max_downscale = p0.max_downscale

/-! ## The `disable_plane` backends -/

/-- The registers the sprite code touches (`i915_reg.h` macros, by name): the eight of
the `disable_plane` backends first, then those of the `update_plane` backends and of
the colorkey functions.  Two macros, or one macro at two arguments, stand for two
registers. -/
inductive Reg
  | DSPCNTR (plane : Int)
  | DVSCNTR (pipe : Int)
  | DVSSCALE (pipe : Int)
  | DVSSURF (pipe : Int)
  | SPRCTL (pipe : Int)
  | SPRSCALE (pipe : Int)
  | SPCNTR (pipe plane : Int)
  | SPSURF (pipe plane : Int)
  | DVSSTRIDE (pipe : Int)
  | DVSPOS (pipe : Int)
  | DVSTILEOFF (pipe : Int)
  | DVSLINOFF (pipe : Int)
  | DVSSIZE (pipe : Int)
  | DVSKEYVAL (pipe : Int)
  | DVSKEYMAX (pipe : Int)
  | DVSKEYMSK (pipe : Int)
  | SPRSTRIDE (pipe : Int)
  | SPRPOS (pipe : Int)
  | SPROFFSET (pipe : Int)
  | SPRTILEOFF (pipe : Int)
  | SPRLINOFF (pipe : Int)
  | SPRSIZE (pipe : Int)
  | SPRSURF (pipe : Int)
  | SPRKEYVAL (pipe : Int)
  | SPRKEYMAX (pipe : Int)
  | SPRKEYMSK (pipe : Int)
  | SPSTRIDE (pipe plane : Int)
  | SPPOS (pipe plane : Int)
  | SPTILEOFF (pipe plane : Int)
  | SPLINOFF (pipe plane : Int)
  | SPSIZE (pipe plane : Int)
  | SPKEYMINVAL (pipe plane : Int)
  | SPKEYMAXVAL (pipe plane : Int)
  | SPKEYMSK (pipe plane : Int)
deriving DecidableEq, Repr

/-- Functions of other files that the sprite code calls. `intel_pipe_vblank_evade` is
in this file; it waits on the scanline counter and touches no plane register, and is
kept as one step.  `DRM_ERROR` is the logging macro. -/
inductive extern_call
  | intel_update_sprite_watermarks (sprite_width pixel_size : Int) (enabled scaled : Bool)
  | intel_pipe_vblank_evade
  | intel_program_watermarks
  | intel_disable_fbc
  | hsw_disable_ips
  | hsw_enable_ips
  | intel_flush_primary_plane (plane : Int)
  | intel_update_fbc
  | trace_i915_sprite_end
  | ilk_disable_lp_wm
  | intel_wait_for_vblank (pipe : Int)
  | drm_modeset_lock_all
  | drm_modeset_unlock_all
  | DRM_ERROR
deriving DecidableEq, Repr

/-- One step of a backend: a register access through the macros `I915_WRITE`,
`I915_MODIFY_DISPBASE`, `POSTING_READ`, an interrupt switch, or a call. -/
inductive hw_event
  | I915_WRITE (reg : Reg) (val : Nat)
  | I915_MODIFY_DISPBASE (reg : Reg) (gfx_addr : Nat)
  | POSTING_READ (reg : Reg)
  | local_irq_disable
  | local_irq_enable
  | call (f : extern_call)
deriving DecidableEq, Repr

/-- The expression `x & ~m` on 32 bit values. -/
def clear_bits (x m : Nat) : Nat := x &&& (4294967295 ^^^ m)

/-- The function `intel_update_primary`; `regs` is what `I915_READ` returns. -/
def intel_update_primary (hw : i915_reg) (dev : drm_device) (regs : Reg → Nat)
    (crtc : intel_crtc) : List hw_event :=
  let reg := Reg.DSPCNTR crtc.plane
  let tmp := regs reg
  if (if crtc.primary_enabled then 1 else 0) = tmp &&& hw.DISPLAY_PLANE_ENABLE then
    [hw_event.call extern_call.trace_i915_sprite_end]
  else if !crtc.primary_enabled then
    (if dev.fbc_plane = crtc.plane then [hw_event.call extern_call.intel_disable_fbc] else []) ++
    (if dev.is_haswell then [hw_event.call extern_call.hsw_disable_ips] else []) ++
    [hw_event.I915_WRITE reg (clear_bits tmp hw.DISPLAY_PLANE_ENABLE),
     hw_event.call (extern_call.intel_flush_primary_plane crtc.plane),
     hw_event.call extern_call.trace_i915_sprite_end]
  else
    [hw_event.I915_WRITE reg (tmp ||| hw.DISPLAY_PLANE_ENABLE),
     hw_event.call (extern_call.intel_flush_primary_plane crtc.plane)] ++
    (if dev.is_haswell then [hw_event.call extern_call.hsw_enable_ips] else []) ++
    [hw_event.call extern_call.intel_update_fbc,
     hw_event.call extern_call.trace_i915_sprite_end]

/-- The common opening of the three `disable_plane` backends: the primary plane is
marked enabled, the watermarks are updated, interrupts go off, the vblank is evaded,
the watermarks are programmed and the primary plane is updated. -/
def disable_plane_prologue (hw : i915_reg) (dev : drm_device) (regs : Reg → Nat)
    (crtc : intel_crtc) : List hw_event :=
  [hw_event.call (extern_call.intel_update_sprite_watermarks 0 0 false false),
   hw_event.local_irq_disable,
   hw_event.call extern_call.intel_pipe_vblank_evade,
   hw_event.call extern_call.intel_program_watermarks] ++
  intel_update_primary hw dev regs { crtc with primary_enabled := true }

/-- The function `ilk_disable_plane`: its steps and the crtc afterwards. -/
def ilk_disable_plane (hw : i915_reg) (dev : drm_device) (regs : Reg → Nat)
    (plane : intel_plane) (crtc : intel_crtc) : List hw_event × intel_crtc :=
  let pipe := plane.pipe
  (disable_plane_prologue hw dev regs crtc ++
   [hw_event.I915_WRITE (Reg.DVSCNTR pipe) (clear_bits (regs (Reg.DVSCNTR pipe)) hw.DVS_ENABLE),
    -- Disable the scaler
    hw_event.I915_WRITE (Reg.DVSSCALE pipe) 0,
    -- Flush double buffered register updates
    hw_event.I915_MODIFY_DISPBASE (Reg.DVSSURF pipe) 0,
    hw_event.POSTING_READ (Reg.DVSSURF pipe),
    hw_event.local_irq_enable],
   { crtc with primary_enabled := true })

/-- The function `ivb_disable_plane`: its steps and the crtc afterwards. -/
def ivb_disable_plane (hw : i915_reg) (dev : drm_device) (regs : Reg → Nat)
    (plane : intel_plane) (crtc : intel_crtc) : List hw_event × intel_crtc :=
  let pipe := plane.pipe
  (disable_plane_prologue hw dev regs crtc ++
   [hw_event.I915_WRITE (Reg.SPRCTL pipe) (clear_bits (regs (Reg.SPRCTL pipe)) hw.SPRITE_ENABLE)] ++
   -- Can't leave the scaler enabled...
   (if plane.can_scale then [hw_event.I915_WRITE (Reg.SPRSCALE pipe) 0] else []) ++
   [hw_event.local_irq_enable],
   -- Scheduling the sprite disable to corresponding flip
   { crtc with primary_enabled := true, disable_sprite := true })

/-- The function `vlv_disable_plane`: its steps and the crtc afterwards. -/
def vlv_disable_plane (hw : i915_reg) (dev : drm_device) (regs : Reg → Nat)
    (plane : intel_plane) (crtc : intel_crtc) : List hw_event × intel_crtc :=
  let pipe := plane.pipe
  let pl := plane.plane
  (disable_plane_prologue hw dev regs crtc ++
   [hw_event.I915_WRITE (Reg.SPCNTR pipe pl) (clear_bits (regs (Reg.SPCNTR pipe pl)) hw.SP_ENABLE),
    -- Activate double buffered register update
    hw_event.I915_MODIFY_DISPBASE (Reg.SPSURF pipe pl) 0,
    hw_event.POSTING_READ (Reg.SPSURF pipe pl),
    hw_event.local_irq_enable],
   { crtc with primary_enabled := true })

/-- The call `intel_plane->disable_plane(plane, crtc)` through the function pointer of
the plane. -/
def plane_disable_plane (hw : i915_reg) (dev : drm_device) (regs : Reg → Nat)
    (plane : intel_plane) (crtc : intel_crtc) : List hw_event × intel_crtc :=
  match plane.funcs with
  | plane_funcs.ilk => ilk_disable_plane hw dev regs plane crtc
  | plane_funcs.ivb => ivb_disable_plane hw dev regs plane crtc
  | plane_funcs.vlv => vlv_disable_plane hw dev regs plane crtc

/-- The control register of the sprite plane: `DVSCNTR`, `SPRCTL` or `SPCNTR`. -/
def plane_control_reg (plane : intel_plane) : Reg :=
  match plane.funcs with
  | plane_funcs.ilk => Reg.DVSCNTR plane.pipe
  | plane_funcs.ivb => Reg.SPRCTL plane.pipe
  | plane_funcs.vlv => Reg.SPCNTR plane.pipe plane.plane

/-- The action touches a buffer pin count: a pin, an unpin, or a queued unpin. -/
def action.is_pin_or_unpin : action → Bool
  | action.pin_and_fence_fb_obj _ => true
  | action.unpin_fb_obj _ => true
  | action.crtc_queue_unpin _ => true
  | _ => false

/-! ## Concrete configurations -/

/-- One assignment of the `i915_reg.h` constants: every enable bit is bit 31, the
live-surface registers sit at `0x721ac` and `0x702ac`, `0x1000` apart per pipe. -/
def sample_reg : i915_reg :=
  { DISPLAY_PLANE_ENABLE := 2147483648
    DVS_ENABLE := 2147483648
    SPRITE_ENABLE := 2147483648
    SP_ENABLE := 2147483648
    DVSSURFLIVE := fun pipe => 467372 + pipe * 4096
    SPRSURFLIVE := fun pipe => 459436 + pipe * 4096 }

/-- A generation 5 device (Ironlake). -/
def ilk_device : drm_device :=
  { gen := 5, is_ivybridge := false, is_valleyview := false, is_haswell := false
    is_broadwell := false, fbc_plane := -1 }

/-- A generation 7 device that is neither Ivybridge nor Valleyview (Haswell). -/
def hsw_device : drm_device :=
  { gen := 7, is_ivybridge := false, is_valleyview := false, is_haswell := true
    is_broadwell := false, fbc_plane := -1 }

/-- The sprite plane of pipe 0 on `ilk_device`, as `intel_plane_init` registers it:
it scales, down to 1/16. -/
def ilk_sprite : intel_plane :=
  new_plane 0 0 true 16 plane_funcs.ilk (some (sample_reg.DVSSURFLIVE 0))

/-- The sprite plane of pipe 0 on `hsw_device`, as `intel_plane_init` registers it:
it cannot scale. -/
def hsw_sprite : intel_plane :=
  new_plane 0 0 false 1 plane_funcs.ivb (some (sample_reg.SPRSURFLIVE 0))

/-- Pipe 0, active or not, with the pipe source size given. -/
def pipe_a (active : Bool) (w h : Int) : intel_crtc :=
  { pipe := 0, plane := 0, active := active, pipe_src_w := w, pipe_src_h := h
    primary_enabled := true, disable_sprite := false }

/-- A buffer object with the handle and the tiling mode given. -/
def sample_obj (handle tiling : Nat) : drm_i915_gem_object :=
  { handle := handle, tiling_mode := tiling, ggtt_offset := 1048576 * handle }

/-- A linear framebuffer on buffer 1. -/
def sample_fb (format : drm_format) (w h pitch : Int) : drm_framebuffer :=
  { width := w, height := h, pitch := pitch, pixel_format := format
    obj := sample_obj 1 I915_TILING_NONE }

/-- The request of the spec's scenarios: source (0,0)-(1920,1080) in 16.16 fixed point,
destination (0,0)-(960,540). -/
def downscale_request : plane_request :=
  { crtc_x := 0, crtc_y := 0, crtc_w := 960, crtc_h := 540
    src_x := 0, src_y := 0, src_w := 125829120, src_h := 70778880 }

/-- A request at 1:1: destination 101x100 at (100,50), source 101x100 at (0,0). -/
def unit_request : plane_request :=
  { crtc_x := 100, crtc_y := 50, crtc_w := 101, crtc_h := 100
    src_x := 0, src_y := 0, src_w := 6619136, src_h := 6553600 }

/-- A request that scales a 2x2 source up to a 4x4 destination at (0,0). -/
def tiny_request : plane_request :=
  { crtc_x := 0, crtc_y := 0, crtc_w := 4, crtc_h := 4
    src_x := 0, src_y := 0, src_w := 131072, src_h := 131072 }

/-- The local variables at line 1309 for `downscale_request` on a plane that scales. -/
def downscale_locals : resolved :=
  { visible := true, crtc_x := 0, crtc_y := 0, crtc_w := 960, crtc_h := 540
    src_x := 0, src_y := 0, src_w := 1920, src_h := 1080, disable_primary := false
    hscale := 131072, vscale := 131072
    src := { x1 := 0, y1 := 0, x2 := 125829120, y2 := 70778880 }, warns := [] }

/-- The plane of `ilk_device` while it shows buffer 2 on the active pipe 0. -/
def shown_plane : intel_plane :=
  { ilk_sprite with
    obj := some (sample_obj 2 I915_TILING_NONE)
    fb := some { sample_fb DRM_FORMAT_XRGB8888 64 64 256 with obj := sample_obj 2 I915_TILING_NONE }
    crtc := some (pipe_a true 1920 1080) }

/-- A request whose destination, 64x64 at (2000,0), lies to the right of a 1920 pixel
wide pipe. -/
def offscreen_request : plane_request :=
  { crtc_x := 2000, crtc_y := 0, crtc_w := 64, crtc_h := 64
    src_x := 0, src_y := 0, src_w := 4194304, src_h := 4194304 }

/-- A request at 1:1 whose source, 4x4 pixels, starts at the odd pixel 1. -/
def odd_origin_request : plane_request :=
  { crtc_x := 0, crtc_y := 0, crtc_w := 4, crtc_h := 4
    src_x := 65536, src_y := 0, src_w := 262144, src_h := 262144 }

/-- The request at 1:1 that covers a pipe of `w` x `h` pixels. -/
def full_request (w h : Int) : plane_request :=
  { crtc_x := 0, crtc_y := 0, crtc_w := w, crtc_h := h
    src_x := 0, src_y := 0, src_w := w * 65536, src_h := h * 65536 }

/-- The geometry `full_request 1024 768` resolves to on a 1024x768 pipe. -/
def covering_geometry : resolved :=
  { visible := true, crtc_x := 0, crtc_y := 0, crtc_w := 1024, crtc_h := 768
    src_x := 0, src_y := 0, src_w := 1024, src_h := 768, disable_primary := true
    hscale := 65536, vscale := 65536
    src := { x1 := 0, y1 := 0, x2 := 67108864, y2 := 50331648 }, warns := [] }

/-! ## The register file -/

/-- The errno `ENOENT`. -/
def ENOENT : Int := 2

/-- The display registers as the code sees them: `regs` is what `I915_READ` returns,
a read returns the value last written; `trace` is the log of the steps taken. -/
structure reg_file where
  regs : Reg → Nat
  trace : List hw_event

/-- The macro `I915_READ`. -/
def reg_file.I915_READ (s : reg_file) (reg : Reg) : Nat := s.regs reg

/-- The macro `I915_WRITE`. -/
def reg_file.I915_WRITE (s : reg_file) (reg : Reg) (val : Nat) : reg_file :=
  { regs := Function.update s.regs reg val
    trace := s.trace ++ [hw_event.I915_WRITE reg val] }

/-- The macro `POSTING_READ`: a read whose value is dropped. -/
def reg_file.POSTING_READ (s : reg_file) (reg : Reg) : reg_file :=
  { s with trace := s.trace ++ [hw_event.POSTING_READ reg] }

/-- A call of a function of another file that touches none of the registers of `Reg`. -/
def reg_file.call (s : reg_file) (f : extern_call) : reg_file :=
  { s with trace := s.trace ++ [hw_event.call f] }

/-- A register file with the contents given and an empty log. -/
def reg_file.init (regs : Reg → Nat) : reg_file := { regs := regs, trace := [] }

/-! ## Colorkey -/

/-- The `struct drm_intel_sprite_colorkey` of `i915_drm.h`; every field is a `__u32`. -/
structure drm_intel_sprite_colorkey where
  plane_id : Nat
  min_value : Nat
  channel_mask : Nat
  max_value : Nat
  flags : Nat
deriving DecidableEq, Repr

/-- The constants of `i915_drm.h` and `i915_reg.h` (not among the sources) that the
colorkey functions use: the three flags of the ioctl and the key mode bits of the three
control registers. -/
structure colorkey_bits where
  I915_SET_COLORKEY_NONE : Nat
  I915_SET_COLORKEY_DESTINATION : Nat
  I915_SET_COLORKEY_SOURCE : Nat
  DVS_SOURCE_KEY : Nat
  DVS_DEST_KEY : Nat
  SPRITE_SOURCE_KEY : Nat
  SPRITE_DEST_KEY : Nat
  SP_SOURCE_KEY : Nat

/-- The function `vlv_update_colorkey`: the value returned and the registers after. -/
def vlv_update_colorkey (k : colorkey_bits) (s : reg_file) (dplane : intel_plane)
    (key : drm_intel_sprite_colorkey) : Int × reg_file :=
  let pipe := dplane.pipe
  let plane := dplane.plane
  if key.flags &&& k.I915_SET_COLORKEY_DESTINATION ≠ 0 then (-EINVAL, s) else
  let s := s.I915_WRITE (Reg.SPKEYMINVAL pipe plane) key.min_value
  let s := s.I915_WRITE (Reg.SPKEYMAXVAL pipe plane) key.max_value
  let s := s.I915_WRITE (Reg.SPKEYMSK pipe plane) key.channel_mask
  let sprctl := s.I915_READ (Reg.SPCNTR pipe plane)
  let sprctl := clear_bits sprctl k.SP_SOURCE_KEY
  let sprctl :=
    if key.flags &&& k.I915_SET_COLORKEY_SOURCE ≠ 0 then sprctl ||| k.SP_SOURCE_KEY else sprctl
  let s := s.I915_WRITE (Reg.SPCNTR pipe plane) sprctl
  let s := s.POSTING_READ (Reg.SPKEYMSK pipe plane)
  (0, s)

/-- The function `vlv_get_colorkey`: the key it fills in. -/
def vlv_get_colorkey (k : colorkey_bits) (s : reg_file) (dplane : intel_plane)
    (key : drm_intel_sprite_colorkey) : drm_intel_sprite_colorkey × reg_file :=
  let pipe := dplane.pipe
  let plane := dplane.plane
  let key := { key with min_value := s.I915_READ (Reg.SPKEYMINVAL pipe plane) }
  let key := { key with max_value := s.I915_READ (Reg.SPKEYMAXVAL pipe plane) }
  let key := { key with channel_mask := s.I915_READ (Reg.SPKEYMSK pipe plane) }
  let sprctl := s.I915_READ (Reg.SPCNTR pipe plane)
  if sprctl &&& k.SP_SOURCE_KEY ≠ 0 then
    ({ key with flags := k.I915_SET_COLORKEY_SOURCE }, s)
  else
    ({ key with flags := k.I915_SET_COLORKEY_NONE }, s)

/-- The function `ivb_update_colorkey`: the value returned and the registers after. -/
def ivb_update_colorkey (k : colorkey_bits) (s : reg_file) (plane : intel_plane)
    (key : drm_intel_sprite_colorkey) : Int × reg_file :=
  let ret : Int := 0
  let s := s.I915_WRITE (Reg.SPRKEYVAL plane.pipe) key.min_value
  let s := s.I915_WRITE (Reg.SPRKEYMAX plane.pipe) key.max_value
  let s := s.I915_WRITE (Reg.SPRKEYMSK plane.pipe) key.channel_mask
  let sprctl := s.I915_READ (Reg.SPRCTL plane.pipe)
  let sprctl := clear_bits sprctl (k.SPRITE_SOURCE_KEY ||| k.SPRITE_DEST_KEY)
  let sprctl :=
    if key.flags &&& k.I915_SET_COLORKEY_DESTINATION ≠ 0 then sprctl ||| k.SPRITE_DEST_KEY
    else if key.flags &&& k.I915_SET_COLORKEY_SOURCE ≠ 0 then sprctl ||| k.SPRITE_SOURCE_KEY
    else sprctl
  let s := s.I915_WRITE (Reg.SPRCTL plane.pipe) sprctl
  let s := s.POSTING_READ (Reg.SPRKEYMSK plane.pipe)
  (ret, s)

/-- The function `ivb_get_colorkey`: the key it fills in. -/
def ivb_get_colorkey (k : colorkey_bits) (s : reg_file) (plane : intel_plane)
    (key : drm_intel_sprite_colorkey) : drm_intel_sprite_colorkey × reg_file :=
  let key := { key with min_value := s.I915_READ (Reg.SPRKEYVAL plane.pipe) }
  let key := { key with max_value := s.I915_READ (Reg.SPRKEYMAX plane.pipe) }
  let key := { key with channel_mask := s.I915_READ (Reg.SPRKEYMSK plane.pipe) }
  let key := { key with flags := 0 }
  let sprctl := s.I915_READ (Reg.SPRCTL plane.pipe)
  if sprctl &&& k.SPRITE_DEST_KEY ≠ 0 then
    ({ key with flags := k.I915_SET_COLORKEY_DESTINATION }, s)
  else if sprctl &&& k.SPRITE_SOURCE_KEY ≠ 0 then
    ({ key with flags := k.I915_SET_COLORKEY_SOURCE }, s)
  else
    ({ key with flags := k.I915_SET_COLORKEY_NONE }, s)

/-- The function `ilk_update_colorkey`: the value returned and the registers after. -/
def ilk_update_colorkey (k : colorkey_bits) (s : reg_file) (plane : intel_plane)
    (key : drm_intel_sprite_colorkey) : Int × reg_file :=
  let ret : Int := 0
  let s := s.I915_WRITE (Reg.DVSKEYVAL plane.pipe) key.min_value
  let s := s.I915_WRITE (Reg.DVSKEYMAX plane.pipe) key.max_value
  let s := s.I915_WRITE (Reg.DVSKEYMSK plane.pipe) key.channel_mask
  let dvscntr := s.I915_READ (Reg.DVSCNTR plane.pipe)
  let dvscntr := clear_bits dvscntr (k.DVS_SOURCE_KEY ||| k.DVS_DEST_KEY)
  let dvscntr :=
    if key.flags &&& k.I915_SET_COLORKEY_DESTINATION ≠ 0 then dvscntr ||| k.DVS_DEST_KEY
    else if key.flags &&& k.I915_SET_COLORKEY_SOURCE ≠ 0 then dvscntr ||| k.DVS_SOURCE_KEY
    else dvscntr
  let s := s.I915_WRITE (Reg.DVSCNTR plane.pipe) dvscntr
  let s := s.POSTING_READ (Reg.DVSKEYMSK plane.pipe)
  (ret, s)

/-- The function `ilk_get_colorkey`: the key it fills in. -/
def ilk_get_colorkey (k : colorkey_bits) (s : reg_file) (plane : intel_plane)
    (key : drm_intel_sprite_colorkey) : drm_intel_sprite_colorkey × reg_file :=
  let key := { key with min_value := s.I915_READ (Reg.DVSKEYVAL plane.pipe) }
  let key := { key with max_value := s.I915_READ (Reg.DVSKEYMAX plane.pipe) }
  let key := { key with channel_mask := s.I915_READ (Reg.DVSKEYMSK plane.pipe) }
  let key := { key with flags := 0 }
  let dvscntr := s.I915_READ (Reg.DVSCNTR plane.pipe)
  if dvscntr &&& k.DVS_DEST_KEY ≠ 0 then
    ({ key with flags := k.I915_SET_COLORKEY_DESTINATION }, s)
  else if dvscntr &&& k.DVS_SOURCE_KEY ≠ 0 then
    ({ key with flags := k.I915_SET_COLORKEY_SOURCE }, s)
  else
    ({ key with flags := k.I915_SET_COLORKEY_NONE }, s)

/-- The call `intel_plane->update_colorkey(plane, key)` through the function pointer of
the plane. -/
def plane_update_colorkey (k : colorkey_bits) (s : reg_file) (plane : intel_plane)
    (key : drm_intel_sprite_colorkey) : Int × reg_file :=
  match plane.funcs with
  | plane_funcs.ilk => ilk_update_colorkey k s plane key
  | plane_funcs.ivb => ivb_update_colorkey k s plane key
  | plane_funcs.vlv => vlv_update_colorkey k s plane key

/-- The call `intel_plane->get_colorkey(plane, key)` through the function pointer of
the plane. -/
def plane_get_colorkey (k : colorkey_bits) (s : reg_file) (plane : intel_plane)
    (key : drm_intel_sprite_colorkey) : drm_intel_sprite_colorkey × reg_file :=
  match plane.funcs with
  | plane_funcs.ilk => ilk_get_colorkey k s plane key
  | plane_funcs.ivb => ivb_get_colorkey k s plane key
  | plane_funcs.vlv => vlv_get_colorkey k s plane key

/-- The function `intel_sprite_set_colorkey`.  `modeset` is
`drm_core_check_feature(dev, DRIVER_MODESET)`, `find` is `drm_mode_object_find` for
objects of type `DRM_MODE_OBJECT_PLANE`. -/
def intel_sprite_set_colorkey (k : colorkey_bits) (modeset : Bool)
    (find : Nat → Option intel_plane) (s : reg_file) (set : drm_intel_sprite_colorkey) :
    Int × reg_file :=
  if !modeset then (-ENODEV, s) else
  -- Make sure we don't try to enable both src & dest simultaneously
  if set.flags &&& (k.I915_SET_COLORKEY_DESTINATION ||| k.I915_SET_COLORKEY_SOURCE) =
      (k.I915_SET_COLORKEY_DESTINATION ||| k.I915_SET_COLORKEY_SOURCE) then (-EINVAL, s) else
  let s := s.call extern_call.drm_modeset_lock_all
  match find set.plane_id with
  | none => (-ENOENT, s.call extern_call.drm_modeset_unlock_all)
  | some plane =>
    let r := plane_update_colorkey k s plane set
    (r.1, r.2.call extern_call.drm_modeset_unlock_all)

/-- The function `intel_sprite_get_colorkey`: the value returned, the key handed back
and the registers after. -/
def intel_sprite_get_colorkey (k : colorkey_bits) (modeset : Bool)
    (find : Nat → Option intel_plane) (s : reg_file) (get : drm_intel_sprite_colorkey) :
    Int × drm_intel_sprite_colorkey × reg_file :=
  if !modeset then (-ENODEV, get, s) else
  let s := s.call extern_call.drm_modeset_lock_all
  match find get.plane_id with
  | none => (-ENOENT, get, s.call extern_call.drm_modeset_unlock_all)
  | some plane =>
    let r := plane_get_colorkey k s plane get
    (0, r.1, r.2.call extern_call.drm_modeset_unlock_all)

/-- The event is a register write (`I915_WRITE` or `I915_MODIFY_DISPBASE`). -/
def hw_event.is_write : hw_event → Bool
  | hw_event.I915_WRITE _ _ => true
  | hw_event.I915_MODIFY_DISPBASE _ _ => true
  | _ => false

/-- One assignment of the colorkey constants: the flags are bits 0, 1, 2, the source
key bit is bit 22 and the destination key bit is bit 2. -/
def sample_colorkey : colorkey_bits :=
  { I915_SET_COLORKEY_NONE := 1
    I915_SET_COLORKEY_DESTINATION := 2
    I915_SET_COLORKEY_SOURCE := 4
    DVS_SOURCE_KEY := 4194304
    DVS_DEST_KEY := 4
    SPRITE_SOURCE_KEY := 4194304
    SPRITE_DEST_KEY := 4
    SP_SOURCE_KEY := 4194304 }

/-- The key value register of the plane: `DVSKEYVAL`, `SPRKEYVAL` or `SPKEYMINVAL`. -/
def plane_key_val_reg (plane : intel_plane) : Reg :=
  match plane.funcs with
  | plane_funcs.ilk => Reg.DVSKEYVAL plane.pipe
  | plane_funcs.ivb => Reg.SPRKEYVAL plane.pipe
  | plane_funcs.vlv => Reg.SPKEYMINVAL plane.pipe plane.plane

/-- The key maximum register of the plane: `DVSKEYMAX`, `SPRKEYMAX` or `SPKEYMAXVAL`. -/
def plane_key_max_reg (plane : intel_plane) : Reg :=
  match plane.funcs with
  | plane_funcs.ilk => Reg.DVSKEYMAX plane.pipe
  | plane_funcs.ivb => Reg.SPRKEYMAX plane.pipe
  | plane_funcs.vlv => Reg.SPKEYMAXVAL plane.pipe plane.plane

/-- The key mask register of the plane: `DVSKEYMSK`, `SPRKEYMSK` or `SPKEYMSK`. -/
def plane_key_msk_reg (plane : intel_plane) : Reg :=
  match plane.funcs with
  | plane_funcs.ilk => Reg.DVSKEYMSK plane.pipe
  | plane_funcs.ivb => Reg.SPRKEYMSK plane.pipe
  | plane_funcs.vlv => Reg.SPKEYMSK plane.pipe plane.plane

/-- The source key bit of the control register of the plane. -/
def plane_source_key (k : colorkey_bits) (plane : intel_plane) : Nat :=
  match plane.funcs with
  | plane_funcs.ilk => k.DVS_SOURCE_KEY
  | plane_funcs.ivb => k.SPRITE_SOURCE_KEY
  | plane_funcs.vlv => k.SP_SOURCE_KEY

/-- The destination key bit of the control register of the plane; the `vlv_*` functions
name none, which is the empty mask here. -/
def plane_dest_key (k : colorkey_bits) (plane : intel_plane) : Nat :=
  match plane.funcs with
  | plane_funcs.ilk => k.DVS_DEST_KEY
  | plane_funcs.ivb => k.SPRITE_DEST_KEY
  | plane_funcs.vlv => 0

/-- The key mode bits are 32 bit values, none is zero, and the source key bit of a
control register is apart from its destination key bit. -/
def colorkey_bits.key_modes_apart (k : colorkey_bits) : Prop :=
  k.DVS_SOURCE_KEY < 4294967296 ∧ k.DVS_DEST_KEY < 4294967296 ∧
  k.SPRITE_SOURCE_KEY < 4294967296 ∧ k.SPRITE_DEST_KEY < 4294967296 ∧
  k.SP_SOURCE_KEY < 4294967296 ∧
  k.DVS_SOURCE_KEY ≠ 0 ∧ k.DVS_DEST_KEY ≠ 0 ∧ k.SPRITE_SOURCE_KEY ≠ 0 ∧
  k.SPRITE_DEST_KEY ≠ 0 ∧ k.SP_SOURCE_KEY ≠ 0 ∧
  k.DVS_SOURCE_KEY &&& k.DVS_DEST_KEY = 0 ∧ k.SPRITE_SOURCE_KEY &&& k.SPRITE_DEST_KEY = 0

instance (k : colorkey_bits) : Decidable k.key_modes_apart := by
  unfold colorkey_bits.key_modes_apart; infer_instance

/-- The three flags of the colorkey ioctl share no bit, and the source and the
destination flag are not zero. -/
def colorkey_bits.flags_apart (k : colorkey_bits) : Prop :=
  k.I915_SET_COLORKEY_NONE &&& k.I915_SET_COLORKEY_DESTINATION = 0 ∧
  k.I915_SET_COLORKEY_NONE &&& k.I915_SET_COLORKEY_SOURCE = 0 ∧
  k.I915_SET_COLORKEY_SOURCE &&& k.I915_SET_COLORKEY_DESTINATION = 0 ∧
  k.I915_SET_COLORKEY_DESTINATION &&& k.I915_SET_COLORKEY_SOURCE = 0 ∧
  k.I915_SET_COLORKEY_SOURCE ≠ 0 ∧ k.I915_SET_COLORKEY_DESTINATION ≠ 0

instance (k : colorkey_bits) : Decidable k.flags_apart := by
  unfold colorkey_bits.flags_apart; infer_instance

/-- A generation 7 device that is Valleyview. -/
def vlv_device : drm_device :=
  { gen := 7, is_ivybridge := false, is_valleyview := true, is_haswell := false
    is_broadwell := false, fbc_plane := -1 }

/-- Sprite plane 0 of pipe 0 on `vlv_device`, as `intel_plane_init` registers it. -/
def vlv_sprite : intel_plane :=
  new_plane 0 0 false 1 plane_funcs.vlv none

/-- A colorkey for plane 7 with the flags given. -/
def sample_key (flags : Nat) : drm_intel_sprite_colorkey :=
  { plane_id := 7, min_value := 16, channel_mask := 16777215, max_value := 32, flags := flags }

/-! ## Z-order and alpha (`i915_set_plane_zorder`) -/

/-- The constants of `i915_reg.h` and `i915_drv.h` (not among the sources) that the
z-order code uses: the two z-order bits of a sprite control register, the six stacking
orders, and the pixel format field of the primary and of the sprite control register
with the formats the code names. -/
structure zorder_bits where
  SPRITE_FORCE_BOTTOM : Nat
  SPRITE_ZORDER_ENABLE : Nat
  P1S1S2C1 : Nat
  P1S2S1C1 : Nat
  S2P1S1C1 : Nat
  S2S1P1C1 : Nat
  S1P1S2C1 : Nat
  S1S2P1C1 : Nat
  DISPPLANE_PIXFORMAT_MASK : Nat
  DISPPLANE_BGRX888 : Nat
  DISPPLANE_BGRA888 : Nat
  DISPPLANE_RGBX888 : Nat
  DISPPLANE_RGBA888 : Nat
  DISPPLANE_BGRX101010 : Nat
  DISPPLANE_BGRA101010 : Nat
  DISPPLANE_RGBX101010 : Nat
  DISPPLANE_RGBA101010 : Nat
  DISPPLANE_BGRX565 : Nat
  DISPPLANE_8BPP : Nat
  SP_PIXFORMAT_MASK : Nat
  SP_FORMAT_BGRA8888 : Nat
  SP_FORMAT_BGRX8888 : Nat
  SP_FORMAT_RGBA8888 : Nat
  SP_FORMAT_RGBX8888 : Nat
  SP_FORMAT_RGBA1010102 : Nat
  SP_FORMAT_RGBX1010102 : Nat
  SP_FORMAT_YUV422 : Nat
  SP_FORMAT_BGR565 : Nat

/-- The `switch (pixformat)` of `i915_set_primary_alpha` as the chain of tests of its
case labels: the value of `dspcntr` after it, and whether the `default` branch ran.
The case of `DISPPLANE_RGBX101010` and `DISPPLANE_RGBA101010` has no `break` and runs on
into the statement of `case DISPPLANE_BGRX565`. -/
def primary_alpha_switch (z : zorder_bits) (pixformat dspcntr : Nat) (alpha : Bool) :
    Nat × Bool :=
  if pixformat = z.DISPPLANE_BGRX888 ∨ pixformat = z.DISPPLANE_BGRA888 then
    (if alpha then dspcntr ||| z.DISPPLANE_BGRA888 else dspcntr ||| z.DISPPLANE_BGRX888, false)
  else if pixformat = z.DISPPLANE_RGBX888 ∨ pixformat = z.DISPPLANE_RGBA888 then
    (if alpha then dspcntr ||| z.DISPPLANE_RGBA888 else dspcntr ||| z.DISPPLANE_RGBX888, false)
  else if pixformat = z.DISPPLANE_BGRX101010 ∨ pixformat = z.DISPPLANE_BGRA101010 then
    (if alpha then dspcntr ||| z.DISPPLANE_BGRA101010
     else dspcntr ||| z.DISPPLANE_BGRX101010, false)
  else if pixformat = z.DISPPLANE_RGBX101010 ∨ pixformat = z.DISPPLANE_RGBA101010 then
    ((if alpha then dspcntr ||| z.DISPPLANE_RGBA101010
      else dspcntr ||| z.DISPPLANE_RGBX101010) ||| z.DISPPLANE_BGRX565, false)
  else if pixformat = z.DISPPLANE_BGRX565 then
    (dspcntr ||| z.DISPPLANE_BGRX565, false)
  else if pixformat = z.DISPPLANE_8BPP then
    (dspcntr ||| z.DISPPLANE_8BPP, false)
  else
    (dspcntr, true)

/-- The function `i915_set_primary_alpha`. -/
def i915_set_primary_alpha (hw : i915_reg) (z : zorder_bits) (s : reg_file)
    (zorder : Nat) (plane : Int) : reg_file :=
  let alpha : Bool := decide (zorder ≠ z.P1S1S2C1 ∧ zorder ≠ z.P1S2S1C1)
  let reg := Reg.DSPCNTR plane
  let dspcntr := s.I915_READ reg
  if dspcntr &&& hw.DISPLAY_PLANE_ENABLE = 0 then s else
  let pixformat := dspcntr &&& z.DISPPLANE_PIXFORMAT_MASK
  let dspcntr := clear_bits dspcntr z.DISPPLANE_PIXFORMAT_MASK
  let r := primary_alpha_switch z pixformat dspcntr alpha
  let dspcntr := r.1
  let s := if r.2 then s.call extern_call.DRM_ERROR else s
  if pixformat ≠ dspcntr &&& z.DISPPLANE_PIXFORMAT_MASK then s.I915_WRITE reg dspcntr else s

/-- The `switch (pixformat)` of `i915_set_sprite_alpha` as the chain of tests of its
case labels: the value of `spcntr` after it, and whether the `default` branch ran. -/
def sprite_alpha_switch (z : zorder_bits) (pixformat spcntr : Nat) (alpha : Bool) :
    Nat × Bool :=
  if pixformat = z.SP_FORMAT_BGRA8888 ∨ pixformat = z.SP_FORMAT_BGRX8888 then
    (if alpha then spcntr ||| z.SP_FORMAT_BGRA8888 else spcntr ||| z.SP_FORMAT_BGRX8888, false)
  else if pixformat = z.SP_FORMAT_RGBA8888 ∨ pixformat = z.SP_FORMAT_RGBX8888 then
    (if alpha then spcntr ||| z.SP_FORMAT_RGBA8888 else spcntr ||| z.SP_FORMAT_RGBX8888, false)
  else if pixformat = z.SP_FORMAT_RGBA1010102 ∨ pixformat = z.SP_FORMAT_RGBX1010102 then
    (if alpha then spcntr ||| z.SP_FORMAT_RGBA1010102
     else spcntr ||| z.SP_FORMAT_RGBX1010102, false)
  else if pixformat = z.SP_FORMAT_YUV422 then
    (spcntr ||| z.SP_FORMAT_YUV422, false)
  else if pixformat = z.SP_FORMAT_BGR565 then
    (spcntr ||| z.SP_FORMAT_BGR565, false)
  else
    (spcntr, true)

/-- The function `i915_set_sprite_alpha`. -/
def i915_set_sprite_alpha (hw : i915_reg) (z : zorder_bits) (s : reg_file)
    (zorder : Nat) (pipe plane : Int) : reg_file :=
  let alpha : Bool :=
    if zorder ≠ z.S1P1S2C1 ∧ zorder ≠ z.S1S2P1C1 ∧ plane = 0 then true
    else if zorder ≠ z.S2P1S1C1 ∧ zorder ≠ z.S2S1P1C1 ∧ plane = 1 then true
    else false
  let spcntr := s.I915_READ (Reg.SPCNTR pipe plane)
  if spcntr &&& hw.DISPLAY_PLANE_ENABLE = 0 then s else
  let pixformat := spcntr &&& z.SP_PIXFORMAT_MASK
  let spcntr := clear_bits spcntr z.SP_PIXFORMAT_MASK
  let r := sprite_alpha_switch z pixformat spcntr alpha
  let spcntr := r.1
  let s := if r.2 then s.call extern_call.DRM_ERROR else s
  if pixformat ≠ spcntr &&& z.SP_PIXFORMAT_MASK then
    s.I915_WRITE (Reg.SPCNTR pipe plane) spcntr
  else s

/-- The local variable `pipe` of `i915_set_plane_zorder`: `(order >> 31) & 0x1`. -/
def zorder_pipe (order : Nat) : Int := ((order >>> 31) &&& 1 : Nat)

/-- Lines 403 to 425 of `i915_set_plane_zorder`: the older z-order is cleared on both
sprite control registers of the pipe, then the new one is programmed. -/
def i915_set_plane_zorder_bits (z : zorder_bits) (s : reg_file) (order : Nat) : reg_file :=
  let pipe := zorder_pipe order
  let s1_zorder := (order >>> 3) &&& 1
  let s1_bottom := (order >>> 2) &&& 1
  let s2_zorder := (order >>> 1) &&& 1
  let s2_bottom := (order >>> 0) &&& 1
  -- Clear the older Z-order
  let val := s.I915_READ (Reg.SPCNTR pipe 0)
  let val := clear_bits val (z.SPRITE_FORCE_BOTTOM ||| z.SPRITE_ZORDER_ENABLE)
  let s := s.I915_WRITE (Reg.SPCNTR pipe 0) val
  let val := s.I915_READ (Reg.SPCNTR pipe 1)
  let val := clear_bits val (z.SPRITE_FORCE_BOTTOM ||| z.SPRITE_ZORDER_ENABLE)
  let s := s.I915_WRITE (Reg.SPCNTR pipe 1) val
  -- Program new Z-order
  let val := s.I915_READ (Reg.SPCNTR pipe 0)
  let val := if s1_zorder ≠ 0 then val ||| z.SPRITE_ZORDER_ENABLE else val
  let val := if s1_bottom ≠ 0 then val ||| z.SPRITE_FORCE_BOTTOM else val
  let s := s.I915_WRITE (Reg.SPCNTR pipe 0) val
  let val := s.I915_READ (Reg.SPCNTR pipe 1)
  let val := if s2_zorder ≠ 0 then val ||| z.SPRITE_ZORDER_ENABLE else val
  let val := if s2_bottom ≠ 0 then val ||| z.SPRITE_FORCE_BOTTOM else val
  s.I915_WRITE (Reg.SPCNTR pipe 1) val

/-- The function `i915_set_plane_zorder`; `order` is `zorder->order`, a `u32`. -/
def i915_set_plane_zorder (hw : i915_reg) (z : zorder_bits) (s : reg_file) (order : Nat) :
    Int × reg_file :=
  let pipe := zorder_pipe order
  let z_order := order &&& 15
  let s := i915_set_plane_zorder_bits z s order
  let s := i915_set_primary_alpha hw z s z_order pipe
  let s := i915_set_sprite_alpha hw z s z_order pipe 0
  let s := i915_set_sprite_alpha hw z s z_order pipe 1
  (0, s)

/-- One assignment of the z-order constants: the pixel format field is bits 26 to 29 of
both control registers, force-bottom is bit 2 and z-order enable bit 0. -/
def sample_zorder : zorder_bits :=
  { SPRITE_FORCE_BOTTOM := 4
    SPRITE_ZORDER_ENABLE := 1
    P1S1S2C1 := 0
    P1S2S1C1 := 8
    S2P1S1C1 := 1
    S2S1P1C1 := 9
    S1P1S2C1 := 4
    S1S2P1C1 := 6
    DISPPLANE_PIXFORMAT_MASK := 15 * 67108864
    DISPPLANE_BGRX888 := 6 * 67108864
    DISPPLANE_BGRA888 := 7 * 67108864
    DISPPLANE_RGBX888 := 14 * 67108864
    DISPPLANE_RGBA888 := 15 * 67108864
    DISPPLANE_BGRX101010 := 10 * 67108864
    DISPPLANE_BGRA101010 := 11 * 67108864
    DISPPLANE_RGBX101010 := 8 * 67108864
    DISPPLANE_RGBA101010 := 9 * 67108864
    DISPPLANE_BGRX565 := 5 * 67108864
    DISPPLANE_8BPP := 2 * 67108864
    SP_PIXFORMAT_MASK := 15 * 67108864
    SP_FORMAT_BGRA8888 := 7 * 67108864
    SP_FORMAT_BGRX8888 := 6 * 67108864
    SP_FORMAT_RGBA8888 := 15 * 67108864
    SP_FORMAT_RGBX8888 := 14 * 67108864
    SP_FORMAT_RGBA1010102 := 9 * 67108864
    SP_FORMAT_RGBX1010102 := 8 * 67108864
    SP_FORMAT_YUV422 := 0
    SP_FORMAT_BGR565 := 5 * 67108864 }

/-- The z-order bits and the pixel format field of a sprite control register are 32 bit
masks that share no bit, and every sprite pixel format lies in the field. -/
def zorder_bits.sprite_layout (z : zorder_bits) : Prop :=
  z.SPRITE_FORCE_BOTTOM < 4294967296 ∧ z.SPRITE_ZORDER_ENABLE < 4294967296 ∧
  z.SP_PIXFORMAT_MASK < 4294967296 ∧
  z.SPRITE_FORCE_BOTTOM &&& z.SPRITE_ZORDER_ENABLE = 0 ∧
  z.SPRITE_FORCE_BOTTOM &&& z.SP_PIXFORMAT_MASK = 0 ∧
  z.SPRITE_ZORDER_ENABLE &&& z.SP_PIXFORMAT_MASK = 0 ∧
  z.SP_FORMAT_BGRA8888 &&& z.SP_PIXFORMAT_MASK = z.SP_FORMAT_BGRA8888 ∧
  z.SP_FORMAT_BGRX8888 &&& z.SP_PIXFORMAT_MASK = z.SP_FORMAT_BGRX8888 ∧
  z.SP_FORMAT_RGBA8888 &&& z.SP_PIXFORMAT_MASK = z.SP_FORMAT_RGBA8888 ∧
  z.SP_FORMAT_RGBX8888 &&& z.SP_PIXFORMAT_MASK = z.SP_FORMAT_RGBX8888 ∧
  z.SP_FORMAT_RGBA1010102 &&& z.SP_PIXFORMAT_MASK = z.SP_FORMAT_RGBA1010102 ∧
  z.SP_FORMAT_RGBX1010102 &&& z.SP_PIXFORMAT_MASK = z.SP_FORMAT_RGBX1010102 ∧
  z.SP_FORMAT_YUV422 &&& z.SP_PIXFORMAT_MASK = z.SP_FORMAT_YUV422 ∧
  z.SP_FORMAT_BGR565 &&& z.SP_PIXFORMAT_MASK = z.SP_FORMAT_BGR565

instance (z : zorder_bits) : Decidable z.sprite_layout := by
  unfold zorder_bits.sprite_layout; infer_instance

/-- A register file in which `DSPCNTR(0)` holds `v` and every other register 0. -/
def primary_only (v : Nat) : Reg → Nat :=
  fun r => if r = Reg.DSPCNTR 0 then v else 0

/-- A register file in which `SPCNTR(0, 1)` holds `v` and every other register 0. -/
def sprite_only (v : Nat) : Reg → Nat :=
  fun r => if r = Reg.SPCNTR 0 1 then v else 0

/-- The pixel format field of the primary control register is a 32 bit mask, and the
case labels of `i915_set_primary_alpha` lie in it. -/
def zorder_bits.primary_layout (z : zorder_bits) : Prop :=
  z.DISPPLANE_PIXFORMAT_MASK < 4294967296 ∧
  z.DISPPLANE_BGRX888 &&& z.DISPPLANE_PIXFORMAT_MASK = z.DISPPLANE_BGRX888 ∧
  z.DISPPLANE_BGRA888 &&& z.DISPPLANE_PIXFORMAT_MASK = z.DISPPLANE_BGRA888 ∧
  z.DISPPLANE_RGBX888 &&& z.DISPPLANE_PIXFORMAT_MASK = z.DISPPLANE_RGBX888 ∧
  z.DISPPLANE_RGBA888 &&& z.DISPPLANE_PIXFORMAT_MASK = z.DISPPLANE_RGBA888 ∧
  z.DISPPLANE_BGRX101010 &&& z.DISPPLANE_PIXFORMAT_MASK = z.DISPPLANE_BGRX101010 ∧
  z.DISPPLANE_BGRA101010 &&& z.DISPPLANE_PIXFORMAT_MASK = z.DISPPLANE_BGRA101010 ∧
  z.DISPPLANE_RGBX101010 &&& z.DISPPLANE_PIXFORMAT_MASK = z.DISPPLANE_RGBX101010 ∧
  z.DISPPLANE_RGBA101010 &&& z.DISPPLANE_PIXFORMAT_MASK = z.DISPPLANE_RGBA101010 ∧
  z.DISPPLANE_BGRX565 &&& z.DISPPLANE_PIXFORMAT_MASK = z.DISPPLANE_BGRX565 ∧
  z.DISPPLANE_8BPP &&& z.DISPPLANE_PIXFORMAT_MASK = z.DISPPLANE_8BPP

instance (z : zorder_bits) : Decidable z.primary_layout := by
  unfold zorder_bits.primary_layout; infer_instance

/-- The case labels of the `switch` of `i915_set_primary_alpha`. -/
def primary_alpha_labels (z : zorder_bits) : List Nat :=
  [z.DISPPLANE_BGRX888, z.DISPPLANE_BGRA888, z.DISPPLANE_RGBX888, z.DISPPLANE_RGBA888,
   z.DISPPLANE_BGRX101010, z.DISPPLANE_BGRA101010, z.DISPPLANE_RGBX101010,
   z.DISPPLANE_RGBA101010, z.DISPPLANE_BGRX565, z.DISPPLANE_8BPP]

/-- The case labels of the `switch` of `i915_set_sprite_alpha`. -/
def sprite_alpha_labels (z : zorder_bits) : List Nat :=
  [z.SP_FORMAT_BGRA8888, z.SP_FORMAT_BGRX8888, z.SP_FORMAT_RGBA8888, z.SP_FORMAT_RGBX8888,
   z.SP_FORMAT_RGBA1010102, z.SP_FORMAT_RGBX1010102, z.SP_FORMAT_YUV422, z.SP_FORMAT_BGR565]

/-! ## The `update_plane` backends -/

/-- The value of a `u32` expression as a register value. -/
def u32 (x : Int) : Nat := (to_u32 x).toNat

/-- The constants of `i915_reg.h` (not among the sources) that the `update_plane`
backends use besides the enable bits of `i915_reg` and the `SP_FORMAT_*` values of
`zorder_bits`. -/
structure plane_bits where
  DVS_PIXFORMAT_MASK : Nat
  DVS_RGB_ORDER_XBGR : Nat
  DVS_YUV_BYTE_ORDER_MASK : Nat
  DVS_TILED : Nat
  DVS_FORMAT_RGBX888 : Nat
  DVS_FORMAT_YUV422 : Nat
  DVS_YUV_ORDER_YUYV : Nat
  DVS_YUV_ORDER_YVYU : Nat
  DVS_YUV_ORDER_UYVY : Nat
  DVS_YUV_ORDER_VYUY : Nat
  DVS_GAMMA_ENABLE : Nat
  DVS_TRICKLE_FEED_DISABLE : Nat
  DVS_SCALE_ENABLE : Nat
  SPRITE_PIXFORMAT_MASK : Nat
  SPRITE_RGB_ORDER_RGBX : Nat
  SPRITE_YUV_BYTE_ORDER_MASK : Nat
  SPRITE_TILED : Nat
  SPRITE_FORMAT_RGBX888 : Nat
  SPRITE_FORMAT_YUV422 : Nat
  SPRITE_YUV_ORDER_YUYV : Nat
  SPRITE_YUV_ORDER_YVYU : Nat
  SPRITE_YUV_ORDER_UYVY : Nat
  SPRITE_YUV_ORDER_VYUY : Nat
  SPRITE_GAMMA_ENABLE : Nat
  SPRITE_TRICKLE_FEED_DISABLE : Nat
  SPRITE_PIPE_CSC_ENABLE : Nat
  SPRITE_SCALE_ENABLE : Nat
  SP_YUV_BYTE_ORDER_MASK : Nat
  SP_TILED : Nat
  SP_YUV_ORDER_YUYV : Nat
  SP_YUV_ORDER_YVYU : Nat
  SP_YUV_ORDER_UYVY : Nat
  SP_YUV_ORDER_VYUY : Nat
  SP_GAMMA_ENABLE : Nat
  DISPPLANE_180_ROTATION_ENABLE : Nat

/-- What the `update_plane` backends take from outside this file: the function
`intel_gen4_compute_page_offset` of `intel_display.c` (it returns the offset of the page
and moves `x` and `y` into it: the triple is the value returned, the new `x` and the new
`y`), the global `rot_mode`, the module parameter `i915_ivb_sprite_fix`, and what
`ilk_disable_lp_wm` returns. -/
structure update_env where
  intel_gen4_compute_page_offset : Int → Int → Nat → Int → Int → Int × Int × Int
  rot_mode_vdisplay : Int
  rot_mode_hdisplay : Int
  i915_ivb_sprite_fix : Bool
  ilk_disable_lp_wm : Bool

/-- The `switch (fb->pixel_format)` of `ilk_update_plane`: the bits it sets in `dvscntr`,
`none` for the `default` branch, which is `BUG()`. -/
def ilk_format_bits (c : plane_bits) : drm_format → Option Nat
  | DRM_FORMAT_XBGR8888 => some (c.DVS_FORMAT_RGBX888 ||| c.DVS_RGB_ORDER_XBGR)
  | DRM_FORMAT_XRGB8888 => some c.DVS_FORMAT_RGBX888
  | DRM_FORMAT_YUYV => some (c.DVS_FORMAT_YUV422 ||| c.DVS_YUV_ORDER_YUYV)
  | DRM_FORMAT_YVYU => some (c.DVS_FORMAT_YUV422 ||| c.DVS_YUV_ORDER_YVYU)
  | DRM_FORMAT_UYVY => some (c.DVS_FORMAT_YUV422 ||| c.DVS_YUV_ORDER_UYVY)
  | DRM_FORMAT_VYUY => some (c.DVS_FORMAT_YUV422 ||| c.DVS_YUV_ORDER_VYUY)
  | _ => none

/-- The `switch (fb->pixel_format)` of `ivb_update_plane`: the bits it sets in `sprctl`,
`none` for the `default` branch, which is `BUG()`. -/
def ivb_format_bits (c : plane_bits) : drm_format → Option Nat
  | DRM_FORMAT_XBGR8888 => some (c.SPRITE_FORMAT_RGBX888 ||| c.SPRITE_RGB_ORDER_RGBX)
  | DRM_FORMAT_XRGB8888 => some c.SPRITE_FORMAT_RGBX888
  | DRM_FORMAT_YUYV => some (c.SPRITE_FORMAT_YUV422 ||| c.SPRITE_YUV_ORDER_YUYV)
  | DRM_FORMAT_YVYU => some (c.SPRITE_FORMAT_YUV422 ||| c.SPRITE_YUV_ORDER_YVYU)
  | DRM_FORMAT_UYVY => some (c.SPRITE_FORMAT_YUV422 ||| c.SPRITE_YUV_ORDER_UYVY)
  | DRM_FORMAT_VYUY => some (c.SPRITE_FORMAT_YUV422 ||| c.SPRITE_YUV_ORDER_VYUY)
  | _ => none

/-- The `switch (fb->pixel_format)` of `vlv_update_plane`: the bits it sets in `sprctl`,
`none` for the `default` branch, which is `BUG()`. -/
def vlv_format_bits (z : zorder_bits) (c : plane_bits) : drm_format → Option Nat
  | DRM_FORMAT_YUYV => some (z.SP_FORMAT_YUV422 ||| c.SP_YUV_ORDER_YUYV)
  | DRM_FORMAT_YVYU => some (z.SP_FORMAT_YUV422 ||| c.SP_YUV_ORDER_YVYU)
  | DRM_FORMAT_UYVY => some (z.SP_FORMAT_YUV422 ||| c.SP_YUV_ORDER_UYVY)
  | DRM_FORMAT_VYUY => some (z.SP_FORMAT_YUV422 ||| c.SP_YUV_ORDER_VYUY)
  | DRM_FORMAT_RGB565 => some z.SP_FORMAT_BGR565
  | DRM_FORMAT_XRGB8888 => some z.SP_FORMAT_BGRX8888
  | DRM_FORMAT_ARGB8888 => some z.SP_FORMAT_BGRA8888
  | DRM_FORMAT_XBGR2101010 => some z.SP_FORMAT_RGBX1010102
  | DRM_FORMAT_ABGR2101010 => some z.SP_FORMAT_RGBA1010102
  | DRM_FORMAT_XBGR8888 => some z.SP_FORMAT_RGBX8888
  | DRM_FORMAT_ABGR8888 => some z.SP_FORMAT_RGBA8888
  | _ => none

/-- The common steps of the three `update_plane` backends between the watermark update
and the first sprite register write: interrupts go off, the vblank is evaded, the
watermarks are programmed and the primary plane is updated. -/
def update_plane_prologue (hw : i915_reg) (dev : drm_device) (regs : Reg → Nat)
    (crtc : intel_crtc) : List hw_event :=
  [hw_event.local_irq_disable,
   hw_event.call extern_call.intel_pipe_vblank_evade,
   hw_event.call extern_call.intel_program_watermarks] ++
  intel_update_primary hw dev regs crtc

/-- The function `ilk_update_plane`: its steps and the crtc afterwards, `none` when it
runs into `BUG()`.  `regs` is what `I915_READ` returns. -/
def ilk_update_plane (hw : i915_reg) (c : plane_bits) (env : update_env) (dev : drm_device)
    (regs : Reg → Nat) (plane : intel_plane) (crtc : intel_crtc) (fb : drm_framebuffer)
    (obj : drm_i915_gem_object) (crtc_x crtc_y crtc_w crtc_h x y src_w src_h : Int)
    (disable_primary : Bool) : Option (List hw_event × intel_crtc) :=
  let pipe := plane.pipe
  let pixel_size := drm_format_plane_cpp fb.pixel_format
  let dvscntr := regs (Reg.DVSCNTR pipe)
  -- Mask out pixel format bits in case we change it
  let dvscntr := clear_bits dvscntr c.DVS_PIXFORMAT_MASK
  let dvscntr := clear_bits dvscntr c.DVS_RGB_ORDER_XBGR
  let dvscntr := clear_bits dvscntr c.DVS_YUV_BYTE_ORDER_MASK
  let dvscntr := clear_bits dvscntr c.DVS_TILED
  match ilk_format_bits c fb.pixel_format with
  | none => none
  | some bits =>
    let dvscntr := dvscntr ||| bits
    -- Enable gamma to match primary/cursor plane behaviour.
    let dvscntr := dvscntr ||| c.DVS_GAMMA_ENABLE
    let dvscntr := if obj.tiling_mode ≠ I915_TILING_NONE then dvscntr ||| c.DVS_TILED else dvscntr
    let dvscntr := if dev.gen = 6 then dvscntr ||| c.DVS_TRICKLE_FEED_DISABLE else dvscntr
    let dvscntr := dvscntr ||| hw.DVS_ENABLE
    let crtc := { crtc with primary_enabled := !disable_primary }
    let wm := hw_event.call (extern_call.intel_update_sprite_watermarks src_w pixel_size true
      (decide (src_w ≠ crtc_w ∨ src_h ≠ crtc_h)))
    -- Sizes are 0 based
    let src_w := to_u32 (src_w - 1)
    let src_h := to_u32 (src_h - 1)
    let crtc_w := to_u32 (crtc_w - 1)
    let crtc_h := to_u32 (crtc_h - 1)
    let dvsscale : Nat :=
      if crtc_w ≠ src_w ∨ crtc_h ≠ src_h then
        c.DVS_SCALE_ENABLE ||| u32 (src_w * 65536) ||| u32 src_h
      else 0
    let linear_offset := to_u32 (y * fb.pitch + x * pixel_size)
    let po := env.intel_gen4_compute_page_offset x y obj.tiling_mode pixel_size fb.pitch
    let dvssurf_offset := po.1
    let x := po.2.1
    let y := po.2.2
    let linear_offset := linear_offset - dvssurf_offset
    some ([wm] ++ update_plane_prologue hw dev regs crtc ++
      [hw_event.I915_WRITE (Reg.DVSSTRIDE pipe) (u32 fb.pitch),
       hw_event.I915_WRITE (Reg.DVSPOS pipe) (u32 (crtc_y * 65536) ||| u32 crtc_x),
       (if obj.tiling_mode ≠ I915_TILING_NONE then
          hw_event.I915_WRITE (Reg.DVSTILEOFF pipe) (u32 (y * 65536) ||| u32 x)
        else hw_event.I915_WRITE (Reg.DVSLINOFF pipe) (u32 linear_offset)),
       hw_event.I915_WRITE (Reg.DVSSIZE pipe) (u32 (crtc_h * 65536) ||| u32 crtc_w),
       hw_event.I915_WRITE (Reg.DVSSCALE pipe) dvsscale] ++
      [hw_event.I915_WRITE (Reg.DVSCNTR pipe) dvscntr,
       hw_event.I915_MODIFY_DISPBASE (Reg.DVSSURF pipe) (u32 (obj.ggtt_offset + dvssurf_offset)),
       hw_event.POSTING_READ (Reg.DVSSURF pipe),
       hw_event.local_irq_enable], crtc)

/-- The function `ivb_update_plane`: its steps and the crtc afterwards, `none` when it
runs into `BUG()`.  `regs` is what `I915_READ` returns. -/
def ivb_update_plane (hw : i915_reg) (c : plane_bits) (env : update_env) (dev : drm_device)
    (regs : Reg → Nat) (plane : intel_plane) (crtc : intel_crtc) (fb : drm_framebuffer)
    (obj : drm_i915_gem_object) (crtc_x crtc_y crtc_w crtc_h x y src_w src_h : Int)
    (disable_primary : Bool) : Option (List hw_event × intel_crtc) :=
  let pipe := plane.pipe
  let pixel_size := drm_format_plane_cpp fb.pixel_format
  let sprctl := regs (Reg.SPRCTL pipe)
  -- Mask out pixel format bits in case we change it
  let sprctl := clear_bits sprctl c.SPRITE_PIXFORMAT_MASK
  let sprctl := clear_bits sprctl c.SPRITE_RGB_ORDER_RGBX
  let sprctl := clear_bits sprctl c.SPRITE_YUV_BYTE_ORDER_MASK
  let sprctl := clear_bits sprctl c.SPRITE_TILED
  match ivb_format_bits c fb.pixel_format with
  | none => none
  | some bits =>
    let sprctl := sprctl ||| bits
    -- Enable gamma to match primary/cursor plane behaviour.
    let sprctl := sprctl ||| c.SPRITE_GAMMA_ENABLE
    let sprctl := if obj.tiling_mode ≠ I915_TILING_NONE then sprctl ||| c.SPRITE_TILED else sprctl
    let sprctl :=
      if dev.is_haswell ∨ dev.is_broadwell then clear_bits sprctl c.SPRITE_TRICKLE_FEED_DISABLE
      else sprctl ||| c.SPRITE_TRICKLE_FEED_DISABLE
    let sprctl := sprctl ||| hw.SPRITE_ENABLE
    let sprctl :=
      if dev.is_haswell ∨ dev.is_broadwell then sprctl ||| c.SPRITE_PIPE_CSC_ENABLE else sprctl
    let crtc := { crtc with primary_enabled := !disable_primary }
    let wm := hw_event.call (extern_call.intel_update_sprite_watermarks src_w pixel_size true
      (decide (src_w ≠ crtc_w ∨ src_h ≠ crtc_h)))
    -- Sizes are 0 based
    let src_w := to_u32 (src_w - 1)
    let src_h := to_u32 (src_h - 1)
    let crtc_w := to_u32 (crtc_w - 1)
    let crtc_h := to_u32 (crtc_h - 1)
    let linear_offset := to_u32 (y * fb.pitch + x * pixel_size)
    let po := env.intel_gen4_compute_page_offset x y obj.tiling_mode pixel_size fb.pitch
    let sprsurf_offset := po.1
    let x := po.2.1
    let y := po.2.2
    let linear_offset := linear_offset - sprsurf_offset
    -- IVB workaround: must disable low power watermarks for at least one frame before
    -- enabling scaling.
    let scaled : Bool := decide (crtc_w ≠ src_w ∨ crtc_h ≠ src_h)
    let sprscale : Nat :=
      if scaled then c.SPRITE_SCALE_ENABLE ||| u32 (src_w * 65536) ||| u32 src_h else 0
    let wa : List hw_event :=
      if scaled ∧ env.i915_ivb_sprite_fix then
        [hw_event.call extern_call.ilk_disable_lp_wm] ++
        (if env.ilk_disable_lp_wm then [hw_event.call (extern_call.intel_wait_for_vblank pipe)]
         else [])
      else []
    some ([wm] ++ wa ++ update_plane_prologue hw dev regs crtc ++
      [hw_event.I915_WRITE (Reg.SPRSTRIDE pipe) (u32 fb.pitch),
       hw_event.I915_WRITE (Reg.SPRPOS pipe) (u32 (crtc_y * 65536) ||| u32 crtc_x),
       -- HSW consolidates SPRTILEOFF and SPRLINOFF into a single SPROFFSET register
       (if dev.is_haswell ∨ dev.is_broadwell then
          hw_event.I915_WRITE (Reg.SPROFFSET pipe) (u32 (y * 65536) ||| u32 x)
        else if obj.tiling_mode ≠ I915_TILING_NONE then
          hw_event.I915_WRITE (Reg.SPRTILEOFF pipe) (u32 (y * 65536) ||| u32 x)
        else hw_event.I915_WRITE (Reg.SPRLINOFF pipe) (u32 linear_offset)),
       hw_event.I915_WRITE (Reg.SPRSIZE pipe) (u32 (crtc_h * 65536) ||| u32 crtc_w)] ++
      (if plane.can_scale then [hw_event.I915_WRITE (Reg.SPRSCALE pipe) sprscale] else []) ++
      [hw_event.I915_WRITE (Reg.SPRCTL pipe) sprctl,
       hw_event.I915_MODIFY_DISPBASE (Reg.SPRSURF pipe) (u32 (obj.ggtt_offset + sprsurf_offset)),
       hw_event.POSTING_READ (Reg.SPRSURF pipe),
       hw_event.local_irq_enable], crtc)

/-- The function `vlv_update_plane`: its steps and the crtc afterwards, `none` when it
runs into `BUG()`.  `regs` is what `I915_READ` returns. -/
def vlv_update_plane (hw : i915_reg) (z : zorder_bits) (c : plane_bits) (env : update_env)
    (dev : drm_device) (regs : Reg → Nat) (dplane : intel_plane) (crtc : intel_crtc)
    (fb : drm_framebuffer) (obj : drm_i915_gem_object)
    (crtc_x crtc_y crtc_w crtc_h x y src_w src_h : Int) (disable_primary : Bool) :
    Option (List hw_event × intel_crtc) :=
  let pipe := dplane.pipe
  let plane := dplane.plane
  let pixel_size := drm_format_plane_cpp fb.pixel_format
  let sprctl := regs (Reg.SPCNTR pipe plane)
  -- Mask out pixel format bits in case we change it
  let sprctl := clear_bits sprctl z.SP_PIXFORMAT_MASK
  let sprctl := clear_bits sprctl c.SP_YUV_BYTE_ORDER_MASK
  let sprctl := clear_bits sprctl c.SP_TILED
  match vlv_format_bits z c fb.pixel_format with
  | none => none
  | some bits =>
    let sprctl := sprctl ||| bits
    -- Enable gamma to match primary/cursor plane behaviour.
    let sprctl := sprctl ||| c.SP_GAMMA_ENABLE
    let sprctl := if obj.tiling_mode ≠ I915_TILING_NONE then sprctl ||| c.SP_TILED else sprctl
    let sprctl := sprctl ||| hw.SP_ENABLE
    let crtc := { crtc with primary_enabled := !disable_primary }
    let wm := hw_event.call (extern_call.intel_update_sprite_watermarks src_w pixel_size true
      (decide (src_w ≠ crtc_w ∨ src_h ≠ crtc_h)))
    let rotate : Bool := decide (sprctl &&& c.DISPPLANE_180_ROTATION_ENABLE ≠ 0)
    -- Sizes are 0 based
    let crtc_w := to_u32 (crtc_w - 1)
    let crtc_h := to_u32 (crtc_h - 1)
    let linear_offset := to_u32 (y * fb.pitch + x * pixel_size)
    let po := env.intel_gen4_compute_page_offset x y obj.tiling_mode pixel_size fb.pitch
    let sprsurf_offset := po.1
    let x := po.2.1
    let y := po.2.2
    let linear_offset := linear_offset - sprsurf_offset
    let sprctl := if rotate then sprctl ||| c.DISPPLANE_180_ROTATION_ENABLE else sprctl
    some ([wm] ++ update_plane_prologue hw dev regs crtc ++
      [hw_event.I915_WRITE (Reg.SPSTRIDE pipe plane) (u32 fb.pitch),
       (if rotate then
          hw_event.I915_WRITE (Reg.SPPOS pipe plane)
            (u32 ((env.rot_mode_vdisplay - (crtc_y + crtc_h + 1)) * 65536) |||
              u32 (env.rot_mode_hdisplay - (crtc_x + crtc_w + 1)))
        else hw_event.I915_WRITE (Reg.SPPOS pipe plane) (u32 (crtc_y * 65536) ||| u32 crtc_x)),
       (if obj.tiling_mode ≠ I915_TILING_NONE then
          (if rotate then
            hw_event.I915_WRITE (Reg.SPTILEOFF pipe plane)
              (u32 ((crtc_h + 1) * 65536) ||| u32 (crtc_w + 1))
           else hw_event.I915_WRITE (Reg.SPTILEOFF pipe plane) (u32 (y * 65536) ||| u32 x))
        else
          (if rotate then
            hw_event.I915_WRITE (Reg.SPLINOFF pipe plane)
              (u32 ((crtc_h + 1) * (crtc_w + 1) * pixel_size - pixel_size))
           else hw_event.I915_WRITE (Reg.SPLINOFF pipe plane) (u32 linear_offset))),
       hw_event.I915_WRITE (Reg.SPSIZE pipe plane) (u32 (crtc_h * 65536) ||| u32 crtc_w)] ++
      [hw_event.I915_WRITE (Reg.SPCNTR pipe plane) sprctl,
       hw_event.I915_MODIFY_DISPBASE (Reg.SPSURF pipe plane)
         (u32 (obj.ggtt_offset + sprsurf_offset)),
       hw_event.POSTING_READ (Reg.SPSURF pipe plane),
       hw_event.local_irq_enable], crtc)

/-- The call `intel_plane->update_plane(...)` through the function pointer of the
plane. -/
def plane_update_plane (hw : i915_reg) (z : zorder_bits) (c : plane_bits) (env : update_env)
    (dev : drm_device) (regs : Reg → Nat) (plane : intel_plane) (crtc : intel_crtc)
    (fb : drm_framebuffer) (obj : drm_i915_gem_object)
    (crtc_x crtc_y crtc_w crtc_h x y src_w src_h : Int) (disable_primary : Bool) :
    Option (List hw_event × intel_crtc) :=
  match plane.funcs with
  | plane_funcs.ilk =>
    ilk_update_plane hw c env dev regs plane crtc fb obj crtc_x crtc_y crtc_w crtc_h x y
      src_w src_h disable_primary
  | plane_funcs.ivb =>
    ivb_update_plane hw c env dev regs plane crtc fb obj crtc_x crtc_y crtc_w crtc_h x y
      src_w src_h disable_primary
  | plane_funcs.vlv =>
    vlv_update_plane hw z c env dev regs plane crtc fb obj crtc_x crtc_y crtc_w crtc_h x y
      src_w src_h disable_primary

/-- The surface base address register of the sprite plane: `DVSSURF`, `SPRSURF` or
`SPSURF`. -/
def plane_surf_reg (plane : intel_plane) : Reg :=
  match plane.funcs with
  | plane_funcs.ilk => Reg.DVSSURF plane.pipe
  | plane_funcs.ivb => Reg.SPRSURF plane.pipe
  | plane_funcs.vlv => Reg.SPSURF plane.pipe plane.plane

/-- The stride register of the sprite plane. -/
def plane_stride_reg (plane : intel_plane) : Reg :=
  match plane.funcs with
  | plane_funcs.ilk => Reg.DVSSTRIDE plane.pipe
  | plane_funcs.ivb => Reg.SPRSTRIDE plane.pipe
  | plane_funcs.vlv => Reg.SPSTRIDE plane.pipe plane.plane

/-- The position register of the sprite plane. -/
def plane_pos_reg (plane : intel_plane) : Reg :=
  match plane.funcs with
  | plane_funcs.ilk => Reg.DVSPOS plane.pipe
  | plane_funcs.ivb => Reg.SPRPOS plane.pipe
  | plane_funcs.vlv => Reg.SPPOS plane.pipe plane.plane

/-- The size register of the sprite plane. -/
def plane_size_reg (plane : intel_plane) : Reg :=
  match plane.funcs with
  | plane_funcs.ilk => Reg.DVSSIZE plane.pipe
  | plane_funcs.ivb => Reg.SPRSIZE plane.pipe
  | plane_funcs.vlv => Reg.SPSIZE plane.pipe plane.plane

/-- The offset registers of the sprite plane: the tiled and the linear one, and the
register that stands for both on Haswell and Broadwell. -/
def plane_offset_regs (plane : intel_plane) : List Reg :=
  match plane.funcs with
  | plane_funcs.ilk => [Reg.DVSTILEOFF plane.pipe, Reg.DVSLINOFF plane.pipe]
  | plane_funcs.ivb =>
    [Reg.SPROFFSET plane.pipe, Reg.SPRTILEOFF plane.pipe, Reg.SPRLINOFF plane.pipe]
  | plane_funcs.vlv =>
    [Reg.SPTILEOFF plane.pipe plane.plane, Reg.SPLINOFF plane.pipe plane.plane]

/-- The scale register the `update_plane` backend of the plane writes, if it writes one:
`ilk_update_plane` writes `DVSSCALE`, `ivb_update_plane` writes `SPRSCALE` when the plane
can scale, `vlv_update_plane` writes none. -/
def plane_scale_reg (plane : intel_plane) : Option Reg :=
  match plane.funcs with
  | plane_funcs.ilk => some (Reg.DVSSCALE plane.pipe)
  | plane_funcs.ivb => if plane.can_scale then some (Reg.SPRSCALE plane.pipe) else none
  | plane_funcs.vlv => none

/-- The formats the backend of the plane is registered with by `intel_plane_init`:
`vlv_plane_formats` for the `vlv_*` functions, `snb_plane_formats` for the `ivb_*`
functions, `ilk_plane_formats` or `snb_plane_formats`, which holds the former, for the
`ilk_*` functions. -/
def plane_formats (plane : intel_plane) : List drm_format :=
  match plane.funcs with
  | plane_funcs.ilk => snb_plane_formats
  | plane_funcs.ivb => snb_plane_formats
  | plane_funcs.vlv => vlv_plane_formats

/-- The event is an access of a display register: a write or a posting read. -/
def hw_event.is_reg_access : hw_event → Bool
  | hw_event.I915_WRITE _ _ => true
  | hw_event.I915_MODIFY_DISPBASE _ _ => true
  | hw_event.POSTING_READ _ => true
  | _ => false

/-- One assignment of the constants of the `update_plane` backends: the pixel format
field is bits 25 to 27 (bits 26 to 29 on the `SP` registers), the YUV byte order bits
16 and 17, the tiling bit is bit 10. -/
def sample_plane_bits : plane_bits :=
  { DVS_PIXFORMAT_MASK := 3 * 33554432
    DVS_RGB_ORDER_XBGR := 1048576
    DVS_YUV_BYTE_ORDER_MASK := 3 * 65536
    DVS_TILED := 1024
    DVS_FORMAT_RGBX888 := 2 * 33554432
    DVS_FORMAT_YUV422 := 0
    DVS_YUV_ORDER_YUYV := 0
    DVS_YUV_ORDER_YVYU := 2 * 65536
    DVS_YUV_ORDER_UYVY := 1 * 65536
    DVS_YUV_ORDER_VYUY := 3 * 65536
    DVS_GAMMA_ENABLE := 1073741824
    DVS_TRICKLE_FEED_DISABLE := 16384
    DVS_SCALE_ENABLE := 2147483648
    SPRITE_PIXFORMAT_MASK := 7 * 33554432
    SPRITE_RGB_ORDER_RGBX := 1048576
    SPRITE_YUV_BYTE_ORDER_MASK := 3 * 65536
    SPRITE_TILED := 1024
    SPRITE_FORMAT_RGBX888 := 2 * 33554432
    SPRITE_FORMAT_YUV422 := 0
    SPRITE_YUV_ORDER_YUYV := 0
    SPRITE_YUV_ORDER_YVYU := 2 * 65536
    SPRITE_YUV_ORDER_UYVY := 1 * 65536
    SPRITE_YUV_ORDER_VYUY := 3 * 65536
    SPRITE_GAMMA_ENABLE := 1073741824
    SPRITE_TRICKLE_FEED_DISABLE := 16384
    SPRITE_PIPE_CSC_ENABLE := 16777216
    SPRITE_SCALE_ENABLE := 2147483648
    SP_YUV_BYTE_ORDER_MASK := 3 * 65536
    SP_TILED := 1024
    SP_YUV_ORDER_YUYV := 0
    SP_YUV_ORDER_YVYU := 2 * 65536
    SP_YUV_ORDER_UYVY := 1 * 65536
    SP_YUV_ORDER_VYUY := 3 * 65536
    SP_GAMMA_ENABLE := 1073741824
    DISPPLANE_180_ROTATION_ENABLE := 32768 }

/-- An environment of the `update_plane` backends: the page offset of a linear buffer
as `intel_gen4_compute_page_offset` computes it upstream (the byte offset rounded down
to a page, `x` moved to the rest, `y` to 0), a 1920x1080 `rot_mode`, the sprite fix
off. -/
def sample_env : update_env :=
  { intel_gen4_compute_page_offset := fun x y _ cpp pitch =>
      ((y * pitch + x * cpp) / 4096 * 4096, (y * pitch + x * cpp) % 4096 / cpp, 0)
    rot_mode_vdisplay := 1080
    rot_mode_hdisplay := 1920
    i915_ivb_sprite_fix := false
    ilk_disable_lp_wm := false }

/-- The plane enable bit of the control register of the sprite plane: `DVS_ENABLE`,
`SPRITE_ENABLE` or `SP_ENABLE`. -/
def plane_enable_bit (hw : i915_reg) (plane : intel_plane) : Nat :=
  match plane.funcs with
  | plane_funcs.ilk => hw.DVS_ENABLE
  | plane_funcs.ivb => hw.SPRITE_ENABLE
  | plane_funcs.vlv => hw.SP_ENABLE

/-- The release rule as the specification words it, to be compared with
`intel_plane_queue_unpin`: a plane with the current-surface capability unpins at once
iff the content of its live-surface register differs from the address of the buffer,
a plane without it defers.  `read` is the content of a register by offset. -/
def queue_unpin_on_live_content (read : Int → Int) (plane : intel_plane)
    (obj : drm_i915_gem_object) : List action :=
  match plane.current_surface with
  | some live_reg =>
    if read live_reg ≠ obj.ggtt_offset then [action.unpin_fb_obj obj]
    else [action.crtc_queue_unpin obj]
  | none => [action.crtc_queue_unpin obj]

/-- The pairs (opaque member, alpha member) whose case in the `switch` of
`i915_set_primary_alpha` ends in `break`. -/
def primary_alpha_pairs (z : zorder_bits) : List (Nat × Nat) :=
  [(z.DISPPLANE_BGRX888, z.DISPPLANE_BGRA888), (z.DISPPLANE_RGBX888, z.DISPPLANE_RGBA888),
   (z.DISPPLANE_BGRX101010, z.DISPPLANE_BGRA101010)]

/-- The pairs (opaque member, alpha member) of the `switch` of `i915_set_sprite_alpha`. -/
def sprite_alpha_pairs (z : zorder_bits) : List (Nat × Nat) :=
  [(z.SP_FORMAT_BGRX8888, z.SP_FORMAT_BGRA8888), (z.SP_FORMAT_RGBX8888, z.SP_FORMAT_RGBA8888),
   (z.SP_FORMAT_RGBX1010102, z.SP_FORMAT_RGBA1010102)]

/-- The local variable `alpha` of `i915_set_primary_alpha`. -/
def primary_alpha (z : zorder_bits) (zorder : Nat) : Bool :=
  decide (zorder ≠ z.P1S1S2C1 ∧ zorder ≠ z.P1S2S1C1)

/-- The local variable `alpha` of `i915_set_sprite_alpha`. -/
def sprite_alpha (z : zorder_bits) (zorder : Nat) (plane : Int) : Bool :=
  if zorder ≠ z.S1P1S2C1 ∧ zorder ≠ z.S1S2P1C1 ∧ plane = 0 then true
  else if zorder ≠ z.S2P1S1C1 ∧ zorder ≠ z.S2S1P1C1 ∧ plane = 1 then true
  else false

/-- The `switch (fb->pixel_format)` of the `update_plane` backend of the plane: the bits
its case sets, `none` for the `default` branch, which is `BUG()`. -/
def plane_format_bits (z : zorder_bits) (c : plane_bits) (plane : intel_plane)
    (format : drm_format) : Option Nat :=
  match plane.funcs with
  | plane_funcs.ilk => ilk_format_bits c format
  | plane_funcs.ivb => ivb_format_bits c format
  | plane_funcs.vlv => vlv_format_bits z c format

/-- A request that scales a source of 2x3 pixels up to the whole of a 1024x768 pipe. -/
def tiny_full_request : plane_request :=
  { crtc_x := 0, crtc_y := 0, crtc_w := 1024, crtc_h := 768
    src_x := 0, src_y := 0, src_w := 131072, src_h := 196608 }

/-! ## Inversion lemmas for the stages of `intel_update_plane` -/

/-- `intel_plane_queue_unpin` only unpins or queues an unpin. -/
theorem queue_unpin_actions (plane : intel_plane) (obj : drm_i915_gem_object) :
    intel_plane_queue_unpin plane obj = [action.unpin_fb_obj obj] ∨
    intel_plane_queue_unpin plane obj = [action.crtc_queue_unpin obj] := by
  unfold intel_plane_queue_unpin
  cases plane.current_surface with
  | none => exact Or.inr rfl
  | some live =>
    by_cases h : live ≠ obj.ggtt_offset
    · left; simp [h]
    · right; simp [h]

/-- The resolved geometry comes from the clip stage followed by the limits stage. -/
theorem resolve_ok_inv {p : intel_plane} {crtc : intel_crtc} {fb : drm_framebuffer}
    {a : plane_request} {g : resolved}
    (h : intel_update_plane_resolve p crtc fb a = resolve_result.ok g) :
    ∃ s, intel_update_plane_clip p crtc fb a = resolve_result.ok s ∧
      intel_update_plane_limits p crtc fb s = resolve_result.ok g := by
  unfold intel_update_plane_resolve at h
  split at h
  · next s hs => exact ⟨s, hs, h⟩
  · next r hr => exact absurd h (hr g)

/-- What a call of the backend `update_plane` in the trace of `intel_update_plane`
says about the run. -/
theorem update_plane_called_inv {plane : intel_plane} {crtc : intel_crtc}
    {fb : drm_framebuffer} {a : plane_request} {pin_ret : Int}
    {fb' : drm_framebuffer} {cx cy cw ch sx sy sw sh : Int} {dp : Bool}
    (h : action.update_plane fb' cx cy cw ch sx sy sw sh dp ∈
      (intel_update_plane plane crtc fb a pin_ret).trace) :
    ∃ g, intel_update_plane_resolve plane crtc fb a = resolve_result.ok g ∧
      g.visible = true ∧ crtc.active = true ∧ pin_ret = 0 ∧ fb' = fb ∧
      cx = g.crtc_x ∧ cy = g.crtc_y ∧ cw = g.crtc_w ∧ ch = g.crtc_h ∧
      sx = g.src_x ∧ sy = g.src_y ∧ sw = g.src_w ∧ sh = g.src_h ∧
      dp = g.disable_primary := by
  unfold intel_update_plane at h
  simp only at h
  split at h
  · simp at h
  split at h
  · simp at h
  split at h
  · simp at h
  split at h
  · simp at h
  · simp at h
  · next g hg =>
    split at h
    · simp at h
    · next hpin =>
      refine ⟨g, hg, ?_⟩
      simp only [List.mem_append, List.mem_singleton] at h
      rcases h with (h | h) | h
      · exact absurd h (by simp)
      · by_cases hact : crtc.active = true
        · by_cases hvis : g.visible = true
          · simp [hact, hvis] at h
            obtain ⟨h1, h2, h3, h4, h5, h6, h7, h8, h9, h10⟩ := h
            exact ⟨hvis, hact, by simpa using hpin, h1, h2, h3, h4, h5, h6, h7, h8, h9, h10⟩
          · simp [hact, hvis] at h
        · simp [hact] at h
      · cases hold : plane.obj with
        | none => simp [hold] at h
        | some o =>
          simp only [hold] at h
          rcases queue_unpin_actions
            { plane with crtc_x := a.crtc_x, crtc_y := a.crtc_y, crtc_w := a.crtc_w,
                         crtc_h := a.crtc_h, src_x := a.src_x, src_y := a.src_y,
                         src_w := a.src_w, src_h := a.src_h, obj := some fb.obj } o with hq | hq
          · rw [hq] at h; simp at h
          · rw [hq] at h; simp at h

/-- What the clip stage computed when it reports a visible plane. -/
theorem clip_visible_inv {p : intel_plane} {crtc : intel_crtc} {fb : drm_framebuffer}
    {a : plane_request} {s : resolved}
    (h : intel_update_plane_clip p crtc fb a = resolve_result.ok s)
    (hv : s.visible = true) :
    (clip_of p crtc a).visible = true ∧
    0 ≤ exact_hscale p crtc a ∧ 0 ≤ exact_vscale p crtc a ∧
    s.hscale = exact_hscale p crtc a ∧ s.vscale = exact_vscale p crtc a ∧
    s.src = adjusted_src p crtc a ∧
    s.crtc_x = (clip_of p crtc a).dst.x1 ∧ s.crtc_y = (clip_of p crtc a).dst.y1 ∧
    s.crtc_w = (if format_is_yuv fb.pixel_format && !p.can_scale
      then to_u32 (drm_rect_width (clip_of p crtc a).dst) -
        to_u32 (drm_rect_width (clip_of p crtc a).dst) % 2
      else to_u32 (drm_rect_width (clip_of p crtc a).dst)) ∧
    s.crtc_h = to_u32 (drm_rect_height (clip_of p crtc a).dst) ∧
    s.src_x = (if format_is_yuv fb.pixel_format
      then to_u32 ((adjusted_src p crtc a).x1 / 65536) -
        to_u32 ((adjusted_src p crtc a).x1 / 65536) % 2
      else to_u32 ((adjusted_src p crtc a).x1 / 65536)) ∧
    s.src_w = (if format_is_yuv fb.pixel_format
      then to_u32 (drm_rect_width (adjusted_src p crtc a) / 65536) -
        to_u32 (drm_rect_width (adjusted_src p crtc a) / 65536) % 2
      else to_u32 (drm_rect_width (adjusted_src p crtc a) / 65536)) ∧
    s.src_y = to_u32 ((adjusted_src p crtc a).y1 / 65536) ∧
    s.src_h = to_u32 (drm_rect_height (adjusted_src p crtc a) / 65536) ∧
    (format_is_yuv fb.pixel_format = true → s.crtc_w ≠ 0) ∧
    WARN.scaling_on_fixed_plane ∉ s.warns := by
  unfold intel_update_plane_clip at h
  simp only at h
  simp only [clip_of, exact_hscale, exact_vscale, adjusted_src]
  split at h
  · exact absurd h (by simp)
  split at h
  · exact absurd h (by simp)
  split at h
  · next hvis =>
    split at h
    · exact absurd h (by simp)
    split at h
    · exact absurd h (by simp)
    next hh hvv =>
    injection h with h
    subst h
    simp only at hv
    refine ⟨hvis, not_lt.mp hh, not_lt.mp hvv, rfl, rfl, rfl, rfl, rfl, rfl, rfl, rfl, rfl,
      rfl, rfl, ?_, ?_⟩
    · intro hy h0
      simp only at h0
      cases hc : p.can_scale <;> simp [hy, hc] at hv h0 <;> exact hv h0
    · simp only
      split <;> simp
  · injection h with h
    subst h
    simp at hv

/-- What the limits stage keeps of the local variables when it lets a request pass. -/
theorem limits_ok_inv {p : intel_plane} {crtc : intel_crtc} {fb : drm_framebuffer}
    {s g : resolved}
    (h : intel_update_plane_limits p crtc fb s = resolve_result.ok g) :
    g.crtc_x = s.crtc_x ∧ g.crtc_y = s.crtc_y ∧ g.crtc_w = s.crtc_w ∧ g.crtc_h = s.crtc_h ∧
    g.src_x = s.src_x ∧ g.src_y = s.src_y ∧ g.src_w = s.src_w ∧ g.src_h = s.src_h ∧
    g.hscale = s.hscale ∧ g.vscale = s.vscale ∧ g.src = s.src ∧
    (g.visible = true → s.visible = true) ∧
    g.disable_primary = drm_rect_equals
      { x1 := s.crtc_x, x2 := to_int (to_u32 (s.crtc_x + s.crtc_w)),
        y1 := s.crtc_y, y2 := to_int (to_u32 (s.crtc_y + s.crtc_h)) } (pipe_clip crtc) ∧
    (s.src_w = s.crtc_w → s.src_h = s.crtc_h → WARN.scaling_on_fixed_plane ∉ s.warns →
      WARN.scaling_on_fixed_plane ∉ g.warns) := by
  unfold intel_update_plane_limits at h
  simp only at h
  split at h
  · exact absurd h (by simp)
  · injection h with h
    subst h
    refine ⟨rfl, rfl, rfl, rfl, rfl, rfl, rfl, rfl, rfl, rfl, rfl, ?_, rfl, ?_⟩
    · intro hv
      simp only at hv
      split at hv
      · exact absurd hv (by simp)
      · split at hv
        · exact absurd hv (by simp)
        · exact hv
    · intro hw hh hn
      simp only [hw, hh, ne_eq, not_true_eq_false, decide_False, Bool.or_self, Bool.and_false,
        Bool.false_and, Bool.false_eq_true, ↓reduceIte]
      split
      · simp [hn]
      · exact hn

/-! ## Scale factors and the adjusted source rectangle -/

/-- A visible clip result has a destination of positive width and height. -/
theorem clip_visible_dst {src dst clip : drm_rect} {hs vs : Int}
    (h : (drm_rect_clip_scaled src dst clip hs vs).visible = true) :
    0 < drm_rect_width (drm_rect_clip_scaled src dst clip hs vs).dst ∧
    0 < drm_rect_height (drm_rect_clip_scaled src dst clip hs vs).dst := by
  simp only [drm_rect_clip_scaled, drm_rect_intersect, drm_rect_visible, Bool.and_eq_true,
    decide_eq_true_eq] at h ⊢
  exact h

/-- A scale factor that is not an errno is the quotient of the extents, and legal. -/
theorem calc_scale_legal (s w lo hi r : Int) (hw : 0 < w)
    (hr : r = (if drm_calc_scale s w < 0 ∨ w = 0 then drm_calc_scale s w
      else if drm_calc_scale s w < lo ∨ hi < drm_calc_scale s w then -ERANGE
      else drm_calc_scale s w))
    (h0 : 0 ≤ r) : 0 ≤ s ∧ r = s / w ∧ lo ≤ r ∧ r ≤ hi := by
  have hw0 : w ≠ 0 := by omega
  by_cases h1 : drm_calc_scale s w < 0
  · simp [h1] at hr; omega
  · by_cases h2 : drm_calc_scale s w < lo ∨ hi < drm_calc_scale s w
    · simp [h1, hw0, h2, ERANGE] at hr; omega
    · simp only [h1, hw0, h2, or_self, ↓reduceIte] at hr
      have hs : 0 ≤ s := by
        by_contra hneg
        apply h1
        unfold drm_calc_scale
        simp [show s < 0 by omega, EINVAL]
      have hq : drm_calc_scale s w = s / w := by
        unfold drm_calc_scale
        simp [show ¬ (s < 0 ∨ w < 0) by omega, hw0]
      rw [hq] at hr h2
      refine ⟨hs, hr, ?_, ?_⟩ <;> omega

/-- One axis of `drm_rect_adjust_size` after a legal exact scale factor: the extent
becomes the destination extent times the factor. -/
theorem adjust_axis_extent (x1 x2 w hs : Int) (hw : 0 < w) (hs1 : 1 ≤ hs)
    (hs0 : 0 ≤ to_int (x2 - x1)) (hq : hs = to_int (x2 - x1) / w) :
    to_int (to_int (x2 + to_int (to_int (w * hs - to_int (x2 - x1)) + 1) / 2) -
      to_int (x1 - to_int (w * hs - to_int (x2 - x1)) / 2)) = w * hs := by
  have h1 : w * hs ≤ to_int (x2 - x1) := by
    rw [hq]; exact Int.mul_ediv_self_le (by omega)
  have h2 : to_int (x2 - x1) < w * hs + w := by
    rw [hq]; exact Int.lt_mul_ediv_self_add hw
  have h3 : w ≤ w * hs := by nlinarith
  generalize w * hs = m at *
  unfold to_int at *
  omega

/-- A plane registered by `intel_plane_init` that cannot scale has `max_downscale = 1`. -/
theorem plane_of_init_fixed {p : intel_plane} (h : plane_of_init p)
    (hc : p.can_scale = false) : p.max_downscale = 1 := by
  obtain ⟨hw, dev, pipe, plane, p0, formats, hinit, hcs, hmd⟩ := h
  unfold intel_plane_init at hinit
  rw [hmd]
  rw [hcs] at hc
  split at hinit
  · exact absurd hinit (by simp)
  split at hinit
  · injection hinit with hinit
    injection hinit with h1 h2
    subst h1
    simp [new_plane] at hc
  split at hinit
  · simp only at hinit
    split at hinit
    · injection hinit with hinit
      injection hinit with h1 h2
      subst h1
      simp only [new_plane] at hc ⊢
      simp [hc]
    · injection hinit with hinit
      injection hinit with h1 h2
      subst h1
      simp only [new_plane] at hc ⊢
      simp [hc]
  · exact absurd hinit (by simp)

/-- The exact factors of a visible clip result that were not refused are legal
quotients. -/
theorem exact_scales_legal {p : intel_plane} {crtc : intel_crtc} {a : plane_request}
    (hvis : (clip_of p crtc a).visible = true)
    (hh : 0 ≤ exact_hscale p crtc a) (hv : 0 ≤ exact_vscale p crtc a) :
    (0 < drm_rect_width (clip_of p crtc a).dst ∧
     0 ≤ drm_rect_width (clip_of p crtc a).src ∧
     exact_hscale p crtc a =
       drm_rect_width (clip_of p crtc a).src / drm_rect_width (clip_of p crtc a).dst ∧
     plane_min_scale p ≤ exact_hscale p crtc a ∧
     exact_hscale p crtc a ≤ plane_max_scale p) ∧
    (0 < drm_rect_height (clip_of p crtc a).dst ∧
     0 ≤ drm_rect_height (clip_of p crtc a).src ∧
     exact_vscale p crtc a =
       drm_rect_height (clip_of p crtc a).src / drm_rect_height (clip_of p crtc a).dst ∧
     plane_min_scale p ≤ exact_vscale p crtc a ∧
     exact_vscale p crtc a ≤ plane_max_scale p) := by
  have hd := clip_visible_dst (by simpa [clip_of] using hvis :
    (drm_rect_clip_scaled (request_src a) (request_dst a) (pipe_clip crtc)
      (drm_rect_calc_hscale_relaxed (request_src a) (request_dst a)
        (plane_min_scale p) (plane_max_scale p))
      (drm_rect_calc_vscale_relaxed (request_src a) (request_dst a)
        (plane_min_scale p) (plane_max_scale p))).visible = true)
  have hdw : 0 < drm_rect_width (clip_of p crtc a).dst := hd.1
  have hdh : 0 < drm_rect_height (clip_of p crtc a).dst := hd.2
  have h1 := calc_scale_legal (drm_rect_width (clip_of p crtc a).src)
    (drm_rect_width (clip_of p crtc a).dst) (plane_min_scale p) (plane_max_scale p)
    (exact_hscale p crtc a) hdw rfl hh
  have h2 := calc_scale_legal (drm_rect_height (clip_of p crtc a).src)
    (drm_rect_height (clip_of p crtc a).dst) (plane_min_scale p) (plane_max_scale p)
    (exact_vscale p crtc a) hdh rfl hv
  exact ⟨⟨hdw, h1.1, h1.2.1, h1.2.2.1, h1.2.2.2⟩, ⟨hdh, h2.1, h2.2.1, h2.2.2.1, h2.2.2.2⟩⟩

/-- The width of the adjusted source is the clipped destination width times the exact
factor, when that factor is legal and at least 1. -/
theorem adjusted_src_width {p : intel_plane} {crtc : intel_crtc} {a : plane_request}
    (hw : 0 < drm_rect_width (clip_of p crtc a).dst)
    (hs0 : 0 ≤ drm_rect_width (clip_of p crtc a).src)
    (hq : exact_hscale p crtc a =
      drm_rect_width (clip_of p crtc a).src / drm_rect_width (clip_of p crtc a).dst)
    (h1 : 1 ≤ exact_hscale p crtc a) :
    drm_rect_width (adjusted_src p crtc a) =
      drm_rect_width (clip_of p crtc a).dst * exact_hscale p crtc a := by
  have := adjust_axis_extent (clip_of p crtc a).src.x1 (clip_of p crtc a).src.x2
    (drm_rect_width (clip_of p crtc a).dst) (exact_hscale p crtc a) hw h1 hs0 hq
  simpa [adjusted_src, drm_rect_adjust_size, drm_rect_width] using this

/-- The height of the adjusted source is the clipped destination height times the
exact factor, when that factor is legal and at least 1. -/
theorem adjusted_src_height {p : intel_plane} {crtc : intel_crtc} {a : plane_request}
    (hw : 0 < drm_rect_height (clip_of p crtc a).dst)
    (hs0 : 0 ≤ drm_rect_height (clip_of p crtc a).src)
    (hq : exact_vscale p crtc a =
      drm_rect_height (clip_of p crtc a).src / drm_rect_height (clip_of p crtc a).dst)
    (h1 : 1 ≤ exact_vscale p crtc a) :
    drm_rect_height (adjusted_src p crtc a) =
      drm_rect_height (clip_of p crtc a).dst * exact_vscale p crtc a := by
  have := adjust_axis_extent (clip_of p crtc a).src.y1 (clip_of p crtc a).src.y2
    (drm_rect_height (clip_of p crtc a).dst) (exact_vscale p crtc a) hw h1 hs0 hq
  simpa [adjusted_src, drm_rect_adjust_size, drm_rect_height] using this

/-- The smallest legal factor is at least 1. -/
theorem plane_min_scale_pos (p : intel_plane) : 1 ≤ plane_min_scale p := by
  unfold plane_min_scale; split <;> omega

/-! ## Forward lemmas: well-formed requests -/

/-- Past the guards, `intel_update_plane` returns what the geometry code returns when
that is an errno, and does nothing else. -/
theorem update_plane_of_error {plane : intel_plane} {crtc : intel_crtc}
    {fb : drm_framebuffer} {a : plane_request} {code : Int} {w : List WARN}
    (hg : passes_guards plane crtc fb) (pin_ret : Int)
    (h : intel_update_plane_resolve plane crtc fb a = resolve_result.error code w) :
    intel_update_plane plane crtc fb a pin_ret = ⟨retval.ret code, plane, []⟩ := by
  obtain ⟨h1, h2, h3, h4, h5⟩ := hg
  unfold intel_update_plane
  have g2 : ¬ (fb.width < 3 ∨ fb.height < 3 ∨ 16384 < fb.pitch) := by omega
  simp only [h1, ne_eq, not_true_eq_false, ↓reduceIte, g2, h5, h]

/-- Past the guards, with a buffer that pins, `intel_update_plane` records the request,
calls the backend when the pipe is active, and releases the old buffer. -/
theorem update_plane_of_ok {plane : intel_plane} {crtc : intel_crtc}
    {fb : drm_framebuffer} {a : plane_request} {g : resolved}
    (hg : passes_guards plane crtc fb)
    (h : intel_update_plane_resolve plane crtc fb a = resolve_result.ok g) :
    intel_update_plane plane crtc fb a 0 =
      ⟨retval.ret 0,
       { plane with
         crtc_x := a.crtc_x, crtc_y := a.crtc_y, crtc_w := a.crtc_w, crtc_h := a.crtc_h
         src_x := a.src_x, src_y := a.src_y, src_w := a.src_w, src_h := a.src_h
         obj := some fb.obj },
       [action.pin_and_fence_fb_obj fb.obj] ++
       (if crtc.active then
          if g.visible then
            [action.update_plane fb g.crtc_x g.crtc_y g.crtc_w g.crtc_h
              g.src_x g.src_y g.src_w g.src_h g.disable_primary]
          else [action.disable_plane]
        else []) ++
       (match plane.obj with
        | some o => intel_plane_queue_unpin
            { plane with
              crtc_x := a.crtc_x, crtc_y := a.crtc_y, crtc_w := a.crtc_w, crtc_h := a.crtc_h
              src_x := a.src_x, src_y := a.src_y, src_w := a.src_w, src_h := a.src_h
              obj := some fb.obj } o
        | none => [])⟩ := by
  obtain ⟨h1, h2, h3, h4, h5⟩ := hg
  unfold intel_update_plane
  have g2 : ¬ (fb.width < 3 ∨ fb.height < 3 ∨ 16384 < fb.pitch) := by omega
  simp only [h1, ne_eq, not_true_eq_false, ↓reduceIte, g2, h5, h]

/-- The rectangles of a well-formed request, without the casts. -/
theorem request_rects {a : plane_request} (h : a.well_formed) :
    request_src a =
      { x1 := a.src_x, y1 := a.src_y, x2 := a.src_x + a.src_w, y2 := a.src_y + a.src_h } ∧
    request_dst a =
      { x1 := a.crtc_x, y1 := a.crtc_y, x2 := a.crtc_x + a.crtc_w,
        y2 := a.crtc_y + a.crtc_h } ∧
    drm_rect_width (request_src a) = a.src_w ∧ drm_rect_height (request_src a) = a.src_h ∧
    drm_rect_width (request_dst a) = a.crtc_w ∧
    drm_rect_height (request_dst a) = a.crtc_h := by
  unfold plane_request.well_formed at h
  simp only [request_src, request_dst, drm_rect.mk.injEq, drm_rect_width, drm_rect_height,
    to_int, to_u32]
  repeat' apply And.intro
  all_goals first | trivial | omega

/-- The estimate of a scale factor on non-negative extents is their quotient. -/
theorem drm_calc_scale_nonneg {s w : Int} (hs : 0 ≤ s) (hw : 0 ≤ w) :
    drm_calc_scale s w = s / w ∧ 0 ≤ drm_calc_scale s w := by
  have h1 : drm_calc_scale s w = s / w := by
    unfold drm_calc_scale
    by_cases h0 : w = 0
    · simp [h0, show ¬ s < 0 by omega]
    · simp [h0, show ¬ (s < 0 ∨ w < 0) by omega]
  refine ⟨h1, ?_⟩
  rw [h1]
  exact Int.ediv_nonneg hs hw

/-- The relaxed factors of a well-formed request: the quotients of the requested
extents, never negative (no `BUG_ON`). -/
theorem relaxed_scales {a : plane_request} (h : a.well_formed) (lo hi : Int) :
    drm_rect_calc_hscale_relaxed (request_src a) (request_dst a) lo hi = a.src_w / a.crtc_w ∧
    drm_rect_calc_vscale_relaxed (request_src a) (request_dst a) lo hi = a.src_h / a.crtc_h ∧
    0 ≤ a.src_w / a.crtc_w ∧ 0 ≤ a.src_h / a.crtc_h := by
  obtain ⟨-, -, e1, e2, e3, e4⟩ := request_rects h
  unfold plane_request.well_formed at h
  have hw := @drm_calc_scale_nonneg a.src_w a.crtc_w (by omega) (by omega)
  have hh := @drm_calc_scale_nonneg a.src_h a.crtc_h (by omega) (by omega)
  simp only [drm_rect_calc_hscale_relaxed, drm_rect_calc_vscale_relaxed, e1, e2, e3, e4]
  exact ⟨hw.1, hh.1, hw.1 ▸ hw.2, hh.1 ▸ hh.2⟩

/-- Scaled clipping leaves a destination that lies inside the clip rectangle, and its
source, as they are. -/
theorem clip_of_inside (p : intel_plane) {crtc : intel_crtc} {a : plane_request}
    (h : a.well_formed) (hc : crtc.sized)
    (hin : 0 ≤ a.crtc_x ∧ a.crtc_x + a.crtc_w ≤ (pipe_clip crtc).x2 ∧
      0 ≤ a.crtc_y ∧ a.crtc_y + a.crtc_h ≤ (pipe_clip crtc).y2) :
    (clip_of p crtc a).src = request_src a ∧ (clip_of p crtc a).dst = request_dst a ∧
    ((clip_of p crtc a).visible = true ↔ (0 < a.crtc_w ∧ 0 < a.crtc_h)) := by
  obtain ⟨es, ed, -, -, -, -⟩ := request_rects h
  have hx2 : (pipe_clip crtc).x2 ≤ 2147483647 := by
    unfold pipe_clip intel_crtc.sized at *; simp only; split <;> omega
  have hy2 : (pipe_clip crtc).y2 ≤ 2147483647 := by
    unfold pipe_clip intel_crtc.sized at *; simp only; split <;> omega
  have hx1 : (pipe_clip crtc).x1 = 0 := rfl
  have hy1 : (pipe_clip crtc).y1 = 0 := rfl
  unfold plane_request.well_formed at h
  have d1 : ¬ 0 < to_int ((pipe_clip crtc).x1 - (request_dst a).x1) := by
    rw [ed, hx1]; unfold to_int; simp only; omega
  have d2 : ¬ 0 < to_int ((pipe_clip crtc).y1 - (request_dst a).y1) := by
    rw [ed, hy1]; unfold to_int; simp only; omega
  have d3 : ¬ 0 < to_int ((request_dst a).x2 - (pipe_clip crtc).x2) := by
    rw [ed]; unfold to_int; simp only; omega
  have d4 : ¬ 0 < to_int ((request_dst a).y2 - (pipe_clip crtc).y2) := by
    rw [ed]; unfold to_int; simp only; omega
  have i1 : max (request_dst a).x1 (pipe_clip crtc).x1 = (request_dst a).x1 := by
    rw [ed, hx1]; simp only; omega
  have i2 : max (request_dst a).y1 (pipe_clip crtc).y1 = (request_dst a).y1 := by
    rw [ed, hy1]; simp only; omega
  have i3 : min (request_dst a).x2 (pipe_clip crtc).x2 = (request_dst a).x2 := by
    rw [ed]; simp only; omega
  have i4 : min (request_dst a).y2 (pipe_clip crtc).y2 = (request_dst a).y2 := by
    rw [ed]; simp only; omega
  simp only [clip_of, drm_rect_clip_scaled, drm_rect_intersect, d1, d2, d3, d4, i1, i2, i3, i4,
    ↓reduceIte, drm_rect_visible, Bool.and_eq_true, decide_eq_true_eq, true_and]
  rw [ed]
  simp only [drm_rect_width, drm_rect_height, to_int]
  constructor <;> intro hh <;> constructor <;> omega


/-! ## What the stages read of their arguments -/

/-- The clip stage reads of the plane only its scaling capabilities, of the crtc only
the clip rectangle, and of the framebuffer only whether its format is YUV 4:2:2. -/
theorem clip_stage_congr (p p' : intel_plane) (crtc crtc' : intel_crtc)
    (fb fb' : drm_framebuffer) (a : plane_request)
    (h1 : p.can_scale = p'.can_scale) (h2 : p.max_downscale = p'.max_downscale)
    (h3 : pipe_clip crtc = pipe_clip crtc')
    (h4 : format_is_yuv fb.pixel_format = format_is_yuv fb'.pixel_format) :
    intel_update_plane_clip p crtc fb a = intel_update_plane_clip p' crtc' fb' a := by
  simp only [intel_update_plane_clip, plane_min_scale, plane_max_scale, h1, h2, h3, h4]

/-- The limits stage reads of the plane only `can_scale`, of the crtc the clip
rectangle and `active`, and of the framebuffer the bytes per pixel of its format and
whether its pitch exceeds 4096. -/
theorem limits_stage_congr (p p' : intel_plane) (crtc crtc' : intel_crtc)
    (fb fb' : drm_framebuffer) (s : resolved)
    (h1 : p.can_scale = p'.can_scale)
    (h3 : pipe_clip crtc = pipe_clip crtc') (h3' : crtc.active = crtc'.active)
    (h4 : drm_format_plane_cpp fb.pixel_format = drm_format_plane_cpp fb'.pixel_format)
    (h5 : decide (4096 < fb.pitch) = decide (4096 < fb'.pitch)) :
    intel_update_plane_limits p crtc fb s = intel_update_plane_limits p' crtc' fb' s := by
  simp only [intel_update_plane_limits, h1, h3, h3', h4, h5]

/-- The resolved geometry depends on the plane, the crtc and the framebuffer only
through the values the two stages read. -/
theorem resolve_congr (p p' : intel_plane) (crtc crtc' : intel_crtc)
    (fb fb' : drm_framebuffer) (a : plane_request)
    (h1 : p.can_scale = p'.can_scale) (h2 : p.max_downscale = p'.max_downscale)
    (h3 : pipe_clip crtc = pipe_clip crtc') (h3' : crtc.active = crtc'.active)
    (h4 : fb.pixel_format = fb'.pixel_format)
    (h5 : decide (4096 < fb.pitch) = decide (4096 < fb'.pitch)) :
    intel_update_plane_resolve p crtc fb a = intel_update_plane_resolve p' crtc' fb' a := by
  unfold intel_update_plane_resolve
  rw [clip_stage_congr p p' crtc crtc' fb fb' a h1 h2 h3 (by rw [h4])]
  cases intel_update_plane_clip p' crtc' fb' a with
  | BUG => rfl
  | error c w => rfl
  | ok s => exact limits_stage_congr p p' crtc crtc' fb fb' s h1 h3 h3' (by rw [h4]) h5


/-! ## Clipping, hidden planes and the source rectangle -/

/-- Every `disable_plane` backend writes the control register of its plane. -/
theorem disable_plane_writes_control (hw : i915_reg) (dev : drm_device) (regs : Reg → Nat)
    (plane : intel_plane) (crtc : intel_crtc) :
    hw_event.I915_WRITE (plane_control_reg plane)
        (clear_bits (regs (plane_control_reg plane))
          (match plane.funcs with
           | plane_funcs.ilk => hw.DVS_ENABLE
           | plane_funcs.ivb => hw.SPRITE_ENABLE
           | plane_funcs.vlv => hw.SP_ENABLE)) ∈
      (plane_disable_plane hw dev regs plane crtc).1 := by
  unfold plane_disable_plane plane_control_reg
  cases plane.funcs <;>
    simp [ilk_disable_plane, ivb_disable_plane, vlv_disable_plane]


/-- The clip rectangle of a sized pipe. -/
theorem pipe_clip_bounds {crtc : intel_crtc} (hc : crtc.sized) :
    (pipe_clip crtc).x1 = 0 ∧ (pipe_clip crtc).y1 = 0 ∧
    0 ≤ (pipe_clip crtc).x2 ∧ (pipe_clip crtc).x2 ≤ 2147483647 ∧
    0 ≤ (pipe_clip crtc).y2 ∧ (pipe_clip crtc).y2 ≤ 2147483647 := by
  unfold intel_crtc.sized at hc
  unfold pipe_clip
  refine ⟨rfl, rfl, ?_, ?_, ?_, ?_⟩ <;> simp only <;> split <;> omega

/-- The destination left by scaled clipping is the intersection of the requested
destination with the clip rectangle; it is visible when the intersection is not
empty. -/
theorem clip_of_dst (p : intel_plane) {crtc : intel_crtc} {a : plane_request}
    (h : a.well_formed) (hc : crtc.sized) :
    (clip_of p crtc a).dst =
      { x1 := max a.crtc_x 0, y1 := max a.crtc_y 0
        x2 := min (a.crtc_x + a.crtc_w) (pipe_clip crtc).x2
        y2 := min (a.crtc_y + a.crtc_h) (pipe_clip crtc).y2 } ∧
    ((clip_of p crtc a).visible = true ↔
      (max a.crtc_x 0 < min (a.crtc_x + a.crtc_w) (pipe_clip crtc).x2 ∧
       max a.crtc_y 0 < min (a.crtc_y + a.crtc_h) (pipe_clip crtc).y2)) := by
  obtain ⟨-, ed, -, -, -, -⟩ := request_rects h
  obtain ⟨b1, b2, b3, b4, b5, b6⟩ := pipe_clip_bounds hc
  unfold plane_request.well_formed at h
  simp only [clip_of, drm_rect_clip_scaled, drm_rect_intersect, ed, b1, b2, drm_rect_visible,
    drm_rect_width, drm_rect_height, to_int, Bool.and_eq_true, decide_eq_true_eq, true_and]
  constructor <;> intro hh <;> constructor <;> omega

/-- The clip stage on a well-formed request whose clipped destination is empty. -/
theorem clip_stage_hidden {p : intel_plane} {crtc : intel_crtc} (fb : drm_framebuffer)
    {a : plane_request} (h : a.well_formed)
    (hv : (clip_of p crtc a).visible = false) :
    intel_update_plane_clip p crtc fb a = resolve_result.ok
      { visible := false
        crtc_x := (clip_of p crtc a).dst.x1, crtc_y := (clip_of p crtc a).dst.y1
        crtc_w := to_u32 (drm_rect_width (clip_of p crtc a).dst)
        crtc_h := to_u32 (drm_rect_height (clip_of p crtc a).dst)
        src_x := a.src_x, src_y := a.src_y, src_w := a.src_w, src_h := a.src_h
        disable_primary := false
        hscale := a.src_w / a.crtc_w, vscale := a.src_h / a.crtc_h
        src := (clip_of p crtc a).src, warns := [] } := by
  obtain ⟨r1, r2, r3, r4⟩ := relaxed_scales h (plane_min_scale p) (plane_max_scale p)
  simp only [clip_of, r1, r2] at hv ⊢
  unfold intel_update_plane_clip
  simp only [r1, r2, show ¬ a.src_w / a.crtc_w < 0 by omega,
    show ¬ a.src_h / a.crtc_h < 0 by omega, ↓reduceIte, hv, Bool.false_eq_true]

/-- The limits stage lets a hidden plane pass and leaves it hidden. -/
theorem limits_stage_hidden (p : intel_plane) (crtc : intel_crtc) (fb : drm_framebuffer)
    (s : resolved) (hv : s.visible = false) :
    ∃ g, intel_update_plane_limits p crtc fb s = resolve_result.ok g ∧ g.visible = false ∧
      g.crtc_x = s.crtc_x ∧ g.crtc_y = s.crtc_y ∧ g.crtc_w = s.crtc_w ∧ g.crtc_h = s.crtc_h := by
  simp only [intel_update_plane_limits, hv, Bool.false_and, Bool.false_eq_true, ↓reduceIte]
  exact ⟨_, rfl, rfl, rfl, rfl, rfl, rfl⟩


/-- The destination the clip stage leaves in the local variables, visible or not. -/
theorem clip_stage_dst_inv {p : intel_plane} {crtc : intel_crtc} {fb : drm_framebuffer}
    {a : plane_request} {s : resolved}
    (h : intel_update_plane_clip p crtc fb a = resolve_result.ok s) :
    s.crtc_x = (clip_of p crtc a).dst.x1 ∧ s.crtc_y = (clip_of p crtc a).dst.y1 ∧
    s.crtc_h = to_u32 (drm_rect_height (clip_of p crtc a).dst) ∧
    s.crtc_w = (if (clip_of p crtc a).visible && format_is_yuv fb.pixel_format && !p.can_scale
      then to_u32 (drm_rect_width (clip_of p crtc a).dst) -
        to_u32 (drm_rect_width (clip_of p crtc a).dst) % 2
      else to_u32 (drm_rect_width (clip_of p crtc a).dst)) := by
  unfold intel_update_plane_clip at h
  simp only at h
  simp only [clip_of]
  split at h
  · exact absurd h (by simp)
  split at h
  · exact absurd h (by simp)
  split at h
  · next hvis =>
    split at h
    · exact absurd h (by simp)
    split at h
    · exact absurd h (by simp)
    injection h with h
    subst h
    simp [hvis]
  · next hvis =>
    injection h with h
    subst h
    simp [hvis]


/-- One axis of scaled clipping on a well-formed request whose clipped destination is
not empty: the source interval `[X1, X1 + S]` shrinks to an interval inside itself.
`c`, `w` are origin and extent of the destination, `W` the far edge of the clip
rectangle, and the scale factor is the relaxed one, `S / w`. -/
theorem clip_axis (X1 S c w W : Int)
    (hX : 0 ≤ X1) (hS : 0 ≤ S) (hXS : X1 + S ≤ 2147483647)
    (hc : -2147483648 ≤ c) (hw : 0 ≤ w) (hw' : w ≤ 2147483647) (hcw : c + w ≤ 2147483647)
    (hW : 0 ≤ W) (hW' : W ≤ 2147483647)
    (hvis : max c 0 < min (c + w) W) :
    X1 ≤ (if 0 < to_int (0 - c) then clamp_int (X1 + to_int (0 - c) * (S / w)) else X1) ∧
    (if 0 < to_int (0 - c) then clamp_int (X1 + to_int (0 - c) * (S / w)) else X1) ≤
      (if 0 < to_int (c + w - W) then clamp_int (X1 + S - to_int (c + w - W) * (S / w))
       else X1 + S) ∧
    (if 0 < to_int (c + w - W) then clamp_int (X1 + S - to_int (c + w - W) * (S / w))
       else X1 + S) ≤ X1 + S := by
  have hw0 : 0 < w := by omega
  have hh : 0 ≤ S / w := Int.ediv_nonneg hS hw
  have hP : w * (S / w) ≤ S := Int.mul_ediv_self_le (by omega)
  have e1 : to_int (0 - c) = -c := by unfold to_int; omega
  have e2 : to_int (c + w - W) = c + w - W := by unfold to_int; omega
  rw [e1, e2]
  by_cases h1 : 0 < -c
  · by_cases h2 : 0 < c + w - W
    · have hA : 0 ≤ -c * (S / w) := Int.mul_nonneg (by omega) hh
      have hB : 0 ≤ (c + w - W) * (S / w) := Int.mul_nonneg (by omega) hh
      have hC : 0 ≤ W * (S / w) := Int.mul_nonneg hW hh
      have hsum : -c * (S / w) + (c + w - W) * (S / w) + W * (S / w) = w * (S / w) := by ring
      simp only [h1, h2, ↓reduceIte]
      generalize -c * (S / w) = A at *
      generalize (c + w - W) * (S / w) = B at *
      generalize W * (S / w) = C at *
      generalize w * (S / w) = P at *
      unfold clamp_int
      refine ⟨?_, ?_, ?_⟩ <;> (try split_ifs) <;> omega
    · have hA : 0 ≤ -c * (S / w) := Int.mul_nonneg (by omega) hh
      have hC : 0 ≤ (c + w) * (S / w) := Int.mul_nonneg (by omega) hh
      have hsum : -c * (S / w) + (c + w) * (S / w) = w * (S / w) := by ring
      simp only [h1, h2, ↓reduceIte]
      generalize -c * (S / w) = A at *
      generalize (c + w) * (S / w) = C at *
      generalize w * (S / w) = P at *
      unfold clamp_int
      refine ⟨?_, ?_, ?_⟩ <;> (try split_ifs) <;> omega
  · by_cases h2 : 0 < c + w - W
    · have hB : 0 ≤ (c + w - W) * (S / w) := Int.mul_nonneg (by omega) hh
      have hC : 0 ≤ (W - c) * (S / w) := Int.mul_nonneg (by omega) hh
      have hsum : (c + w - W) * (S / w) + (W - c) * (S / w) = w * (S / w) := by ring
      simp only [h1, h2, ↓reduceIte]
      generalize (c + w - W) * (S / w) = B at *
      generalize (W - c) * (S / w) = C at *
      generalize w * (S / w) = P at *
      unfold clamp_int
      refine ⟨?_, ?_, ?_⟩ <;> (try split_ifs) <;> omega
    · simp only [h1, h2, ↓reduceIte]
      omega

/-- One axis of `drm_rect_adjust_size` after a legal exact factor, on an interval
within the non-negative `int`s: the interval shrinks to one inside itself. -/
theorem adjust_axis_inside (x1 x2 w hs : Int) (hx1 : 0 ≤ x1) (hx : x1 ≤ x2)
    (hx2 : x2 ≤ 2147483647) (hw : 0 < w) (hs1 : 1 ≤ hs)
    (hq : hs = to_int (x2 - x1) / w) :
    x1 ≤ to_int (x1 - to_int (w * hs - to_int (x2 - x1)) / 2) ∧
    to_int (x1 - to_int (w * hs - to_int (x2 - x1)) / 2) ≤
      to_int (x2 + to_int (to_int (w * hs - to_int (x2 - x1)) + 1) / 2) ∧
    to_int (x2 + to_int (to_int (w * hs - to_int (x2 - x1)) + 1) / 2) ≤ x2 := by
  have e : to_int (x2 - x1) = x2 - x1 := by unfold to_int; omega
  rw [e] at hq ⊢
  have h1 : w * hs ≤ x2 - x1 := by
    rw [hq]; exact Int.mul_ediv_self_le (by omega)
  have h2 : x2 - x1 < w * hs + w := by
    rw [hq]; exact Int.lt_mul_ediv_self_add hw
  have h3 : w ≤ w * hs := by nlinarith
  generalize w * hs = m at *
  unfold to_int
  refine ⟨?_, ?_, ?_⟩ <;> omega

/-- The pixel origin and size cut from a 16.16 interval within the non-negative `int`s:
the far edge stays inside, the origin is rounded down by less than one pixel, or less
than two when it is made even. -/
theorem pixel_axis (x1 x2 : Int) (even : Bool) (hx1 : 0 ≤ x1) (hx : x1 ≤ x2)
    (hx2 : x2 ≤ 2147483647) :
    ((if even then to_u32 (x1 / 65536) - to_u32 (x1 / 65536) % 2 else to_u32 (x1 / 65536)) +
      (if even then to_u32 (to_int (x2 - x1) / 65536) - to_u32 (to_int (x2 - x1) / 65536) % 2
       else to_u32 (to_int (x2 - x1) / 65536))) * 65536 ≤ x2 ∧
    (if even then to_u32 (x1 / 65536) - to_u32 (x1 / 65536) % 2 else to_u32 (x1 / 65536))
      * 65536 ≤ x1 ∧
    x1 < (if even then to_u32 (x1 / 65536) - to_u32 (x1 / 65536) % 2
      else to_u32 (x1 / 65536)) * 65536 + (if even then 131072 else 65536) := by
  cases even
  · simp only [Bool.false_eq_true, ↓reduceIte]
    unfold to_int to_u32
    refine ⟨?_, ?_, ?_⟩ <;> omega
  · simp only [↓reduceIte]
    unfold to_int to_u32
    refine ⟨?_, ?_, ?_⟩ <;> omega

/-- The source left by scaled clipping of a well-formed request. -/
theorem clip_of_src (p : intel_plane) (crtc : intel_crtc) {a : plane_request}
    (h : a.well_formed) :
    (clip_of p crtc a).src.x1 =
      (if 0 < to_int (0 - a.crtc_x)
       then clamp_int (a.src_x + to_int (0 - a.crtc_x) * (a.src_w / a.crtc_w)) else a.src_x) ∧
    (clip_of p crtc a).src.x2 =
      (if 0 < to_int (a.crtc_x + a.crtc_w - (pipe_clip crtc).x2)
       then clamp_int (a.src_x + a.src_w -
         to_int (a.crtc_x + a.crtc_w - (pipe_clip crtc).x2) * (a.src_w / a.crtc_w))
       else a.src_x + a.src_w) ∧
    (clip_of p crtc a).src.y1 =
      (if 0 < to_int (0 - a.crtc_y)
       then clamp_int (a.src_y + to_int (0 - a.crtc_y) * (a.src_h / a.crtc_h)) else a.src_y) ∧
    (clip_of p crtc a).src.y2 =
      (if 0 < to_int (a.crtc_y + a.crtc_h - (pipe_clip crtc).y2)
       then clamp_int (a.src_y + a.src_h -
         to_int (a.crtc_y + a.crtc_h - (pipe_clip crtc).y2) * (a.src_h / a.crtc_h))
       else a.src_y + a.src_h) := by
  obtain ⟨r1, r2, -, -⟩ := relaxed_scales h (plane_min_scale p) (plane_max_scale p)
  obtain ⟨es, ed, -, -, -, -⟩ := request_rects h
  have hX : (pipe_clip crtc).x1 = 0 := rfl
  have hY : (pipe_clip crtc).y1 = 0 := rfl
  simp only [clip_of, drm_rect_clip_scaled, r1, r2, hX, hY]
  rw [es, ed]
  exact ⟨rfl, rfl, rfl, rfl⟩

/-- The source rectangle after scaled clipping and `drm_rect_adjust_size` lies inside
the requested one, for a well-formed request that passed the exact scale check. -/
theorem adjusted_src_inside {p : intel_plane} {crtc : intel_crtc} {a : plane_request}
    (hwf : a.well_formed) (hsized : crtc.sized)
    (hvis : (clip_of p crtc a).visible = true)
    (hh : 0 ≤ exact_hscale p crtc a) (hv : 0 ≤ exact_vscale p crtc a) :
    (a.src_x ≤ (adjusted_src p crtc a).x1 ∧
     (adjusted_src p crtc a).x1 ≤ (adjusted_src p crtc a).x2 ∧
     (adjusted_src p crtc a).x2 ≤ a.src_x + a.src_w) ∧
    (a.src_y ≤ (adjusted_src p crtc a).y1 ∧
     (adjusted_src p crtc a).y1 ≤ (adjusted_src p crtc a).y2 ∧
     (adjusted_src p crtc a).y2 ≤ a.src_y + a.src_h) := by
  obtain ⟨⟨hw, hsw0, hqw, hminw, -⟩, ⟨hhh, hsh0, hqh, hminh, -⟩⟩ := exact_scales_legal hvis hh hv
  have hmin := plane_min_scale_pos p
  obtain ⟨s1, s2, s3, s4⟩ := clip_of_src p crtc hwf
  obtain ⟨-, hvd⟩ := clip_of_dst p hwf hsized
  obtain ⟨b1, b2, b3, b4, b5, b6⟩ := pipe_clip_bounds hsized
  have hvd' := hvd.mp hvis
  have hwf' := hwf
  unfold plane_request.well_formed at hwf'
  obtain ⟨w1, w2, w3, w4, w5, w6, w7, w8, w9, w10, w11, w12, w13, w14⟩ := hwf'
  have ax := clip_axis a.src_x a.src_w a.crtc_x a.crtc_w (pipe_clip crtc).x2
    w9 w11 w13 w1 w3 w5 w7 b3 b4 hvd'.1
  have ay := clip_axis a.src_y a.src_h a.crtc_y a.crtc_h (pipe_clip crtc).y2
    w10 w12 w14 w2 w4 w6 w8 b5 b6 hvd'.2
  rw [← s1, ← s2] at ax
  rw [← s3, ← s4] at ay
  have jx := adjust_axis_inside (clip_of p crtc a).src.x1 (clip_of p crtc a).src.x2
    (drm_rect_width (clip_of p crtc a).dst) (exact_hscale p crtc a)
    (by omega) ax.2.1 (by omega) hw (by omega) hqw
  have jy := adjust_axis_inside (clip_of p crtc a).src.y1 (clip_of p crtc a).src.y2
    (drm_rect_height (clip_of p crtc a).dst) (exact_vscale p crtc a)
    (by omega) ay.2.1 (by omega) hhh (by omega) hqh
  have kx1 : (adjusted_src p crtc a).x1 = to_int ((clip_of p crtc a).src.x1 -
      to_int (drm_rect_width (clip_of p crtc a).dst * exact_hscale p crtc a -
        to_int ((clip_of p crtc a).src.x2 - (clip_of p crtc a).src.x1)) / 2) := rfl
  have kx2 : (adjusted_src p crtc a).x2 = to_int ((clip_of p crtc a).src.x2 +
      to_int (to_int (drm_rect_width (clip_of p crtc a).dst * exact_hscale p crtc a -
        to_int ((clip_of p crtc a).src.x2 - (clip_of p crtc a).src.x1)) + 1) / 2) := rfl
  have ky1 : (adjusted_src p crtc a).y1 = to_int ((clip_of p crtc a).src.y1 -
      to_int (drm_rect_height (clip_of p crtc a).dst * exact_vscale p crtc a -
        to_int ((clip_of p crtc a).src.y2 - (clip_of p crtc a).src.y1)) / 2) := rfl
  have ky2 : (adjusted_src p crtc a).y2 = to_int ((clip_of p crtc a).src.y2 +
      to_int (to_int (drm_rect_height (clip_of p crtc a).dst * exact_vscale p crtc a -
        to_int ((clip_of p crtc a).src.y2 - (clip_of p crtc a).src.y1)) + 1) / 2) := rfl
  rw [← kx1, ← kx2] at jx
  rw [← ky1, ← ky2] at jy
  refine ⟨⟨?_, jx.2.1, ?_⟩, ⟨?_, jy.2.1, ?_⟩⟩
  · exact le_trans ax.1 jx.1
  · exact le_trans jx.2.2 ax.2.2
  · exact le_trans ay.1 jy.1
  · exact le_trans jy.2.2 ay.2.2

/-- The clip stage raises the "source viewport enlarged" assertion only when the
adjusted source rectangle sticks out of the requested one. -/
theorem clip_stage_warns {p : intel_plane} {crtc : intel_crtc} {fb : drm_framebuffer}
    {a : plane_request} {s : resolved}
    (h : intel_update_plane_clip p crtc fb a = resolve_result.ok s)
    (hw : WARN.src_viewport_enlarged ∈ s.warns) :
    (adjusted_src p crtc a).x1 < to_int a.src_x ∨ (adjusted_src p crtc a).y1 < to_int a.src_y ∨
    to_int (to_u32 (a.src_x + a.src_w)) < (adjusted_src p crtc a).x2 ∨
    to_int (to_u32 (a.src_y + a.src_h)) < (adjusted_src p crtc a).y2 := by
  unfold intel_update_plane_clip at h
  simp only at h
  simp only [adjusted_src, exact_hscale, exact_vscale, clip_of]
  split at h
  · exact absurd h (by simp)
  split at h
  · exact absurd h (by simp)
  split at h
  · split at h
    · exact absurd h (by simp)
    split at h
    · exact absurd h (by simp)
    injection h with h
    subst h
    simp only at hw
    split at hw
    · next hc => exact hc
    · exact absurd hw (by simp)
  · injection h with h
    subst h
    exact absurd hw (by simp)

/-- Appending another assertion under a condition does not add this one. -/
theorem mem_warns_ite (c : Prop) [Decidable c] (l : List WARN) (x y : WARN) (hxy : x ≠ y) :
    x ∈ (if c then l ++ [y] else l) ↔ x ∈ l := by
  split <;> simp [hxy]

/-- The limits stage does not raise the "source viewport enlarged" assertion. -/
theorem limits_stage_warns {p : intel_plane} {crtc : intel_crtc} {fb : drm_framebuffer}
    {s g : resolved}
    (h : intel_update_plane_limits p crtc fb s = resolve_result.ok g)
    (hw : WARN.src_viewport_enlarged ∈ g.warns) : WARN.src_viewport_enlarged ∈ s.warns := by
  unfold intel_update_plane_limits at h
  simp only at h
  split at h
  · exact absurd h (by simp)
  · injection h with h
    subst h
    simp only at hw
    rw [mem_warns_ite _ _ _ _ (by decide), mem_warns_ite _ _ _ _ (by decide)] at hw
    exact hw


/-! ## Validation (claim C1) -/

/-- C1: `intel_update_plane` returns `-EINVAL` with the plane (recorded geometry and
buffer reference) unchanged and with no action at all - no pin, no backend call and so
no register write - whenever the plane's pipe differs from the crtc's pipe, or the
framebuffer width is below 3, or its height is below 3, or its pitch is above 16384,
or the tiling mode of the buffer is neither `I915_TILING_NONE` nor `I915_TILING_X`. -/
theorem intel_update_plane_rejects_unsuitable (plane : intel_plane) (crtc : intel_crtc)
    (fb : drm_framebuffer) (a : plane_request) (pin_ret : Int)
    (h : plane.pipe ≠ crtc.pipe ∨ fb.width < 3 ∨ fb.height < 3 ∨ 16384 < fb.pitch ∨
      (fb.obj.tiling_mode ≠ I915_TILING_NONE ∧ fb.obj.tiling_mode ≠ I915_TILING_X)) :
    intel_update_plane plane crtc fb a pin_ret = ⟨retval.ret (-EINVAL), plane, []⟩ := by
  unfold intel_update_plane
  by_cases h1 : plane.pipe ≠ crtc.pipe
  · simp [h1]
  · by_cases h2 : fb.width < 3 ∨ fb.height < 3 ∨ 16384 < fb.pitch
    · simp [h1, h2]
    · have h3 : ¬ (fb.obj.tiling_mode = I915_TILING_NONE ∨
          fb.obj.tiling_mode = I915_TILING_X) := by
        rcases h with h | h | h | h | h
        · exact absurd h h1
        · exact absurd (Or.inl h) h2
        · exact absurd (Or.inr (Or.inl h)) h2
        · exact absurd (Or.inr (Or.inr h)) h2
        · rintro (h' | h')
          · exact h.1 h'
          · exact h.2 h'
      simp [h1, h2, h3]

/-- C1 at a concrete input: a Y-tiled buffer is refused before anything happens. -/
theorem intel_update_plane_rejects_unsuitable_witness :
    intel_update_plane ilk_sprite (pipe_a true 1920 1080)
      { sample_fb DRM_FORMAT_XRGB8888 64 64 256 with obj := sample_obj 1 I915_TILING_Y }
      downscale_request 0 = ⟨retval.ret (-EINVAL), ilk_sprite, []⟩ :=
  intel_update_plane_rejects_unsuitable _ _ _ _ _
    (Or.inr (Or.inr (Or.inr (Or.inr ⟨by decide, by decide⟩))))

/-! ## Out-of-range scale (claim C2) -/

/-- C2: `intel_update_plane` does not clamp an out-of-range scale.  For every request that
passes the guards, on an active pipe, whose rectangles are well formed, whose
destination is not empty and lies inside the clip rectangle, and whose requested
source-to-destination ratio (16.16 fixed point) is below `min_scale` or above
`max_scale` in some axis, it returns the negative errno `-ERANGE`, with no pin and no
backend call and the plane unchanged; the refusal comes from the horizontal factor
when that one is out of range, from the vertical one otherwise. -/
theorem out_of_range_scale_is_rejected (plane : intel_plane) (crtc : intel_crtc)
    (fb : drm_framebuffer) (a : plane_request) (pin_ret : Int)
    (hguards : passes_guards plane crtc fb) (hwf : a.well_formed)
    (hactive : crtc.active = true) (hsized : crtc.sized)
    (hinside : 0 ≤ a.crtc_x ∧ a.crtc_x + a.crtc_w ≤ crtc.pipe_src_w ∧
      0 ≤ a.crtc_y ∧ a.crtc_y + a.crtc_h ≤ crtc.pipe_src_h)
    (hshown : 0 < a.crtc_w ∧ 0 < a.crtc_h)
    (hrange : a.src_w / a.crtc_w < plane_min_scale plane ∨
      plane_max_scale plane < a.src_w / a.crtc_w ∨
      a.src_h / a.crtc_h < plane_min_scale plane ∨
      plane_max_scale plane < a.src_h / a.crtc_h) :
    intel_update_plane plane crtc fb a pin_ret = ⟨retval.ret (-ERANGE), plane, []⟩ ∧
    ((a.src_w / a.crtc_w < plane_min_scale plane ∨
        plane_max_scale plane < a.src_w / a.crtc_w) →
      exact_hscale plane crtc a = -ERANGE) ∧
    (¬ (a.src_w / a.crtc_w < plane_min_scale plane ∨
        plane_max_scale plane < a.src_w / a.crtc_w) →
      exact_hscale plane crtc a = a.src_w / a.crtc_w ∧ exact_vscale plane crtc a = -ERANGE) := by
  obtain ⟨r1, r2, r3, r4⟩ := relaxed_scales hwf (plane_min_scale plane) (plane_max_scale plane)
  obtain ⟨-, -, e1, e2, e3, e4⟩ := request_rects hwf
  have hin' : 0 ≤ a.crtc_x ∧ a.crtc_x + a.crtc_w ≤ (pipe_clip crtc).x2 ∧
      0 ≤ a.crtc_y ∧ a.crtc_y + a.crtc_h ≤ (pipe_clip crtc).y2 := by
    simp only [pipe_clip, hactive, ↓reduceIte]; exact hinside
  obtain ⟨cs, cd, cv⟩ := clip_of_inside plane hwf hsized hin'
  have hvis : (clip_of plane crtc a).visible = true := cv.mpr hshown
  have hw0 : a.crtc_w ≠ 0 := by omega
  have hh0 : a.crtc_h ≠ 0 := by omega
  have hh : exact_hscale plane crtc a =
      (if a.src_w / a.crtc_w < plane_min_scale plane ∨
          plane_max_scale plane < a.src_w / a.crtc_w then -ERANGE
       else a.src_w / a.crtc_w) := by
    have := r1
    simp only [drm_rect_calc_hscale_relaxed, e1, e3] at this
    simp only [exact_hscale, drm_rect_calc_hscale, cs, cd, e1, e3, this, hw0, or_false,
      show ¬ a.src_w / a.crtc_w < 0 by omega, ↓reduceIte]
  have hv : exact_vscale plane crtc a =
      (if a.src_h / a.crtc_h < plane_min_scale plane ∨
          plane_max_scale plane < a.src_h / a.crtc_h then -ERANGE
       else a.src_h / a.crtc_h) := by
    have := r2
    simp only [drm_rect_calc_vscale_relaxed, e2, e4] at this
    simp only [exact_vscale, drm_rect_calc_vscale, cs, cd, e2, e4, this, hh0, or_false,
      show ¬ a.src_h / a.crtc_h < 0 by omega, ↓reduceIte]
  have hclip : intel_update_plane_clip plane crtc fb a = resolve_result.error (-ERANGE) [] := by
    unfold intel_update_plane_clip
    simp only [r1, r2, show ¬ a.src_w / a.crtc_w < 0 by omega,
      show ¬ a.src_h / a.crtc_h < 0 by omega, ↓reduceIte]
    have hvis' := hvis
    have hh' := hh
    have hv' := hv
    simp only [clip_of, exact_hscale, exact_vscale, r1, r2] at hvis' hh' hv'
    simp only [hvis', ↓reduceIte]
    by_cases hr : a.src_w / a.crtc_w < plane_min_scale plane ∨
        plane_max_scale plane < a.src_w / a.crtc_w
    · rw [if_pos hr] at hh'
      simp [hh', ERANGE]
    · rw [if_neg hr] at hh'
      have hr2 : a.src_h / a.crtc_h < plane_min_scale plane ∨
          plane_max_scale plane < a.src_h / a.crtc_h := by
        rcases hrange with h | h | h | h
        · exact absurd (Or.inl h) hr
        · exact absurd (Or.inr h) hr
        · exact Or.inl h
        · exact Or.inr h
      rw [if_pos hr2] at hv'
      simp [hh', hv', ERANGE, show ¬ a.src_w / a.crtc_w < 0 by omega]
  have hres : intel_update_plane_resolve plane crtc fb a =
      resolve_result.error (-ERANGE) [] := by
    unfold intel_update_plane_resolve
    rw [hclip]
  refine ⟨update_plane_of_error hguards pin_ret hres, ?_, ?_⟩
  · intro hr
    rw [hh, if_pos hr]
  · intro hr
    have hr2 : a.src_h / a.crtc_h < plane_min_scale plane ∨
        plane_max_scale plane < a.src_h / a.crtc_h := by
      rcases hrange with h | h | h | h
      · exact absurd (Or.inl h) hr
      · exact absurd (Or.inr h) hr
      · exact Or.inl h
      · exact Or.inr h
    rw [hh, if_neg hr, hv, if_pos hr2]
    exact ⟨rfl, rfl⟩

/-- C2 at the spec's scenario: source (0,0)-(1920,1080), destination (0,0)-(960,540),
clip 1920x1080, on a plane with `can_scale = false` and `max_downscale = 1`: refused,
by the horizontal factor. -/
theorem out_of_range_scale_is_rejected_witness :
    intel_update_plane hsw_sprite (pipe_a true 1920 1080)
        (sample_fb DRM_FORMAT_YUYV 1920 1080 3840) downscale_request 0 =
      ⟨retval.ret (-ERANGE), hsw_sprite, []⟩ ∧
    exact_hscale hsw_sprite (pipe_a true 1920 1080) downscale_request = -ERANGE :=
  ⟨(out_of_range_scale_is_rejected hsw_sprite (pipe_a true 1920 1080)
      (sample_fb DRM_FORMAT_YUYV 1920 1080 3840) downscale_request 0
      (by decide) (by decide) (by decide) (by decide) (by decide) (by decide) (by decide)).1,
   (out_of_range_scale_is_rejected hsw_sprite (pipe_a true 1920 1080)
      (sample_fb DRM_FORMAT_YUYV 1920 1080 3840) downscale_request 0
      (by decide) (by decide) (by decide) (by decide) (by decide) (by decide) (by decide)).2.1
      (by decide)⟩

/-! ## Scale limits (claim C3) -/

/-- C3: on every request for which `intel_update_plane` calls the backend `update_plane`,
the exact scale factors computed on the clipped rectangles lie within the limits of
the plane in both axes, `min_scale <= hscale, vscale <= max_scale` with
`min_scale = (can_scale ? 1 : 1 << 16)` and `max_scale = max_downscale << 16`; they are
the factors the resolved geometry holds; and on a plane of `intel_plane_init` that
cannot scale the pixel sizes handed to the backend agree, `src_w == crtc_w` and
`src_h == crtc_h`, so `WARN_ON(!intel_plane->can_scale)` has not fired. -/
theorem update_plane_scale_within_limits (plane : intel_plane) (crtc : intel_crtc)
    (fb : drm_framebuffer) (a : plane_request) (pin_ret : Int)
    (fb' : drm_framebuffer) (cx cy cw ch sx sy sw sh : Int) (dp : Bool)
    (hcall : action.update_plane fb' cx cy cw ch sx sy sw sh dp ∈
      (intel_update_plane plane crtc fb a pin_ret).trace) :
    plane_min_scale plane = (if plane.can_scale then 1 else 65536) ∧
    plane_max_scale plane = to_int (plane.max_downscale * 65536) ∧
    plane_min_scale plane ≤ exact_hscale plane crtc a ∧
    exact_hscale plane crtc a ≤ plane_max_scale plane ∧
    plane_min_scale plane ≤ exact_vscale plane crtc a ∧
    exact_vscale plane crtc a ≤ plane_max_scale plane ∧
    ∃ g, intel_update_plane_resolve plane crtc fb a = resolve_result.ok g ∧
      g.hscale = exact_hscale plane crtc a ∧ g.vscale = exact_vscale plane crtc a ∧
      (plane_of_init plane → plane.can_scale = false →
        sw = cw ∧ sh = ch ∧ WARN.scaling_on_fixed_plane ∉ g.warns) := by
  obtain ⟨g, hg, hvis, -, -, -, hcx, hcy, hcw, hch, hsx, hsy, hsw, hsh, -⟩ :=
    update_plane_called_inv hcall
  obtain ⟨s, hs, hl⟩ := resolve_ok_inv hg
  obtain ⟨l1, l2, l3, l4, l5, l6, l7, l8, l9, l10, l11, l12, l13, l14⟩ := limits_ok_inv hl
  obtain ⟨c1, c2, c3, c4, c5, c6, c7, c8, c9, c10, c11, c12, c13, c14, c15, c16⟩ :=
    clip_visible_inv hs (l12 hvis)
  obtain ⟨⟨hw, hsw0, hqw, hminw, hmaxw⟩, ⟨hh, hsh0, hqh, hminh, hmaxh⟩⟩ :=
    exact_scales_legal c1 c2 c3
  refine ⟨rfl, rfl, hminw, hmaxw, hminh, hmaxh, g, hg, by rw [l9, c4], by rw [l10, c5], ?_⟩
  intro hinit hfix
  have hmd := plane_of_init_fixed hinit hfix
  have hmin : plane_min_scale plane = 65536 := by simp [plane_min_scale, hfix]
  have hmax : plane_max_scale plane = 65536 := by
    simp [plane_max_scale, hmd, to_int]
  have ehs : exact_hscale plane crtc a = 65536 := by omega
  have evs : exact_vscale plane crtc a = 65536 := by omega
  have aw := adjusted_src_width hw hsw0 hqw (by omega)
  have ah := adjusted_src_height hh hsh0 hqh (by omega)
  rw [ehs] at aw
  rw [evs] at ah
  have hwlt : drm_rect_width (clip_of plane crtc a).dst < 2147483648 := by
    unfold drm_rect_width to_int; omega
  have hhlt : drm_rect_height (clip_of plane crtc a).dst < 2147483648 := by
    unfold drm_rect_height to_int; omega
  have e1 : s.src_w = s.crtc_w := by
    rw [c12, c9, aw]
    simp only [hfix, Bool.not_false, Bool.and_true]
    have : drm_rect_width (clip_of plane crtc a).dst * 65536 / 65536 =
        drm_rect_width (clip_of plane crtc a).dst := by omega
    rw [this]
  have e2 : s.src_h = s.crtc_h := by
    rw [c14, c10, ah]
    have : drm_rect_height (clip_of plane crtc a).dst * 65536 / 65536 =
        drm_rect_height (clip_of plane crtc a).dst := by omega
    rw [this]
  refine ⟨?_, ?_, l14 e1 e2 c16⟩
  · rw [hsw, hcw, l7, l3, e1]
  · rw [hsh, hch, l8, l4, e2]

/-- C3 at a concrete input: a 1:1 request on the plane `intel_plane_init` registers on a
Haswell, which cannot scale. -/
theorem update_plane_scale_within_limits_witness :
    plane_of_init hsw_sprite ∧
    action.update_plane (sample_fb DRM_FORMAT_XRGB8888 256 256 1024) 100 50 101 100 0 0 101 100
        false ∈
      (intel_update_plane hsw_sprite (pipe_a true 1920 1080)
        (sample_fb DRM_FORMAT_XRGB8888 256 256 1024) unit_request 0).trace ∧
    plane_min_scale hsw_sprite ≤ exact_hscale hsw_sprite (pipe_a true 1920 1080) unit_request ∧
    exact_hscale hsw_sprite (pipe_a true 1920 1080) unit_request ≤ plane_max_scale hsw_sprite :=
  ⟨⟨sample_reg, hsw_device, 0, 0, hsw_sprite, snb_plane_formats, rfl, rfl, rfl⟩,
   by decide,
   (update_plane_scale_within_limits hsw_sprite (pipe_a true 1920 1080)
      (sample_fb DRM_FORMAT_XRGB8888 256 256 1024) unit_request 0
      (sample_fb DRM_FORMAT_XRGB8888 256 256 1024) 100 50 101 100 0 0 101 100 false
      (by decide)).2.2.1,
   (update_plane_scale_within_limits hsw_sprite (pipe_a true 1920 1080)
      (sample_fb DRM_FORMAT_XRGB8888 256 256 1024) unit_request 0
      (sample_fb DRM_FORMAT_XRGB8888 256 256 1024) 100 50 101 100 0 0 101 100 false
      (by decide)).2.2.2.1⟩

/-! ## The source rectangle handed to the backend (claim C4) -/

/-- C4, as stated, fails: a YUYV request whose source starts at pixel 1 (requested
`src_x = 1 << 16`, four pixels wide) reaches the backend with `src_x = 0`, because the
origin is rounded down to an even pixel; `(0 << 16) >= 1 << 16` does not hold, so
pixel 0, which the request did not include, is sampled. -/
theorem odd_origin_is_moved_left :
    action.update_plane (sample_fb DRM_FORMAT_YUYV 64 64 128) 0 0 4 4 0 0 4 4 false ∈
      (intel_update_plane ilk_sprite (pipe_a true 1920 1080)
        (sample_fb DRM_FORMAT_YUYV 64 64 128) odd_origin_request 0).trace ∧
    ¬ (odd_origin_request.src_x ≤ 0 * 65536) :=
  ⟨by decide, by decide⟩

/-- C4, amended: for every well-formed request on a pipe with a non-negative source
size for which `intel_update_plane` calls the backend `update_plane`, the 16.16 source
rectangle left by scaled clipping and `drm_rect_adjust_size` is contained in the
requested source rectangle (the `WARN_ON` of line 1277 does not fire); the whole-pixel
rectangle handed to the backend keeps its far edges inside the request,
`((src_x + src_w) << 16) <= requested src_x + src_w` and likewise vertically; its
origin is the origin of that 16.16 rectangle rounded down to a whole pixel, to an even
pixel horizontally for YUV 4:2:2, so `(src_x << 16) > requested src_x - (1 << 16)`
(`- (2 << 16)` for YUV 4:2:2) and `(src_y << 16) > requested src_y - (1 << 16)`. -/
theorem source_handed_to_backend (plane : intel_plane) (crtc : intel_crtc)
    (fb : drm_framebuffer) (a : plane_request) (pin_ret : Int)
    (fb' : drm_framebuffer) (cx cy cw ch sx sy sw sh : Int) (dp : Bool)
    (hwf : a.well_formed) (hsized : crtc.sized)
    (hcall : action.update_plane fb' cx cy cw ch sx sy sw sh dp ∈
      (intel_update_plane plane crtc fb a pin_ret).trace) :
    (∃ g, intel_update_plane_resolve plane crtc fb a = resolve_result.ok g ∧
      g.src = adjusted_src plane crtc a ∧ WARN.src_viewport_enlarged ∉ g.warns) ∧
    (a.src_x ≤ (adjusted_src plane crtc a).x1 ∧
     (adjusted_src plane crtc a).x2 ≤ a.src_x + a.src_w ∧
     a.src_y ≤ (adjusted_src plane crtc a).y1 ∧
     (adjusted_src plane crtc a).y2 ≤ a.src_y + a.src_h) ∧
    ((sx + sw) * 65536 ≤ a.src_x + a.src_w ∧ (sy + sh) * 65536 ≤ a.src_y + a.src_h) ∧
    (sx * 65536 ≤ (adjusted_src plane crtc a).x1 ∧
     (adjusted_src plane crtc a).x1 <
       sx * 65536 + (if format_is_yuv fb.pixel_format then 131072 else 65536) ∧
     sy * 65536 ≤ (adjusted_src plane crtc a).y1 ∧
     (adjusted_src plane crtc a).y1 < sy * 65536 + 65536) ∧
    (a.src_x - (if format_is_yuv fb.pixel_format then 131072 else 65536) < sx * 65536 ∧
     a.src_y - 65536 < sy * 65536) := by
  obtain ⟨g, hg, hvis, -, -, -, hcx, hcy, hcw, hch, hsx, hsy, hsw, hsh, -⟩ :=
    update_plane_called_inv hcall
  obtain ⟨s, hs, hl⟩ := resolve_ok_inv hg
  obtain ⟨l1, l2, l3, l4, l5, l6, l7, l8, l9, l10, l11, l12, l13, l14⟩ := limits_ok_inv hl
  obtain ⟨c1, c2, c3, c4, c5, c6, c7, c8, c9, c10, c11, c12, c13, c14, c15, c16⟩ :=
    clip_visible_inv hs (l12 hvis)
  obtain ⟨⟨ix1, ix, ix2⟩, ⟨iy1, iy, iy2⟩⟩ := adjusted_src_inside hwf hsized c1 c2 c3
  have hwf' := hwf
  unfold plane_request.well_formed at hwf'
  have px := pixel_axis (adjusted_src plane crtc a).x1 (adjusted_src plane crtc a).x2
    (format_is_yuv fb.pixel_format) (by omega) ix (by omega)
  have py := pixel_axis (adjusted_src plane crtc a).y1 (adjusted_src plane crtc a).y2
    false (by omega) iy (by omega)
  simp only [Bool.false_eq_true, ↓reduceIte] at py
  have esx : sx = (if format_is_yuv fb.pixel_format = true
      then to_u32 ((adjusted_src plane crtc a).x1 / 65536) -
        to_u32 ((adjusted_src plane crtc a).x1 / 65536) % 2
      else to_u32 ((adjusted_src plane crtc a).x1 / 65536)) := by rw [hsx, l5, c11]
  have esw : sw = (if format_is_yuv fb.pixel_format = true
      then to_u32 (to_int ((adjusted_src plane crtc a).x2 - (adjusted_src plane crtc a).x1) /
          65536) -
        to_u32 (to_int ((adjusted_src plane crtc a).x2 - (adjusted_src plane crtc a).x1) /
          65536) % 2
      else to_u32 (to_int ((adjusted_src plane crtc a).x2 - (adjusted_src plane crtc a).x1) /
          65536)) := by rw [hsw, l7, c12]; rfl
  have esy : sy = to_u32 ((adjusted_src plane crtc a).y1 / 65536) := by rw [hsy, l6, c13]
  have esh : sh = to_u32 (to_int ((adjusted_src plane crtc a).y2 -
      (adjusted_src plane crtc a).y1) / 65536) := by rw [hsh, l8, c14]; rfl
  rw [← esx, ← esw] at px
  rw [← esy, ← esh] at py
  have hwarn : WARN.src_viewport_enlarged ∉ g.warns := by
    intro hw
    have := clip_stage_warns hs (limits_stage_warns hl hw)
    have e1 : to_int a.src_x = a.src_x := by unfold to_int; omega
    have e2 : to_int a.src_y = a.src_y := by unfold to_int; omega
    have e3 : to_int (to_u32 (a.src_x + a.src_w)) = a.src_x + a.src_w := by
      unfold to_int to_u32; omega
    have e4 : to_int (to_u32 (a.src_y + a.src_h)) = a.src_y + a.src_h := by
      unfold to_int to_u32; omega
    rw [e1, e2, e3, e4] at this
    omega
  refine ⟨⟨g, hg, by rw [l11, c6], hwarn⟩, ⟨ix1, ix2, iy1, iy2⟩, ⟨?_, ?_⟩, ⟨px.2.1, px.2.2, py.2.1,
    py.2.2⟩, ⟨?_, ?_⟩⟩
  · exact le_trans px.1 ix2
  · exact le_trans py.1 iy2
  · have := px.2.2; omega
  · have := py.2.2; omega

/-- C4, amended, at a concrete input: the YUYV request that starts at pixel 1. -/
theorem source_handed_to_backend_witness :
    (0 + 4) * 65536 ≤ odd_origin_request.src_x + odd_origin_request.src_w ∧
    (0 + 4) * 65536 ≤ odd_origin_request.src_y + odd_origin_request.src_h :=
  (source_handed_to_backend ilk_sprite (pipe_a true 1920 1080)
    (sample_fb DRM_FORMAT_YUYV 64 64 128) odd_origin_request 0
    (sample_fb DRM_FORMAT_YUYV 64 64 128) 0 0 4 4 0 0 4 4 false
    (by decide) (by decide) (by decide)).2.2.1

/-! ## The 2x downscale scenario (claim C5) -/

/-- C5, as stated, fails: `DRM_FORMAT_XRGB8888` is in the format list of the plane
that `intel_plane_init` registers on generation 5 (`can_scale`, `max_downscale = 16`),
the framebuffer passes the guards, and yet the request source (0,0)-(1920,1080),
destination (0,0)-(960,540) on the active 1920x1080 pipe is refused with `-EINVAL`: a
source row of 1920 pixels of 4 bytes is 7680 bytes, above the 4096 the check at
line 1325 allows. -/
theorem downscale_request_refused_for_xrgb :
    intel_plane_init sample_reg ilk_device 0 0 = Except.ok (ilk_sprite, ilk_plane_formats) ∧
    DRM_FORMAT_XRGB8888 ∈ ilk_plane_formats ∧
    passes_guards ilk_sprite (pipe_a true 1920 1080)
      (sample_fb DRM_FORMAT_XRGB8888 1920 1080 7680) ∧
    intel_update_plane ilk_sprite (pipe_a true 1920 1080)
        (sample_fb DRM_FORMAT_XRGB8888 1920 1080 7680) downscale_request 0 =
      ⟨retval.ret (-EINVAL), ilk_sprite, []⟩ :=
  ⟨rfl, by decide, by decide, by decide⟩

/-- C5, amended: for the request source (0,0)-(1920,1080) in 16.16 fixed point,
destination (0,0)-(960,540), on an active pipe whose clip is 1920x1080, with a plane
having `can_scale = true` and `max_downscale = 16` and a framebuffer that passes the
guards in a format of the plane's list: when the format is one of the YUV 4:2:2
formats (2 bytes per pixel) and the pitch is at most 4096, the geometry resolves
visible with both scale factors 0x20000, and with a buffer that pins
`intel_update_plane` returns 0 after calling the backend `update_plane` with the
destination 960x540 at (0,0), the source 1920x1080 at (0,0) and
`disable_primary = false`; when the format is XRGB8888 or XBGR8888 (4 bytes per pixel)
or the pitch is above 4096 it returns `-EINVAL` and does nothing. -/
theorem downscale_request_by_format (plane : intel_plane) (crtc : intel_crtc)
    (fb : drm_framebuffer)
    (hcaps : plane.can_scale = true ∧ plane.max_downscale = 16)
    (hguards : passes_guards plane crtc fb)
    (hcrtc : crtc.active = true ∧ crtc.pipe_src_w = 1920 ∧ crtc.pipe_src_h = 1080)
    (hfmt : fb.pixel_format ∈ snb_plane_formats) :
    ((fb.pixel_format ∈ [DRM_FORMAT_YUYV, DRM_FORMAT_YVYU, DRM_FORMAT_UYVY, DRM_FORMAT_VYUY] ∧
        fb.pitch ≤ 4096) →
      intel_update_plane_resolve plane crtc fb downscale_request = resolve_result.ok
        { visible := true, crtc_x := 0, crtc_y := 0, crtc_w := 960, crtc_h := 540
          src_x := 0, src_y := 0, src_w := 1920, src_h := 1080, disable_primary := false
          hscale := 131072, vscale := 131072
          src := { x1 := 0, y1 := 0, x2 := 125829120, y2 := 70778880 }, warns := [] } ∧
      (intel_update_plane plane crtc fb downscale_request 0).ret = retval.ret 0 ∧
      (∃ rest, (intel_update_plane plane crtc fb downscale_request 0).trace =
        [action.pin_and_fence_fb_obj fb.obj,
         action.update_plane fb 0 0 960 540 0 0 1920 1080 false] ++ rest)) ∧
    ((fb.pixel_format ∈ [DRM_FORMAT_XRGB8888, DRM_FORMAT_XBGR8888] ∨ 4096 < fb.pitch) →
      ∀ pin_ret, intel_update_plane plane crtc fb downscale_request pin_ret =
        ⟨retval.ret (-EINVAL), plane, []⟩) := by
  obtain ⟨hcs, hmd⟩ := hcaps
  obtain ⟨hact, hw, hh⟩ := hcrtc
  have hclip : pipe_clip crtc = pipe_clip (pipe_a true 1920 1080) := by
    simp [pipe_clip, hact, hw, hh, pipe_a]
  have hact' : crtc.active = (pipe_a true 1920 1080).active := by simp [hact, pipe_a]
  have hcs' : plane.can_scale = ilk_sprite.can_scale := by simp [hcs, ilk_sprite, new_plane]
  have hmd' : plane.max_downscale = ilk_sprite.max_downscale := by
    simp [hmd, ilk_sprite, new_plane]
  constructor
  · rintro ⟨hyuv, hpitch⟩
    have hp : decide (4096 < fb.pitch) = decide (4096 < (3840 : Int)) := by
      simp; omega
    have hres : intel_update_plane_resolve plane crtc fb downscale_request = resolve_result.ok
        { visible := true, crtc_x := 0, crtc_y := 0, crtc_w := 960, crtc_h := 540
          src_x := 0, src_y := 0, src_w := 1920, src_h := 1080, disable_primary := false
          hscale := 131072, vscale := 131072
          src := { x1 := 0, y1 := 0, x2 := 125829120, y2 := 70778880 }, warns := [] } := by
      simp only [List.mem_cons, List.mem_singleton, List.not_mem_nil, or_false] at hyuv
      rcases hyuv with h | h | h | h
      · rw [resolve_congr plane ilk_sprite crtc (pipe_a true 1920 1080) fb
          (sample_fb DRM_FORMAT_YUYV 1920 1080 3840) _ hcs' hmd' hclip hact' h hp]
        decide
      · rw [resolve_congr plane ilk_sprite crtc (pipe_a true 1920 1080) fb
          (sample_fb DRM_FORMAT_YVYU 1920 1080 3840) _ hcs' hmd' hclip hact' h hp]
        decide
      · rw [resolve_congr plane ilk_sprite crtc (pipe_a true 1920 1080) fb
          (sample_fb DRM_FORMAT_UYVY 1920 1080 3840) _ hcs' hmd' hclip hact' h hp]
        decide
      · rw [resolve_congr plane ilk_sprite crtc (pipe_a true 1920 1080) fb
          (sample_fb DRM_FORMAT_VYUY 1920 1080 3840) _ hcs' hmd' hclip hact' h hp]
        decide
    refine ⟨hres, ?_, ?_⟩
    · rw [update_plane_of_ok hguards hres]
    · rw [update_plane_of_ok hguards hres]
      simp only [hact, ↓reduceIte, List.append_assoc, List.singleton_append, List.cons.injEq,
        true_and]
      exact ⟨_, rfl⟩
  · intro hbad pin_ret
    apply @update_plane_of_error plane crtc fb downscale_request (-EINVAL) [] hguards pin_ret
    simp only [snb_plane_formats, List.mem_cons, List.mem_singleton, List.not_mem_nil,
      or_false] at hfmt hbad
    by_cases hp : 4096 < fb.pitch
    · have hp' : decide (4096 < fb.pitch) = decide (4096 < (7680 : Int)) := by
        simp; omega
      rcases hfmt with h | h | h | h | h | h
      · rw [resolve_congr plane ilk_sprite crtc (pipe_a true 1920 1080) fb
          (sample_fb DRM_FORMAT_XBGR8888 1920 1080 7680) _ hcs' hmd' hclip hact' h hp']
        decide
      · rw [resolve_congr plane ilk_sprite crtc (pipe_a true 1920 1080) fb
          (sample_fb DRM_FORMAT_XRGB8888 1920 1080 7680) _ hcs' hmd' hclip hact' h hp']
        decide
      · rw [resolve_congr plane ilk_sprite crtc (pipe_a true 1920 1080) fb
          (sample_fb DRM_FORMAT_YUYV 1920 1080 7680) _ hcs' hmd' hclip hact' h hp']
        decide
      · rw [resolve_congr plane ilk_sprite crtc (pipe_a true 1920 1080) fb
          (sample_fb DRM_FORMAT_YVYU 1920 1080 7680) _ hcs' hmd' hclip hact' h hp']
        decide
      · rw [resolve_congr plane ilk_sprite crtc (pipe_a true 1920 1080) fb
          (sample_fb DRM_FORMAT_UYVY 1920 1080 7680) _ hcs' hmd' hclip hact' h hp']
        decide
      · rw [resolve_congr plane ilk_sprite crtc (pipe_a true 1920 1080) fb
          (sample_fb DRM_FORMAT_VYUY 1920 1080 7680) _ hcs' hmd' hclip hact' h hp']
        decide
    · have hp' : decide (4096 < fb.pitch) = decide (4096 < (3840 : Int)) := by
        simp; omega
      have hrgb : fb.pixel_format = DRM_FORMAT_XRGB8888 ∨ fb.pixel_format = DRM_FORMAT_XBGR8888 := by
        rcases hbad with h | h
        · exact h
        · exact absurd h hp
      rcases hrgb with h | h
      · rw [resolve_congr plane ilk_sprite crtc (pipe_a true 1920 1080) fb
          (sample_fb DRM_FORMAT_XRGB8888 1920 1080 3840) _ hcs' hmd' hclip hact' h hp']
        decide
      · rw [resolve_congr plane ilk_sprite crtc (pipe_a true 1920 1080) fb
          (sample_fb DRM_FORMAT_XBGR8888 1920 1080 3840) _ hcs' hmd' hclip hact' h hp']
        decide

/-- C5, amended, at a concrete input: a YUYV framebuffer of pitch 3840. -/
theorem downscale_request_by_format_witness :
    (intel_update_plane ilk_sprite (pipe_a true 1920 1080)
        (sample_fb DRM_FORMAT_YUYV 1920 1080 3840) downscale_request 0).ret = retval.ret 0 ∧
    (∃ rest, (intel_update_plane ilk_sprite (pipe_a true 1920 1080)
        (sample_fb DRM_FORMAT_YUYV 1920 1080 3840) downscale_request 0).trace =
      [action.pin_and_fence_fb_obj (sample_fb DRM_FORMAT_YUYV 1920 1080 3840).obj,
       action.update_plane (sample_fb DRM_FORMAT_YUYV 1920 1080 3840)
         0 0 960 540 0 0 1920 1080 false] ++ rest) :=
  ((downscale_request_by_format ilk_sprite (pipe_a true 1920 1080)
      (sample_fb DRM_FORMAT_YUYV 1920 1080 3840) (by decide) (by decide) (by decide)
      (by decide)).1 ⟨by decide, by decide⟩).2

/-! ## Size restrictions when scaling (claim C6) -/

/-- C6, as stated, fails: a request that scales a 2x2 source to a 4x4 destination is
visible after clipping with a resolved source size (2x2) that differs from the
destination size (4x4) and is below 3, yet `intel_update_plane` does not reject it:
it pins the buffer, calls the backend `disable_plane` and returns 0. -/
theorem tiny_source_is_not_rejected :
    intel_update_plane_clip ilk_sprite (pipe_a true 1920 1080)
        (sample_fb DRM_FORMAT_XRGB8888 64 64 256) tiny_request =
      resolve_result.ok
        { visible := true, crtc_x := 0, crtc_y := 0, crtc_w := 4, crtc_h := 4
          src_x := 0, src_y := 0, src_w := 2, src_h := 2, disable_primary := false
          hscale := 32768, vscale := 32768
          src := { x1 := 0, y1 := 0, x2 := 131072, y2 := 131072 }, warns := [] } ∧
    (intel_update_plane ilk_sprite (pipe_a true 1920 1080)
        (sample_fb DRM_FORMAT_XRGB8888 64 64 256) tiny_request 0).ret = retval.ret 0 ∧
    (intel_update_plane ilk_sprite (pipe_a true 1920 1080)
        (sample_fb DRM_FORMAT_XRGB8888 64 64 256) tiny_request 0).trace =
      [action.pin_and_fence_fb_obj (sample_obj 1 I915_TILING_NONE), action.disable_plane] :=
  ⟨by decide, by decide, by decide⟩

/-- C6, amended: for every request that passes the guards and is visible at line 1309
with a resolved source size that differs from its resolved destination size,
`intel_update_plane` returns `-EINVAL` (no pin, no backend call, plane unchanged)
when a source dimension is above 2048, or the row width
`((src_x * bytes_per_pixel) & 63) + src_w * bytes_per_pixel` is above 4096, or the
pitch is above 4096; when none of these holds the request is not rejected: the
geometry resolves, it is hidden exactly when a resolved source or destination
dimension is below 3, and with a buffer that pins the call returns 0, calling the
backend `disable_plane` on an active pipe when the plane is hidden. -/
theorem scaling_size_limits (plane : intel_plane) (crtc : intel_crtc) (fb : drm_framebuffer)
    (a : plane_request) (s : resolved)
    (hguards : passes_guards plane crtc fb)
    (hclip : intel_update_plane_clip plane crtc fb a = resolve_result.ok s)
    (hvis : s.visible = true)
    (hscaled : s.src_w ≠ s.crtc_w ∨ s.src_h ≠ s.crtc_h) :
    ((2048 < s.src_w ∨ 2048 < s.src_h ∨
        4096 < to_u32 (to_u32 (s.src_x * drm_format_plane_cpp fb.pixel_format) % 64 +
          s.src_w * drm_format_plane_cpp fb.pixel_format) ∨
        4096 < fb.pitch) →
      ∀ pin_ret, intel_update_plane plane crtc fb a pin_ret =
        ⟨retval.ret (-EINVAL), plane, []⟩) ∧
    (¬ (2048 < s.src_w ∨ 2048 < s.src_h ∨
        4096 < to_u32 (to_u32 (s.src_x * drm_format_plane_cpp fb.pixel_format) % 64 +
          s.src_w * drm_format_plane_cpp fb.pixel_format) ∨
        4096 < fb.pitch) →
      ∃ g, intel_update_plane_resolve plane crtc fb a = resolve_result.ok g ∧
        (g.visible = false ↔ (s.crtc_w < 3 ∨ s.crtc_h < 3 ∨ s.src_w < 3 ∨ s.src_h < 3)) ∧
        (intel_update_plane plane crtc fb a 0).ret = retval.ret 0 ∧
        (crtc.active = true → g.visible = false →
          (intel_update_plane plane crtc fb a 0).trace.take 2 =
            [action.pin_and_fence_fb_obj fb.obj, action.disable_plane])) := by
  have hsc : (decide (s.src_w ≠ s.crtc_w) || decide (s.src_h ≠ s.crtc_h)) = true := by
    rcases hscaled with h | h <;> simp [h]
  constructor
  · intro hbig pin_ret
    have hb : (decide (2048 < s.src_w) || decide (2048 < s.src_h) ||
        decide (4096 < to_u32 (to_u32 (s.src_x * drm_format_plane_cpp fb.pixel_format) % 64 +
          s.src_w * drm_format_plane_cpp fb.pixel_format)) ||
        decide (4096 < fb.pitch)) = true := by
      rcases hbig with h | h | h | h <;> simp [h]
    have hres : intel_update_plane_resolve plane crtc fb a = resolve_result.error (-EINVAL)
        (if (!plane.can_scale) = true then s.warns ++ [WARN.scaling_on_fixed_plane]
         else s.warns) := by
      unfold intel_update_plane_resolve
      rw [hclip]
      simp only [intel_update_plane_limits, hvis, hsc, hb, Bool.true_and, Bool.and_self,
        ↓reduceIte]
    exact update_plane_of_error hguards pin_ret hres
  · intro hsmall
    have hb : (decide (2048 < s.src_w) || decide (2048 < s.src_h) ||
        decide (4096 < to_u32 (to_u32 (s.src_x * drm_format_plane_cpp fb.pixel_format) % 64 +
          s.src_w * drm_format_plane_cpp fb.pixel_format)) ||
        decide (4096 < fb.pitch)) = false := by
      simp only [Bool.or_eq_false_iff, decide_eq_false_iff_not]
      refine ⟨⟨⟨?_, ?_⟩, ?_⟩, ?_⟩ <;> intro h <;> apply hsmall <;> simp [h]
    have hres : ∃ g, intel_update_plane_resolve plane crtc fb a = resolve_result.ok g ∧
        g.visible = (if (decide (s.src_w < 3) || decide (s.src_h < 3)) = true then false
          else if (decide (s.crtc_w < 3) || decide (s.crtc_h < 3)) = true then false
          else true) := by
      unfold intel_update_plane_resolve
      rw [hclip]
      simp only [intel_update_plane_limits, hvis, hsc, hb, Bool.true_and, Bool.and_false,
        Bool.false_eq_true, ↓reduceIte]
      refine ⟨_, rfl, ?_⟩
      by_cases h1 : (decide (s.src_w < 3) || decide (s.src_h < 3)) = true <;>
        by_cases h2 : (decide (s.crtc_w < 3) || decide (s.crtc_h < 3)) = true <;>
        simp [h1, h2]
    obtain ⟨g, hg, hgv⟩ := hres
    refine ⟨g, hg, ?_, ?_, ?_⟩
    · rw [hgv]
      by_cases h1 : s.src_w < 3 <;> by_cases h2 : s.src_h < 3 <;>
        by_cases h3 : s.crtc_w < 3 <;> by_cases h4 : s.crtc_h < 3 <;> simp [h1, h2, h3, h4]
    · rw [update_plane_of_ok hguards hg]
    · intro hact hhid
      rw [update_plane_of_ok hguards hg]
      simp [hact, hhid]

/-- C6, amended, at a concrete input: the 1920 pixel wide XRGB8888 source row of
`downscale_request` is too wide. -/
theorem scaling_size_limits_witness :
    intel_update_plane ilk_sprite (pipe_a true 1920 1080)
        (sample_fb DRM_FORMAT_XRGB8888 1920 1080 7680) downscale_request 0 =
      ⟨retval.ret (-EINVAL), ilk_sprite, []⟩ :=
  (scaling_size_limits ilk_sprite (pipe_a true 1920 1080)
      (sample_fb DRM_FORMAT_XRGB8888 1920 1080 7680) downscale_request downscale_locals
      (by decide) (by decide) (by decide) (by decide)).1 (by decide) 0

/-! ## YUV alignment (claim C7) -/

/-- C7: when the framebuffer format is YUV 4:2:2 (YUYV, YVYU, UYVY or VYUY), every call
of the backend `update_plane` made by `intel_update_plane` passes an even source
x-origin and an even source width; on a plane that cannot scale the destination width
passed is even too; the destination width passed is never 0, and a resolved geometry
whose destination width is 0 is not visible (so the backend update is not called). -/
theorem yuv_update_is_aligned (plane : intel_plane) (crtc : intel_crtc)
    (fb : drm_framebuffer) (a : plane_request) (pin_ret : Int)
    (hyuv : fb.pixel_format ∈
      [DRM_FORMAT_YUYV, DRM_FORMAT_YVYU, DRM_FORMAT_UYVY, DRM_FORMAT_VYUY]) :
    (∀ (fb' : drm_framebuffer) (cx cy cw ch sx sy sw sh : Int) (dp : Bool),
      action.update_plane fb' cx cy cw ch sx sy sw sh dp ∈
        (intel_update_plane plane crtc fb a pin_ret).trace →
      sx % 2 = 0 ∧ sw % 2 = 0 ∧ (plane.can_scale = false → cw % 2 = 0) ∧ cw ≠ 0) ∧
    (∀ g, intel_update_plane_resolve plane crtc fb a = resolve_result.ok g →
      g.crtc_w = 0 → g.visible = false) := by
  have hy : format_is_yuv fb.pixel_format = true := by
    simp only [List.mem_cons, List.mem_singleton, List.not_mem_nil, or_false] at hyuv
    rcases hyuv with h | h | h | h <;> rw [h] <;> rfl
  have key : ∀ g, intel_update_plane_resolve plane crtc fb a = resolve_result.ok g →
      g.visible = true →
      g.src_x % 2 = 0 ∧ g.src_w % 2 = 0 ∧ (plane.can_scale = false → g.crtc_w % 2 = 0) ∧
      g.crtc_w ≠ 0 := by
    intro g hg hvis
    obtain ⟨s, hs, hl⟩ := resolve_ok_inv hg
    obtain ⟨l1, l2, l3, l4, l5, l6, l7, l8, l9, l10, l11, l12, l13, l14⟩ := limits_ok_inv hl
    obtain ⟨c1, c2, c3, c4, c5, c6, c7, c8, c9, c10, c11, c12, c13, c14, c15, c16⟩ :=
      clip_visible_inv hs (l12 hvis)
    rw [l5, l7, l3]
    refine ⟨?_, ?_, ?_, c15 hy⟩
    · rw [c11]; simp only [hy, ↓reduceIte]; omega
    · rw [c12]; simp only [hy, ↓reduceIte]; omega
    · intro hfix
      rw [c9]; simp only [hy, hfix, Bool.not_false, Bool.and_self, ↓reduceIte]; omega
  constructor
  · intro fb' cx cy cw ch sx sy sw sh dp hcall
    obtain ⟨g, hg, hvis, -, -, -, hcx, hcy, hcw, hch, hsx, hsy, hsw, hsh, -⟩ :=
      update_plane_called_inv hcall
    rw [hsx, hsw, hcw]
    exact key g hg hvis
  · intro g hg h0
    by_contra hv
    have hv' : g.visible = true := by simpa using hv
    exact (key g hg hv').2.2.2 h0

/-- C7 at a concrete input: a YUYV request 101 pixels wide on a plane that cannot
scale is programmed 100 pixels wide. -/
theorem yuv_update_is_aligned_witness :
    action.update_plane (sample_fb DRM_FORMAT_YUYV 256 256 512) 100 50 100 100 0 0 100 100
        false ∈
      (intel_update_plane hsw_sprite (pipe_a true 1920 1080)
        (sample_fb DRM_FORMAT_YUYV 256 256 512) unit_request 0).trace ∧
    ((0 : Int) % 2 = 0 ∧ (100 : Int) % 2 = 0 ∧
      (hsw_sprite.can_scale = false → (100 : Int) % 2 = 0) ∧ (100 : Int) ≠ 0) :=
  ⟨by decide,
   (yuv_update_is_aligned hsw_sprite (pipe_a true 1920 1080)
      (sample_fb DRM_FORMAT_YUYV 256 256 512) unit_request 0 (by decide)).1
      (sample_fb DRM_FORMAT_YUYV 256 256 512) 100 50 100 100 0 0 100 100 false (by decide)⟩

/-! ## Powering off the primary plane (claim C8) -/

/-- C8, as stated, fails: on a plane that cannot scale, a YUYV request whose
destination (0,0)-(1365,768) equals the clip rectangle of the active 1365x768 pipe is
accepted, but the destination width is made even (1364) and `disable_primary` is
computed as false. -/
theorem odd_full_screen_keeps_primary :
    request_dst (full_request 1365 768) = pipe_clip (pipe_a true 1365 768) ∧
    (intel_update_plane hsw_sprite (pipe_a true 1365 768)
        (sample_fb DRM_FORMAT_YUYV 1366 768 2732) (full_request 1365 768) 0).ret =
      retval.ret 0 ∧
    (intel_update_plane hsw_sprite (pipe_a true 1365 768)
        (sample_fb DRM_FORMAT_YUYV 1366 768 2732) (full_request 1365 768) 0).trace =
      [action.pin_and_fence_fb_obj (sample_obj 1 I915_TILING_NONE),
       action.update_plane (sample_fb DRM_FORMAT_YUYV 1366 768 2732)
         0 0 1364 768 0 0 1364 768 false] :=
  ⟨by decide, by decide, by decide⟩

/-- C8, amended: for every well-formed request accepted by the geometry code on an active
pipe with clip rectangle (0,0)-(pipe_src_w,pipe_src_h): if the requested destination
rectangle equals the clip rectangle, `disable_primary` is computed as true, except
when the format is YUV 4:2:2, the plane cannot scale and the clip rectangle is not
empty and has an odd width - then the destination width is made even and
`disable_primary` is false; if the requested destination rectangle is a proper subset
of the clip rectangle, `disable_primary` is computed as false. -/
theorem disable_primary_by_destination (plane : intel_plane) (crtc : intel_crtc)
    (fb : drm_framebuffer) (a : plane_request) (g : resolved)
    (hwf : a.well_formed) (hactive : crtc.active = true) (hsized : crtc.sized)
    (hres : intel_update_plane_resolve plane crtc fb a = resolve_result.ok g) :
    ((a.crtc_x = 0 ∧ a.crtc_y = 0 ∧ a.crtc_w = crtc.pipe_src_w ∧ a.crtc_h = crtc.pipe_src_h) →
      (g.disable_primary = true ↔
        ¬ (format_is_yuv fb.pixel_format = true ∧ plane.can_scale = false ∧
           crtc.pipe_src_w % 2 = 1 ∧ 0 < crtc.pipe_src_w ∧ 0 < crtc.pipe_src_h))) ∧
    ((0 ≤ a.crtc_x ∧ a.crtc_x + a.crtc_w ≤ crtc.pipe_src_w ∧
      0 ≤ a.crtc_y ∧ a.crtc_y + a.crtc_h ≤ crtc.pipe_src_h ∧
      ¬ (a.crtc_x = 0 ∧ a.crtc_y = 0 ∧ a.crtc_w = crtc.pipe_src_w ∧
         a.crtc_h = crtc.pipe_src_h)) →
      g.disable_primary = false) := by
  obtain ⟨s, hs, hl⟩ := resolve_ok_inv hres
  obtain ⟨-, -, -, -, -, -, -, -, -, -, -, -, hdp, -⟩ := limits_ok_inv hl
  obtain ⟨d1, d2, d3, d4⟩ := clip_stage_dst_inv hs
  obtain ⟨hdst, hvis⟩ := clip_of_dst plane hwf hsized
  have hW : (pipe_clip crtc).x2 = crtc.pipe_src_w := by simp [pipe_clip, hactive]
  have hH : (pipe_clip crtc).y2 = crtc.pipe_src_h := by simp [pipe_clip, hactive]
  have hX : (pipe_clip crtc).x1 = 0 := rfl
  have hY : (pipe_clip crtc).y1 = 0 := rfl
  rw [hW, hH] at hdst hvis
  rw [hdst] at d1 d2 d3 d4
  simp only [drm_rect_width, drm_rect_height] at d1 d2 d3 d4
  unfold plane_request.well_formed at hwf
  unfold intel_crtc.sized at hsized
  -- the bottom edge of the final destination is the clipped one
  have fy : to_int (to_u32 (s.crtc_y + s.crtc_h)) = min (a.crtc_y + a.crtc_h) crtc.pipe_src_h := by
    rw [d2, d3]; unfold to_int to_u32; omega
  -- the right edge is the clipped one, less one pixel when an odd width is made even
  have fx : to_int (to_u32 (s.crtc_x + s.crtc_w)) =
      (if (clip_of plane crtc a).visible && format_is_yuv fb.pixel_format && !plane.can_scale
       then min (a.crtc_x + a.crtc_w) crtc.pipe_src_w -
         (min (a.crtc_x + a.crtc_w) crtc.pipe_src_w - max a.crtc_x 0) % 2
       else min (a.crtc_x + a.crtc_w) crtc.pipe_src_w) := by
    rw [d1, d4]
    split
    · next hcond =>
      simp only [Bool.and_eq_true] at hcond
      have hv' := hvis.mp hcond.1.1
      unfold to_int to_u32; omega
    · unfold to_int to_u32; omega
  have hdp' : g.disable_primary = true ↔
      (s.crtc_x = 0 ∧ to_int (to_u32 (s.crtc_x + s.crtc_w)) = crtc.pipe_src_w ∧
       s.crtc_y = 0 ∧ to_int (to_u32 (s.crtc_y + s.crtc_h)) = crtc.pipe_src_h) := by
    rw [hdp]
    simp only [drm_rect_equals, hW, hH, hX, hY, Bool.and_eq_true, decide_eq_true_eq]
    constructor
    · rintro ⟨⟨⟨h1, h2⟩, h3⟩, h4⟩; exact ⟨h1, h2, h3, h4⟩
    · rintro ⟨h1, h2, h3, h4⟩; exact ⟨⟨⟨h1, h2⟩, h3⟩, h4⟩
  rw [fx, fy, d1, d2] at hdp'
  clear fx fy d1 d2 d3 d4 hdp hdst hs hl hres
  constructor
  · rintro ⟨e1, e2, e3, e4⟩
    rw [hdp']
    have hvw : (clip_of plane crtc a).visible = true ↔
        (0 < crtc.pipe_src_w ∧ 0 < crtc.pipe_src_h) := by
      rw [hvis]
      constructor
      · rintro ⟨h1, h2⟩; constructor <;> omega
      · rintro ⟨h1, h2⟩; constructor <;> omega
    by_cases hcond : ((clip_of plane crtc a).visible && format_is_yuv fb.pixel_format &&
        !plane.can_scale) = true
    · rw [if_pos hcond]
      simp only [Bool.and_eq_true, Bool.not_eq_true'] at hcond
      obtain ⟨⟨hv, hy⟩, hc⟩ := hcond
      have hv' := hvw.mp hv
      constructor
      · rintro ⟨h1, h2, h3, h4⟩ ⟨-, -, hodd, -, -⟩
        omega
      · intro hn
        have hev : ¬ crtc.pipe_src_w % 2 = 1 := fun hodd => hn ⟨hy, hc, hodd, hv'.1, hv'.2⟩
        refine ⟨?_, ?_, ?_, ?_⟩ <;> omega
    · rw [if_neg hcond]
      constructor
      · rintro - ⟨hy, hc, -, h1, h2⟩
        apply hcond
        simp [hvw.mpr ⟨h1, h2⟩, hy, hc]
      · intro _
        refine ⟨?_, ?_, ?_, ?_⟩ <;> omega
  · rintro ⟨i1, i2, i3, i4, hne⟩
    cases hgd : g.disable_primary with
    | false => rfl
    | true =>
      exfalso
      obtain ⟨h1, h2, h3, h4⟩ := hdp'.mp hgd
      clear hdp' hvis
      apply hne
      split at h2
      · refine ⟨?_, ?_, ?_, ?_⟩ <;> omega
      · refine ⟨?_, ?_, ?_, ?_⟩ <;> omega

/-- C8, amended, at a concrete input: a YUYV request that covers a 1024x768 pipe resolves
to `covering_geometry`, with `disable_primary` set. -/
theorem disable_primary_by_destination_witness :
    intel_update_plane_resolve ilk_sprite (pipe_a true 1024 768)
        (sample_fb DRM_FORMAT_YUYV 1024 768 2048) (full_request 1024 768) =
      resolve_result.ok covering_geometry ∧
    (covering_geometry.disable_primary = true ↔
      ¬ (format_is_yuv (sample_fb DRM_FORMAT_YUYV 1024 768 2048).pixel_format = true ∧
         ilk_sprite.can_scale = false ∧ (pipe_a true 1024 768).pipe_src_w % 2 = 1 ∧
         0 < (pipe_a true 1024 768).pipe_src_w ∧ 0 < (pipe_a true 1024 768).pipe_src_h)) :=
  ⟨by decide,
   (disable_primary_by_destination ilk_sprite (pipe_a true 1024 768)
      (sample_fb DRM_FORMAT_YUYV 1024 768 2048) (full_request 1024 768) covering_geometry
      (by decide) (by decide) (by decide) (by decide)).1 ⟨rfl, rfl, rfl, rfl⟩⟩

/-! ## A destination outside the clip rectangle (claim C9) -/

/-- C9, as stated, fails: the request with destination 64x64 at (2000,0) lies outside
the clip rectangle of the active 1920x1080 pipe; `intel_update_plane` returns 0, but it
calls the backend `disable_plane`, and `ilk_disable_plane` writes `DVSCNTR`,
`DVSSCALE` and `DVSSURF`; the old buffer goes through `intel_plane_queue_unpin`, which
unpins it at once here. -/
theorem offscreen_request_writes_registers :
    intel_update_plane shown_plane (pipe_a true 1920 1080)
        (sample_fb DRM_FORMAT_XRGB8888 64 64 256) offscreen_request 0 =
      ⟨retval.ret 0,
       { shown_plane with
         crtc_x := 2000, crtc_y := 0, crtc_w := 64, crtc_h := 64
         src_x := 0, src_y := 0, src_w := 4194304, src_h := 4194304
         obj := some (sample_obj 1 I915_TILING_NONE) },
       [action.pin_and_fence_fb_obj (sample_obj 1 I915_TILING_NONE), action.disable_plane,
        action.unpin_fb_obj (sample_obj 2 I915_TILING_NONE)]⟩ ∧
    hw_event.I915_WRITE (Reg.DVSCNTR 0) 0 ∈
      (plane_disable_plane sample_reg ilk_device (fun _ => 2147483648)
        (intel_update_plane shown_plane (pipe_a true 1920 1080)
          (sample_fb DRM_FORMAT_XRGB8888 64 64 256) offscreen_request 0).plane
        (pipe_a true 1920 1080)).1 :=
  ⟨by decide, by decide⟩

/-- C9, amended: for every well-formed request that passes the guards, on an active pipe
with a non-negative source size, whose destination rectangle lies entirely outside the
clip rectangle, the geometry resolves with `visible = false` and, when the buffer
pins, `intel_update_plane` returns 0 after exactly these actions: it pins the new
buffer, calls the backend `disable_plane` (never `update_plane`), and passes the
previously displayed buffer, if there is one, to `intel_plane_queue_unpin`; the
backend `disable_plane` writes the control register of the plane. -/
theorem hidden_request_disables (plane : intel_plane) (crtc : intel_crtc)
    (fb : drm_framebuffer) (a : plane_request)
    (hguards : passes_guards plane crtc fb) (hwf : a.well_formed)
    (hactive : crtc.active = true) (hsized : crtc.sized)
    (houtside : a.crtc_x + a.crtc_w ≤ 0 ∨ crtc.pipe_src_w ≤ a.crtc_x ∨
      a.crtc_y + a.crtc_h ≤ 0 ∨ crtc.pipe_src_h ≤ a.crtc_y) :
    (∃ g, intel_update_plane_resolve plane crtc fb a = resolve_result.ok g ∧
      g.visible = false) ∧
    (intel_update_plane plane crtc fb a 0).ret = retval.ret 0 ∧
    (intel_update_plane plane crtc fb a 0).trace =
      [action.pin_and_fence_fb_obj fb.obj, action.disable_plane] ++
      (match plane.obj with
       | some old => intel_plane_queue_unpin (intel_update_plane plane crtc fb a 0).plane old
       | none => []) ∧
    (∀ (hw : i915_reg) (dev : drm_device) (regs : Reg → Nat),
      ∃ val, hw_event.I915_WRITE (plane_control_reg plane) val ∈
        (plane_disable_plane hw dev regs (intel_update_plane plane crtc fb a 0).plane
          crtc).1) := by
  obtain ⟨-, hvis⟩ := clip_of_dst plane hwf hsized
  have hhid : (clip_of plane crtc a).visible = false := by
    cases hcv : (clip_of plane crtc a).visible with
    | false => rfl
    | true =>
      exfalso
      have := hvis.mp hcv
      simp only [pipe_clip, hactive, ↓reduceIte] at this
      unfold plane_request.well_formed at hwf
      omega
  have hclip := clip_stage_hidden fb hwf hhid
  obtain ⟨g, hg, hgv, -⟩ := limits_stage_hidden plane crtc fb _ (rfl :
    ({ visible := false
       crtc_x := (clip_of plane crtc a).dst.x1, crtc_y := (clip_of plane crtc a).dst.y1
       crtc_w := to_u32 (drm_rect_width (clip_of plane crtc a).dst)
       crtc_h := to_u32 (drm_rect_height (clip_of plane crtc a).dst)
       src_x := a.src_x, src_y := a.src_y, src_w := a.src_w, src_h := a.src_h
       disable_primary := false
       hscale := a.src_w / a.crtc_w, vscale := a.src_h / a.crtc_h
       src := (clip_of plane crtc a).src, warns := [] } : resolved).visible = false)
  have hres : intel_update_plane_resolve plane crtc fb a = resolve_result.ok g := by
    unfold intel_update_plane_resolve
    rw [hclip]
    exact hg
  have hrun := update_plane_of_ok hguards hres
  refine ⟨⟨g, hres, hgv⟩, ?_, ?_, ?_⟩
  · rw [hrun]
  · rw [hrun]
    simp [hactive, hgv]
  · intro hw dev regs
    have hctl : plane_control_reg (intel_update_plane plane crtc fb a 0).plane =
        plane_control_reg plane := by
      rw [hrun]; rfl
    rw [← hctl]
    exact ⟨_, disable_plane_writes_control hw dev regs _ crtc⟩

/-- C9, amended, at a concrete input: the request at (2000,0) on the plane that shows
buffer 2. -/
theorem hidden_request_disables_witness :
    (intel_update_plane shown_plane (pipe_a true 1920 1080)
        (sample_fb DRM_FORMAT_XRGB8888 64 64 256) offscreen_request 0).ret = retval.ret 0 :=
  (hidden_request_disables shown_plane (pipe_a true 1920 1080)
    (sample_fb DRM_FORMAT_XRGB8888 64 64 256) offscreen_request
    (by decide) (by decide) (by decide) (by decide) (by decide)).2.1

/-! ## Disabling twice (claim C10) -/

/-- C10, as stated, fails: `intel_disable_plane` does not clear `plane->fb` (the DRM core
does, after the call), so a second call in a row on a plane of an active pipe passes
the `!plane->fb` test again and calls the backend `disable_plane` once more, which
writes `DVSCNTR`. -/
theorem second_disable_writes_registers :
    (intel_disable_plane (intel_disable_plane shown_plane).plane).trace =
      [action.disable_plane] ∧
    hw_event.I915_WRITE (Reg.DVSCNTR 0) 0 ∈
      (plane_disable_plane sample_reg ilk_device (fun _ => 2147483648)
        (intel_disable_plane shown_plane).plane (pipe_a true 1920 1080)).1 :=
  ⟨by decide, by decide⟩

/-- C10, amended: when `intel_disable_plane` is called twice in a row, the second call
returns what the first returned (0, unless `plane->fb` is set while `plane->crtc` is
NULL), leaves the plane as the first call left it, and performs no pin and no unpin;
it calls the backend `disable_plane` again - which writes the control register of the
plane - exactly when the plane still has a framebuffer and its pipe is active, and
does nothing otherwise; and `intel_disable_plane` on a plane without a framebuffer
(`plane->fb` NULL) is a no-op that returns 0. -/
theorem disable_twice (plane : intel_plane) :
    (intel_disable_plane (intel_disable_plane plane).plane).ret =
      (intel_disable_plane plane).ret ∧
    (intel_disable_plane (intel_disable_plane plane).plane).plane =
      (intel_disable_plane plane).plane ∧
    (∀ x ∈ (intel_disable_plane (intel_disable_plane plane).plane).trace,
      x.is_pin_or_unpin = false) ∧
    (intel_disable_plane (intel_disable_plane plane).plane).trace =
      (match plane.fb, plane.crtc with
       | some _, some crtc => if crtc.active then [action.disable_plane] else []
       | _, _ => []) ∧
    (plane.fb = none → intel_disable_plane plane = ⟨retval.ret 0, plane, []⟩) ∧
    (∀ (hw : i915_reg) (dev : drm_device) (regs : Reg → Nat) (crtc : intel_crtc),
      ∃ val, hw_event.I915_WRITE (plane_control_reg plane) val ∈
        (plane_disable_plane hw dev regs (intel_disable_plane plane).plane crtc).1) := by
  have hctl : plane_control_reg (intel_disable_plane plane).plane = plane_control_reg plane := by
    unfold intel_disable_plane plane_control_reg
    cases plane.fb <;> cases plane.crtc <;> cases plane.obj <;> rfl
  refine ⟨?_, ?_, ?_, ?_, ?_, ?_⟩
  · unfold intel_disable_plane
    cases hfb : plane.fb with
    | none => simp [hfb]
    | some f =>
      cases hcr : plane.crtc with
      | none => simp [hfb, hcr]
      | some c => cases hobj : plane.obj <;> simp [hfb, hcr, hobj]
  · unfold intel_disable_plane
    cases hfb : plane.fb with
    | none => simp [hfb]
    | some f =>
      cases hcr : plane.crtc with
      | none => simp [hfb, hcr]
      | some c => cases hobj : plane.obj <;> simp [hfb, hcr, hobj]
  · unfold intel_disable_plane
    cases hfb : plane.fb with
    | none => simp [hfb]
    | some f =>
      cases hcr : plane.crtc with
      | none => simp [hfb, hcr]
      | some c =>
        cases hobj : plane.obj <;> simp [hfb, hcr, hobj, action.is_pin_or_unpin]
  · unfold intel_disable_plane
    cases hfb : plane.fb with
    | none => simp [hfb]
    | some f =>
      cases hcr : plane.crtc with
      | none => simp [hfb, hcr]
      | some c => cases hobj : plane.obj <;> simp [hfb, hcr, hobj]
  · intro hfb
    unfold intel_disable_plane
    simp [hfb]
  · intro hw dev regs crtc
    rw [← hctl]
    exact ⟨_, disable_plane_writes_control hw dev regs _ crtc⟩

/-! ## Bit operations on 32 bit register values -/

/-- Bit `i` of `x & ~m` on 32 bit values. -/
theorem testBit_clear_bits (x m i : Nat) :
    (clear_bits x m).testBit i = (x.testBit i && (decide (i < 32) ^^ m.testBit i)) := by
  unfold clear_bits
  rw [Nat.testBit_and, Nat.testBit_xor, show (4294967295 : Nat) = 2 ^ 32 - 1 by norm_num,
    Nat.testBit_two_pow_sub_one]

/-- A 32 bit value has no bit from 32 on. -/
theorem testBit_u32 {m : Nat} (hm : m < 4294967296) (i : Nat) :
    (m.testBit i && decide (i < 32)) = m.testBit i := by
  by_cases h : i < 32
  · simp [h]
  · have h2 : m < 2 ^ i :=
      lt_of_lt_of_le hm (by
        rw [show (4294967296 : Nat) = 2 ^ 32 by norm_num]
        exact Nat.pow_le_pow_right (by norm_num) (by omega))
    simp [h, Nat.testBit_lt_two_pow h2]

/-- `x & ~m` has none of the bits of `m`. -/
theorem clear_bits_and (x : Nat) {m : Nat} (hm : m < 4294967296) : clear_bits x m &&& m = 0 := by
  apply Nat.eq_of_testBit_eq
  intro i
  have hb := testBit_u32 hm i
  simp only [Nat.testBit_and, testBit_clear_bits, Nat.zero_testBit]
  revert hb
  cases x.testBit i <;> cases m.testBit i <;> cases decide (i < 32) <;> simp

/-- Setting bits of `m` in `x & ~m` leaves the bits outside `m` as they are in `x`. -/
theorem clear_bits_or (x : Nat) {m : Nat} (d : Nat) (hm : m < 4294967296) (hd : d &&& m = d) :
    clear_bits (clear_bits x m ||| d) m = clear_bits x m := by
  apply Nat.eq_of_testBit_eq
  intro i
  have hb := testBit_u32 hm i
  have h1 := congrArg (fun y => y.testBit i) hd
  simp only [Nat.testBit_and] at h1
  simp only [Nat.testBit_or, testBit_clear_bits]
  revert h1 hb
  cases x.testBit i <;> cases m.testBit i <;> cases d.testBit i <;> cases decide (i < 32) <;> simp

/-- Clearing twice is clearing once. -/
theorem clear_bits_idem (x : Nat) {m : Nat} (hm : m < 4294967296) :
    clear_bits (clear_bits x m) m = clear_bits x m := by
  apply Nat.eq_of_testBit_eq
  intro i
  have hb := testBit_u32 hm i
  simp only [testBit_clear_bits]
  revert hb
  cases x.testBit i <;> cases m.testBit i <;> cases decide (i < 32) <;> simp

/-- The bits of `d` are set after `| d`. -/
theorem or_and_self (x d : Nat) : (x ||| d) &&& d = d := by
  apply Nat.eq_of_testBit_eq
  intro i
  simp only [Nat.testBit_and, Nat.testBit_or]
  cases x.testBit i <;> cases d.testBit i <;> simp

/-- Bits of `e` disjoint from `d` that are clear in `x` stay clear after `| d`. -/
theorem or_and_other (x d e : Nat) (hx : x &&& e = 0) (hde : d &&& e = 0) :
    (x ||| d) &&& e = 0 := by
  rw [Nat.and_comm, Nat.and_or_distrib_left, Nat.and_comm e x, Nat.and_comm e d, hx, hde]
  rfl

/-- A part of the bits cleared is clear. -/
theorem clear_bits_and_part (x : Nat) {m : Nat} (a : Nat) (hm : m < 4294967296)
    (ha : a &&& m = a) : clear_bits x m &&& a = 0 := by
  apply Nat.eq_of_testBit_eq
  intro i
  have hb := testBit_u32 hm i
  have h1 := congrArg (fun y => y.testBit i) ha
  simp only [Nat.testBit_and] at h1
  simp only [Nat.testBit_and, testBit_clear_bits, Nat.zero_testBit]
  revert h1 hb
  cases x.testBit i <;> cases m.testBit i <;> cases a.testBit i <;> cases decide (i < 32) <;> simp

/-- A value that holds the bits of `d` and of `s` holds those of `d ||| s`. -/
theorem and_or_both (f d s : Nat) (hd : f &&& d = d) (hs : f &&& s = s) :
    f &&& (d ||| s) = d ||| s := by
  rw [Nat.and_or_distrib_left, hd, hs]

/-! ## Colorkey (claims C11, C12, C20) -/

/-- C11.  On a modeset-capable device, a colorkey request whose flags contain both
`I915_SET_COLORKEY_SOURCE` and `I915_SET_COLORKEY_DESTINATION` makes
`intel_sprite_set_colorkey` return `-EINVAL` with the registers and the log of steps as
they were: no lock is taken, no plane is looked up, no backend is called and no register
is written. -/
theorem set_colorkey_rejects_both (k : colorkey_bits) (find : Nat → Option intel_plane)
    (s : reg_file) (set : drm_intel_sprite_colorkey)
    (hd : set.flags &&& k.I915_SET_COLORKEY_DESTINATION = k.I915_SET_COLORKEY_DESTINATION)
    (hs : set.flags &&& k.I915_SET_COLORKEY_SOURCE = k.I915_SET_COLORKEY_SOURCE) :
    intel_sprite_set_colorkey k true find s set = (-EINVAL, s) := by
  unfold intel_sprite_set_colorkey
  simp [and_or_both _ _ _ hd hs]

/-- C12, as stated, fails on Valleyview: a key whose flags are
`I915_SET_COLORKEY_DESTINATION` alone does not request both kinds of keying, yet
`vlv_update_colorkey`, the backend `intel_plane_init` installs there, returns `-EINVAL`
and writes no register. -/
theorem vlv_refuses_destination_key :
    ¬ ((sample_key 2).flags &&& sample_colorkey.I915_SET_COLORKEY_DESTINATION ≠ 0 ∧
       (sample_key 2).flags &&& sample_colorkey.I915_SET_COLORKEY_SOURCE ≠ 0) ∧
    intel_plane_init sample_reg vlv_device 0 0 = Except.ok (vlv_sprite, vlv_plane_formats) ∧
    (plane_update_colorkey sample_colorkey (reg_file.init fun _ => 0) vlv_sprite
      (sample_key 2)).1 = -EINVAL ∧
    (plane_update_colorkey sample_colorkey (reg_file.init fun _ => 0) vlv_sprite
      (sample_key 2)).2.trace = [] := by
  refine ⟨by decide, rfl, by decide, by decide⟩

/-- The bitwise `or` of two 32 bit values is one. -/
theorem or_u32 {a b : Nat} (ha : a < 4294967296) (hb : b < 4294967296) :
    a ||| b < 4294967296 := by
  rw [show (4294967296 : Nat) = 2 ^ 32 by norm_num] at *
  exact Nat.or_lt_two_pow ha hb

/-- The control register value the `update_colorkey` functions compute from the value
`v` read: the bits of `src ||| dst` are cleared, then the bit asked for is set. -/
theorem key_mode_value (v src dst : Nat) (fd fs : Prop) [Decidable fd] [Decidable fs]
    (hsrc : src < 4294967296) (hdst : dst < 4294967296) (hsd : src &&& dst = 0)
    (hboth : ¬ (fd ∧ fs)) :
    clear_bits (if fd then clear_bits v (src ||| dst) ||| dst
        else if fs then clear_bits v (src ||| dst) ||| src
        else clear_bits v (src ||| dst)) (src ||| dst) = clear_bits v (src ||| dst) ∧
    (if fd then clear_bits v (src ||| dst) ||| dst
        else if fs then clear_bits v (src ||| dst) ||| src
        else clear_bits v (src ||| dst)) &&& dst = (if fd then dst else 0) ∧
    (if fd then clear_bits v (src ||| dst) ||| dst
        else if fs then clear_bits v (src ||| dst) ||| src
        else clear_bits v (src ||| dst)) &&& src = (if fs then src else 0) := by
  have hm := or_u32 hsrc hdst
  have hs1 : src &&& (src ||| dst) = src := by
    rw [Nat.and_or_distrib_left, Nat.and_self, hsd, Nat.or_zero]
  have hd1 : dst &&& (src ||| dst) = dst := by
    rw [Nat.and_or_distrib_left, Nat.and_self, Nat.and_comm, hsd, Nat.zero_or]
  have hds : dst &&& src = 0 := by rw [Nat.and_comm]; exact hsd
  by_cases hd : fd
  · have hs : ¬ fs := fun h => hboth ⟨hd, h⟩
    simp only [hd, hs, if_true, if_false]
    exact ⟨clear_bits_or v dst hm hd1, or_and_self _ _,
      or_and_other _ _ _ (clear_bits_and_part v src hm hs1) hds⟩
  · by_cases hs : fs
    · simp only [hd, hs, if_true, if_false]
      exact ⟨clear_bits_or v src hm hs1,
        or_and_other _ _ _ (clear_bits_and_part v dst hm hd1) hsd, or_and_self _ _⟩
    · simp only [hd, hs, if_false]
      exact ⟨clear_bits_idem v hm, clear_bits_and_part v dst hm hd1,
        clear_bits_and_part v src hm hs1⟩

/-- C12, amended.  For a key that does not request both source and destination keying:
`vlv_update_colorkey` refuses a key that requests destination keying with `-EINVAL` and
leaves the registers and the log as they were; in every other case `update_colorkey`
returns 0 and its steps are the writes of `min_value`, `max_value` and `channel_mask` to
the key value, key maximum and key mask registers, then one write of the control
register, then a posting read of the key mask register.  The control value written has
the bits outside the key mode bits as they were read, the destination key bit set
exactly when destination keying is requested and the source key bit set exactly when
source keying is requested. -/
theorem update_colorkey_by_backend (k : colorkey_bits) (s : reg_file) (plane : intel_plane)
    (key : drm_intel_sprite_colorkey) (hk : k.key_modes_apart)
    (hboth : ¬ (key.flags &&& k.I915_SET_COLORKEY_DESTINATION ≠ 0 ∧
      key.flags &&& k.I915_SET_COLORKEY_SOURCE ≠ 0)) :
    (plane.funcs = plane_funcs.vlv → key.flags &&& k.I915_SET_COLORKEY_DESTINATION ≠ 0 →
      plane_update_colorkey k s plane key = (-EINVAL, s)) ∧
    (¬ (plane.funcs = plane_funcs.vlv ∧ key.flags &&& k.I915_SET_COLORKEY_DESTINATION ≠ 0) →
      ∃ ctl : Nat,
        (plane_update_colorkey k s plane key).1 = 0 ∧
        (plane_update_colorkey k s plane key).2.trace = s.trace ++
          [hw_event.I915_WRITE (plane_key_val_reg plane) key.min_value,
           hw_event.I915_WRITE (plane_key_max_reg plane) key.max_value,
           hw_event.I915_WRITE (plane_key_msk_reg plane) key.channel_mask,
           hw_event.I915_WRITE (plane_control_reg plane) ctl,
           hw_event.POSTING_READ (plane_key_msk_reg plane)] ∧
        clear_bits ctl (plane_source_key k plane ||| plane_dest_key k plane) =
          clear_bits (s.regs (plane_control_reg plane))
            (plane_source_key k plane ||| plane_dest_key k plane) ∧
        ctl &&& plane_dest_key k plane =
          (if key.flags &&& k.I915_SET_COLORKEY_DESTINATION ≠ 0 then plane_dest_key k plane
           else 0) ∧
        ctl &&& plane_source_key k plane =
          (if key.flags &&& k.I915_SET_COLORKEY_SOURCE ≠ 0 then plane_source_key k plane
           else 0)) := by
  obtain ⟨b1, b2, b3, b4, b5, n1, n2, n3, n4, n5, a1, a2⟩ := hk
  constructor
  · intro hv hdst
    unfold plane_update_colorkey vlv_update_colorkey
    simp [hv, hdst]
  · intro hnot
    cases hp : plane.funcs with
    | ilk =>
      simp only [plane_update_colorkey, hp, plane_key_val_reg, plane_key_max_reg,
        plane_key_msk_reg, plane_control_reg, plane_source_key, plane_dest_key]
      refine ⟨_, rfl, ?_,
        key_mode_value (s.regs (Reg.DVSCNTR plane.pipe)) k.DVS_SOURCE_KEY k.DVS_DEST_KEY
          (key.flags &&& k.I915_SET_COLORKEY_DESTINATION ≠ 0)
          (key.flags &&& k.I915_SET_COLORKEY_SOURCE ≠ 0) b1 b2 a1 hboth⟩
      simp [ilk_update_colorkey, reg_file.I915_WRITE, reg_file.POSTING_READ,
        reg_file.I915_READ]
    | ivb =>
      simp only [plane_update_colorkey, hp, plane_key_val_reg, plane_key_max_reg,
        plane_key_msk_reg, plane_control_reg, plane_source_key, plane_dest_key]
      refine ⟨_, rfl, ?_,
        key_mode_value (s.regs (Reg.SPRCTL plane.pipe)) k.SPRITE_SOURCE_KEY k.SPRITE_DEST_KEY
          (key.flags &&& k.I915_SET_COLORKEY_DESTINATION ≠ 0)
          (key.flags &&& k.I915_SET_COLORKEY_SOURCE ≠ 0) b3 b4 a2 hboth⟩
      simp [ivb_update_colorkey, reg_file.I915_WRITE, reg_file.POSTING_READ,
        reg_file.I915_READ]
    | vlv =>
      have hd : key.flags &&& k.I915_SET_COLORKEY_DESTINATION = 0 := by
        by_contra h
        exact hnot ⟨hp, h⟩
      have hv := key_mode_value (s.regs (Reg.SPCNTR plane.pipe plane.plane)) k.SP_SOURCE_KEY 0
          (key.flags &&& k.I915_SET_COLORKEY_DESTINATION ≠ 0)
          (key.flags &&& k.I915_SET_COLORKEY_SOURCE ≠ 0) b5 (by norm_num) (by simp) hboth
      simp only [plane_update_colorkey, hp, plane_key_val_reg, plane_key_max_reg,
        plane_key_msk_reg, plane_control_reg, plane_source_key, plane_dest_key]
      simp only [hd, ne_eq, not_true_eq_false, if_false, Nat.or_zero] at hv ⊢
      refine ⟨_, ?_, ?_, hv⟩
      · simp [vlv_update_colorkey, hd]
      · simp [vlv_update_colorkey, hd, reg_file.I915_WRITE, reg_file.POSTING_READ,
          reg_file.I915_READ]

/-- C12, amended, at a concrete input: destination keying on the Ironlake plane while
`DVSCNTR` holds the source key bit. -/
theorem update_colorkey_by_backend_witness :
    sample_colorkey.key_modes_apart ∧
    ∃ ctl : Nat,
      (plane_update_colorkey sample_colorkey (reg_file.init fun _ => 4194304) ilk_sprite
        (sample_key 2)).1 = 0 ∧
      (plane_update_colorkey sample_colorkey (reg_file.init fun _ => 4194304) ilk_sprite
        (sample_key 2)).2.trace = (reg_file.init fun _ => 4194304).trace ++
        [hw_event.I915_WRITE (plane_key_val_reg ilk_sprite) (sample_key 2).min_value,
         hw_event.I915_WRITE (plane_key_max_reg ilk_sprite) (sample_key 2).max_value,
         hw_event.I915_WRITE (plane_key_msk_reg ilk_sprite) (sample_key 2).channel_mask,
         hw_event.I915_WRITE (plane_control_reg ilk_sprite) ctl,
         hw_event.POSTING_READ (plane_key_msk_reg ilk_sprite)] ∧
      clear_bits ctl (plane_source_key sample_colorkey ilk_sprite |||
          plane_dest_key sample_colorkey ilk_sprite) =
        clear_bits ((reg_file.init fun _ => 4194304).regs (plane_control_reg ilk_sprite))
          (plane_source_key sample_colorkey ilk_sprite |||
            plane_dest_key sample_colorkey ilk_sprite) ∧
      ctl &&& plane_dest_key sample_colorkey ilk_sprite =
        (if (sample_key 2).flags &&& sample_colorkey.I915_SET_COLORKEY_DESTINATION ≠ 0 then
          plane_dest_key sample_colorkey ilk_sprite else 0) ∧
      ctl &&& plane_source_key sample_colorkey ilk_sprite =
        (if (sample_key 2).flags &&& sample_colorkey.I915_SET_COLORKEY_SOURCE ≠ 0 then
          plane_source_key sample_colorkey ilk_sprite else 0) :=
  ⟨by decide,
   (update_colorkey_by_backend sample_colorkey (reg_file.init fun _ => 4194304)
    ilk_sprite (sample_key 2) (by decide) (by decide)).2 (by decide)⟩

/-- C20.  Over a register file in which a read returns the value last written: when
the flags of `key` are exactly `I915_SET_COLORKEY_NONE`, `I915_SET_COLORKEY_SOURCE` or
`I915_SET_COLORKEY_DESTINATION` and `update_colorkey` returns 0, the `get_colorkey` that
follows fills in the `min_value`, `max_value`, `channel_mask` and `flags` of `key` (the
`plane_id` of the structure it is handed stays), and leaves the registers and the log
as `update_colorkey` left them. -/
theorem colorkey_round_trip (k : colorkey_bits) (s : reg_file) (plane : intel_plane)
    (key key0 : drm_intel_sprite_colorkey) (hk : k.key_modes_apart) (hf : k.flags_apart)
    (hflags : key.flags = k.I915_SET_COLORKEY_NONE ∨ key.flags = k.I915_SET_COLORKEY_SOURCE ∨
      key.flags = k.I915_SET_COLORKEY_DESTINATION)
    (hret : (plane_update_colorkey k s plane key).1 = 0) :
    (plane_get_colorkey k (plane_update_colorkey k s plane key).2 plane key0).1 =
      { key with plane_id := key0.plane_id } ∧
    (plane_get_colorkey k (plane_update_colorkey k s plane key).2 plane key0).2 =
      (plane_update_colorkey k s plane key).2 := by
  obtain ⟨b1, b2, b3, b4, b5, n1, n2, n3, n4, n5, a1, a2⟩ := hk
  obtain ⟨f1, f2, f3, f4, f5, f6⟩ := hf
  have m1 := or_u32 b1 b2
  have m2 := or_u32 b3 b4
  have hD : key.flags &&& k.I915_SET_COLORKEY_DESTINATION ≠ 0 ↔
      key.flags = k.I915_SET_COLORKEY_DESTINATION := by
    rcases hflags with h | h | h <;> rw [h]
    · simp only [f1, ne_eq, not_true_eq_false, false_iff]
      intro h2; rw [h2, Nat.and_self] at f1; exact f6 f1
    · simp only [f3, ne_eq, not_true_eq_false, false_iff]
      intro h2; rw [h2, Nat.and_self] at f3; exact f6 f3
    · simp only [Nat.and_self, ne_eq, f6, not_false_eq_true, true_iff]
  have hS : key.flags &&& k.I915_SET_COLORKEY_SOURCE ≠ 0 ↔
      key.flags = k.I915_SET_COLORKEY_SOURCE := by
    rcases hflags with h | h | h <;> rw [h]
    · simp only [f2, ne_eq, not_true_eq_false, false_iff]
      intro h2; rw [h2, Nat.and_self] at f2; exact f5 f2
    · simp only [Nat.and_self, ne_eq, f5, not_false_eq_true, true_iff]
    · simp only [f4, ne_eq, not_true_eq_false, false_iff]
      intro h2; rw [h2, Nat.and_self] at f4; exact f5 f4
  have hboth : ¬ (key.flags &&& k.I915_SET_COLORKEY_DESTINATION ≠ 0 ∧
      key.flags &&& k.I915_SET_COLORKEY_SOURCE ≠ 0) := by
    rw [hD, hS]
    rintro ⟨h1, h2⟩
    rw [h1] at h2
    rw [h2, Nat.and_self] at f3
    exact f5 f3
  have hcase :
      (key.flags &&& k.I915_SET_COLORKEY_DESTINATION = 0 ∧
        key.flags &&& k.I915_SET_COLORKEY_SOURCE = 0 ∧
        key.flags = k.I915_SET_COLORKEY_NONE) ∨
      (key.flags &&& k.I915_SET_COLORKEY_DESTINATION = 0 ∧
        ¬ key.flags &&& k.I915_SET_COLORKEY_SOURCE = 0 ∧
        key.flags = k.I915_SET_COLORKEY_SOURCE) ∨
      (¬ key.flags &&& k.I915_SET_COLORKEY_DESTINATION = 0 ∧
        key.flags &&& k.I915_SET_COLORKEY_SOURCE = 0 ∧
        key.flags = k.I915_SET_COLORKEY_DESTINATION) := by
    rcases hflags with h | h | h
    · exact Or.inl ⟨by rw [h]; exact f1, by rw [h]; exact f2, h⟩
    · exact Or.inr (Or.inl ⟨by rw [h]; exact f3, by rw [h, Nat.and_self]; exact f5, h⟩)
    · exact Or.inr (Or.inr ⟨by rw [h, Nat.and_self]; exact f6, by rw [h]; exact f4, h⟩)
  cases hp : plane.funcs with
  | ilk =>
    obtain ⟨-, hvd, hvs⟩ := key_mode_value (s.regs (Reg.DVSCNTR plane.pipe)) k.DVS_SOURCE_KEY
      k.DVS_DEST_KEY (key.flags &&& k.I915_SET_COLORKEY_DESTINATION ≠ 0)
      (key.flags &&& k.I915_SET_COLORKEY_SOURCE ≠ 0) b1 b2 a1 hboth
    rcases hcase with ⟨d, e, h⟩ | ⟨d, e, h⟩ | ⟨d, e, h⟩ <;>
    · simp only [d, e, ne_eq, not_true_eq_false, not_false_eq_true, if_true, if_false]
        at hvd hvs
      simp only [plane_update_colorkey, plane_get_colorkey, hp, ilk_update_colorkey,
        ilk_get_colorkey, reg_file.I915_WRITE, reg_file.POSTING_READ, reg_file.I915_READ,
        Function.update_same, Function.update_noteq, ne_eq, reduceCtorEq, not_false_eq_true,
        d, e, not_true_eq_false, if_true, if_false, hvd, hvs, n1, n2]
      rw [← h]
      exact ⟨rfl, trivial⟩
  | ivb =>
    obtain ⟨-, hvd, hvs⟩ := key_mode_value (s.regs (Reg.SPRCTL plane.pipe)) k.SPRITE_SOURCE_KEY
      k.SPRITE_DEST_KEY (key.flags &&& k.I915_SET_COLORKEY_DESTINATION ≠ 0)
      (key.flags &&& k.I915_SET_COLORKEY_SOURCE ≠ 0) b3 b4 a2 hboth
    rcases hcase with ⟨d, e, h⟩ | ⟨d, e, h⟩ | ⟨d, e, h⟩ <;>
    · simp only [d, e, ne_eq, not_true_eq_false, not_false_eq_true, if_true, if_false]
        at hvd hvs
      simp only [plane_update_colorkey, plane_get_colorkey, hp, ivb_update_colorkey,
        ivb_get_colorkey, reg_file.I915_WRITE, reg_file.POSTING_READ, reg_file.I915_READ,
        Function.update_same, Function.update_noteq, ne_eq, reduceCtorEq, not_false_eq_true,
        d, e, not_true_eq_false, if_true, if_false, hvd, hvs, n3, n4]
      rw [← h]
      exact ⟨rfl, trivial⟩
  | vlv =>
    obtain ⟨-, -, hvs⟩ := key_mode_value (s.regs (Reg.SPCNTR plane.pipe plane.plane))
      k.SP_SOURCE_KEY 0 (key.flags &&& k.I915_SET_COLORKEY_DESTINATION ≠ 0)
      (key.flags &&& k.I915_SET_COLORKEY_SOURCE ≠ 0) b5 (by norm_num) (by simp) hboth
    rcases hcase with ⟨d, e, h⟩ | ⟨d, e, h⟩ | ⟨d, e, h⟩
    · simp only [d, e, ne_eq, not_true_eq_false, not_false_eq_true, if_true, if_false,
        Nat.or_zero] at hvs
      simp only [plane_update_colorkey, plane_get_colorkey, hp, vlv_update_colorkey,
        vlv_get_colorkey, reg_file.I915_WRITE, reg_file.POSTING_READ, reg_file.I915_READ,
        Function.update_same, Function.update_noteq, ne_eq, reduceCtorEq, not_false_eq_true,
        d, e, not_true_eq_false, if_true, if_false, hvs, n5]
      rw [← h]
      exact ⟨rfl, trivial⟩
    · simp only [d, e, ne_eq, not_true_eq_false, not_false_eq_true, if_true, if_false,
        Nat.or_zero] at hvs
      simp only [plane_update_colorkey, plane_get_colorkey, hp, vlv_update_colorkey,
        vlv_get_colorkey, reg_file.I915_WRITE, reg_file.POSTING_READ, reg_file.I915_READ,
        Function.update_same, Function.update_noteq, ne_eq, reduceCtorEq, not_false_eq_true,
        d, e, not_true_eq_false, if_true, if_false, hvs, n5]
      rw [← h]
      exact ⟨rfl, trivial⟩
    · exfalso
      simp only [plane_update_colorkey, hp, vlv_update_colorkey, ne_eq, d, not_false_eq_true,
        if_true] at hret
      revert hret
      decide

/-- C20 at a concrete input: a source key on the Valleyview plane. -/
theorem colorkey_round_trip_witness :
    sample_colorkey.key_modes_apart ∧ sample_colorkey.flags_apart ∧
    (plane_update_colorkey sample_colorkey (reg_file.init fun _ => 0) vlv_sprite
      (sample_key 4)).1 = 0 ∧
    (plane_get_colorkey sample_colorkey
      (plane_update_colorkey sample_colorkey (reg_file.init fun _ => 0) vlv_sprite
        (sample_key 4)).2 vlv_sprite (sample_key 0)).1 = sample_key 4 :=
  ⟨by decide, by decide, by decide,
   (colorkey_round_trip sample_colorkey (reg_file.init fun _ => 0) vlv_sprite (sample_key 4)
    (sample_key 0) (by decide) (by decide) (by decide) (by decide)).1⟩

/-- C11 at a concrete input: flags 6 are refused, flags 4 go through. -/
theorem set_colorkey_rejects_both_witness :
    (sample_key 6).flags &&& sample_colorkey.I915_SET_COLORKEY_DESTINATION =
      sample_colorkey.I915_SET_COLORKEY_DESTINATION ∧
    (sample_key 6).flags &&& sample_colorkey.I915_SET_COLORKEY_SOURCE =
      sample_colorkey.I915_SET_COLORKEY_SOURCE ∧
    (intel_sprite_set_colorkey sample_colorkey true (fun _ => some ilk_sprite)
      (reg_file.init fun _ => 0) (sample_key 6)).1 = -EINVAL ∧
    (intel_sprite_set_colorkey sample_colorkey true (fun _ => some ilk_sprite)
      (reg_file.init fun _ => 0) (sample_key 4)).1 = 0 :=
  ⟨by decide, by decide,
   congrArg Prod.fst (set_colorkey_rejects_both sample_colorkey (fun _ => some ilk_sprite)
    (reg_file.init fun _ => 0) (sample_key 6) (by decide) (by decide)),
   by decide⟩

/-! ## The steps of `i915_set_plane_zorder` -/

/-- The `switch` of `i915_set_sprite_alpha` sets bits of the pixel format field only. -/
theorem sprite_alpha_switch_value (z : zorder_bits) (hl : z.sprite_layout)
    (pixformat spcntr : Nat) (alpha : Bool) :
    ∃ f, f &&& z.SP_PIXFORMAT_MASK = f ∧
      (sprite_alpha_switch z pixformat spcntr alpha).1 = spcntr ||| f := by
  obtain ⟨-, -, -, -, -, -, g1, g2, g3, g4, g5, g6, g7, g8⟩ := hl
  unfold sprite_alpha_switch
  split_ifs
  · exact ⟨_, g1, rfl⟩
  · exact ⟨_, g2, rfl⟩
  · exact ⟨_, g3, rfl⟩
  · exact ⟨_, g4, rfl⟩
  · exact ⟨_, g5, rfl⟩
  · exact ⟨_, g6, rfl⟩
  · exact ⟨_, g7, rfl⟩
  · exact ⟨_, g8, rfl⟩
  · exact ⟨0, by simp, by simp⟩

/-- The tail of the two alpha functions: the error is logged when the `default`
branch ran, and the register is written when the pixel format field moved. -/
theorem write_if_changed_effect (s : reg_file) (reg : Reg) (pix v m : Nat) (b : Bool) :
    (∃ t, (if pix ≠ v &&& m then
          (if b then s.call extern_call.DRM_ERROR else s).I915_WRITE reg v
        else (if b then s.call extern_call.DRM_ERROR else s)).trace = s.trace ++ t ∧
      ∀ e ∈ t, e = hw_event.call extern_call.DRM_ERROR ∨
        ∃ x, e = hw_event.I915_WRITE reg x) ∧
    (∀ r, r ≠ reg → (if pix ≠ v &&& m then
          (if b then s.call extern_call.DRM_ERROR else s).I915_WRITE reg v
        else (if b then s.call extern_call.DRM_ERROR else s)).regs r = s.regs r) ∧
    ((if pix ≠ v &&& m then
          (if b then s.call extern_call.DRM_ERROR else s).I915_WRITE reg v
        else (if b then s.call extern_call.DRM_ERROR else s)).regs reg = s.regs reg ∨
     (if pix ≠ v &&& m then
          (if b then s.call extern_call.DRM_ERROR else s).I915_WRITE reg v
        else (if b then s.call extern_call.DRM_ERROR else s)).regs reg = v) := by
  cases b <;> by_cases h : pix = v &&& m
  · simp [h]
  · simp only [ne_eq, h, not_false_eq_true, if_true, Bool.false_eq_true, if_false]
    refine ⟨⟨[hw_event.I915_WRITE reg v], rfl, ?_⟩, ?_, Or.inr ?_⟩
    · intro e he
      simp only [List.mem_singleton] at he
      exact Or.inr ⟨v, he⟩
    · intro r hr
      simp [reg_file.I915_WRITE, Function.update_noteq hr]
    · simp [reg_file.I915_WRITE]
  · simp only [ne_eq, h, not_true_eq_false, if_false, if_true]
    refine ⟨⟨[hw_event.call extern_call.DRM_ERROR], rfl, ?_⟩, ?_, Or.inl rfl⟩
    · intro e he
      simp only [List.mem_singleton] at he
      exact Or.inl he
    · intro r _
      rfl
  · simp only [ne_eq, h, not_false_eq_true, if_true]
    refine ⟨⟨[hw_event.call extern_call.DRM_ERROR, hw_event.I915_WRITE reg v], ?_, ?_⟩, ?_,
      Or.inr ?_⟩
    · simp [reg_file.I915_WRITE, reg_file.call]
    · intro e he
      simp only [List.mem_cons, List.mem_singleton, List.not_mem_nil, or_false] at he
      rcases he with he | he
      · exact Or.inl he
      · exact Or.inr ⟨v, he⟩
    · intro r hr
      simp [reg_file.I915_WRITE, reg_file.call, Function.update_noteq hr]
    · simp [reg_file.I915_WRITE]

/-- What `i915_set_sprite_alpha` does to the registers. -/
theorem sprite_alpha_effect (hw : i915_reg) (z : zorder_bits) (s : reg_file) (zorder : Nat)
    (pipe plane : Int) (hl : z.sprite_layout) :
    (∃ t, (i915_set_sprite_alpha hw z s zorder pipe plane).trace = s.trace ++ t ∧
      ∀ e ∈ t, e = hw_event.call extern_call.DRM_ERROR ∨
        ∃ v, e = hw_event.I915_WRITE (Reg.SPCNTR pipe plane) v) ∧
    (∀ r, r ≠ Reg.SPCNTR pipe plane →
      (i915_set_sprite_alpha hw z s zorder pipe plane).regs r = s.regs r) ∧
    ((i915_set_sprite_alpha hw z s zorder pipe plane).regs (Reg.SPCNTR pipe plane) =
        s.regs (Reg.SPCNTR pipe plane) ∨
      ∃ f, f &&& z.SP_PIXFORMAT_MASK = f ∧
        (i915_set_sprite_alpha hw z s zorder pipe plane).regs (Reg.SPCNTR pipe plane) =
          clear_bits (s.regs (Reg.SPCNTR pipe plane)) z.SP_PIXFORMAT_MASK ||| f) := by
  unfold i915_set_sprite_alpha
  simp only [reg_file.I915_READ]
  by_cases hen : s.regs (Reg.SPCNTR pipe plane) &&& hw.DISPLAY_PLANE_ENABLE = 0
  · simp [hen]
  · simp only [hen, if_false]
    obtain ⟨f, hf, hv⟩ := sprite_alpha_switch_value z hl
      (s.regs (Reg.SPCNTR pipe plane) &&& z.SP_PIXFORMAT_MASK)
      (clear_bits (s.regs (Reg.SPCNTR pipe plane)) z.SP_PIXFORMAT_MASK)
      (if zorder ≠ z.S1P1S2C1 ∧ zorder ≠ z.S1S2P1C1 ∧ plane = 0 then true
        else if zorder ≠ z.S2P1S1C1 ∧ zorder ≠ z.S2S1P1C1 ∧ plane = 1 then true else false)
    obtain ⟨h1, h2, h3⟩ := write_if_changed_effect s (Reg.SPCNTR pipe plane)
      (s.regs (Reg.SPCNTR pipe plane) &&& z.SP_PIXFORMAT_MASK)
      (sprite_alpha_switch z (s.regs (Reg.SPCNTR pipe plane) &&& z.SP_PIXFORMAT_MASK)
        (clear_bits (s.regs (Reg.SPCNTR pipe plane)) z.SP_PIXFORMAT_MASK)
        (if zorder ≠ z.S1P1S2C1 ∧ zorder ≠ z.S1S2P1C1 ∧ plane = 0 then true
          else if zorder ≠ z.S2P1S1C1 ∧ zorder ≠ z.S2S1P1C1 ∧ plane = 1 then true
          else false)).1
      z.SP_PIXFORMAT_MASK
      (sprite_alpha_switch z (s.regs (Reg.SPCNTR pipe plane) &&& z.SP_PIXFORMAT_MASK)
        (clear_bits (s.regs (Reg.SPCNTR pipe plane)) z.SP_PIXFORMAT_MASK)
        (if zorder ≠ z.S1P1S2C1 ∧ zorder ≠ z.S1S2P1C1 ∧ plane = 0 then true
          else if zorder ≠ z.S2P1S1C1 ∧ zorder ≠ z.S2S1P1C1 ∧ plane = 1 then true
          else false)).2
    refine ⟨h1, h2, ?_⟩
    rcases h3 with h3 | h3
    · exact Or.inl h3
    · exact Or.inr ⟨f, hf, h3.trans hv⟩

/-- What `i915_set_primary_alpha` does to the registers: it touches `DSPCNTR` only. -/
theorem primary_alpha_effect (hw : i915_reg) (z : zorder_bits) (s : reg_file) (zorder : Nat)
    (plane : Int) :
    (∃ t, (i915_set_primary_alpha hw z s zorder plane).trace = s.trace ++ t ∧
      ∀ e ∈ t, e = hw_event.call extern_call.DRM_ERROR ∨
        ∃ v, e = hw_event.I915_WRITE (Reg.DSPCNTR plane) v) ∧
    (∀ r, r ≠ Reg.DSPCNTR plane →
      (i915_set_primary_alpha hw z s zorder plane).regs r = s.regs r) := by
  unfold i915_set_primary_alpha
  simp only [reg_file.I915_READ]
  by_cases hen : s.regs (Reg.DSPCNTR plane) &&& hw.DISPLAY_PLANE_ENABLE = 0
  · simp [hen]
  · simp only [hen, if_false]
    obtain ⟨h1, h2, -⟩ := write_if_changed_effect s (Reg.DSPCNTR plane)
      (s.regs (Reg.DSPCNTR plane) &&& z.DISPPLANE_PIXFORMAT_MASK)
      (primary_alpha_switch z (s.regs (Reg.DSPCNTR plane) &&& z.DISPPLANE_PIXFORMAT_MASK)
        (clear_bits (s.regs (Reg.DSPCNTR plane)) z.DISPPLANE_PIXFORMAT_MASK)
        (decide (zorder ≠ z.P1S1S2C1 ∧ zorder ≠ z.P1S2S1C1))).1
      z.DISPPLANE_PIXFORMAT_MASK
      (primary_alpha_switch z (s.regs (Reg.DSPCNTR plane) &&& z.DISPPLANE_PIXFORMAT_MASK)
        (clear_bits (s.regs (Reg.DSPCNTR plane)) z.DISPPLANE_PIXFORMAT_MASK)
        (decide (zorder ≠ z.P1S1S2C1 ∧ zorder ≠ z.P1S2S1C1))).2
    exact ⟨h1, h2⟩

/-- The test `(order >> n) & 1` of the source is the test of bit `n`. -/
theorem shift_and_one (order n : Nat) : ((order >>> n) &&& 1 ≠ 0) ↔ order.testBit n = true := by
  unfold Nat.testBit
  rw [Nat.and_comm]
  simp

/-- What lines 403 to 425 of `i915_set_plane_zorder` leave in the registers. -/
theorem zorder_bits_effect (z : zorder_bits) (s : reg_file) (order : Nat) :
    (i915_set_plane_zorder_bits z s order).trace = s.trace ++
      [hw_event.I915_WRITE (Reg.SPCNTR (zorder_pipe order) 0)
        (clear_bits (s.regs (Reg.SPCNTR (zorder_pipe order) 0))
          (z.SPRITE_FORCE_BOTTOM ||| z.SPRITE_ZORDER_ENABLE)),
       hw_event.I915_WRITE (Reg.SPCNTR (zorder_pipe order) 1)
        (clear_bits (s.regs (Reg.SPCNTR (zorder_pipe order) 1))
          (z.SPRITE_FORCE_BOTTOM ||| z.SPRITE_ZORDER_ENABLE)),
       hw_event.I915_WRITE (Reg.SPCNTR (zorder_pipe order) 0)
        ((i915_set_plane_zorder_bits z s order).regs (Reg.SPCNTR (zorder_pipe order) 0)),
       hw_event.I915_WRITE (Reg.SPCNTR (zorder_pipe order) 1)
        ((i915_set_plane_zorder_bits z s order).regs (Reg.SPCNTR (zorder_pipe order) 1))] ∧
    (i915_set_plane_zorder_bits z s order).regs (Reg.SPCNTR (zorder_pipe order) 0) =
      (if order.testBit 2 then
        (if order.testBit 3 then
          clear_bits (s.regs (Reg.SPCNTR (zorder_pipe order) 0))
            (z.SPRITE_FORCE_BOTTOM ||| z.SPRITE_ZORDER_ENABLE) ||| z.SPRITE_ZORDER_ENABLE
         else clear_bits (s.regs (Reg.SPCNTR (zorder_pipe order) 0))
            (z.SPRITE_FORCE_BOTTOM ||| z.SPRITE_ZORDER_ENABLE)) ||| z.SPRITE_FORCE_BOTTOM
       else
        (if order.testBit 3 then
          clear_bits (s.regs (Reg.SPCNTR (zorder_pipe order) 0))
            (z.SPRITE_FORCE_BOTTOM ||| z.SPRITE_ZORDER_ENABLE) ||| z.SPRITE_ZORDER_ENABLE
         else clear_bits (s.regs (Reg.SPCNTR (zorder_pipe order) 0))
            (z.SPRITE_FORCE_BOTTOM ||| z.SPRITE_ZORDER_ENABLE))) ∧
    (i915_set_plane_zorder_bits z s order).regs (Reg.SPCNTR (zorder_pipe order) 1) =
      (if order.testBit 0 then
        (if order.testBit 1 then
          clear_bits (s.regs (Reg.SPCNTR (zorder_pipe order) 1))
            (z.SPRITE_FORCE_BOTTOM ||| z.SPRITE_ZORDER_ENABLE) ||| z.SPRITE_ZORDER_ENABLE
         else clear_bits (s.regs (Reg.SPCNTR (zorder_pipe order) 1))
            (z.SPRITE_FORCE_BOTTOM ||| z.SPRITE_ZORDER_ENABLE)) ||| z.SPRITE_FORCE_BOTTOM
       else
        (if order.testBit 1 then
          clear_bits (s.regs (Reg.SPCNTR (zorder_pipe order) 1))
            (z.SPRITE_FORCE_BOTTOM ||| z.SPRITE_ZORDER_ENABLE) ||| z.SPRITE_ZORDER_ENABLE
         else clear_bits (s.regs (Reg.SPCNTR (zorder_pipe order) 1))
            (z.SPRITE_FORCE_BOTTOM ||| z.SPRITE_ZORDER_ENABLE))) ∧
    (∀ r, r ≠ Reg.SPCNTR (zorder_pipe order) 0 → r ≠ Reg.SPCNTR (zorder_pipe order) 1 →
      (i915_set_plane_zorder_bits z s order).regs r = s.regs r) := by
  have h01 : Reg.SPCNTR (zorder_pipe order) 0 ≠ Reg.SPCNTR (zorder_pipe order) 1 := by
    simp
  have h10 : Reg.SPCNTR (zorder_pipe order) 1 ≠ Reg.SPCNTR (zorder_pipe order) 0 := by
    simp
  unfold i915_set_plane_zorder_bits
  simp only [reg_file.I915_READ, reg_file.I915_WRITE, Function.update_same,
    Function.update_noteq h01, Function.update_noteq h10, shift_and_one]
  refine ⟨?_, ?_, ?_, ?_⟩
  · simp
  · by_cases h3 : order.testBit 3 = true <;> by_cases h2 : order.testBit 2 = true <;>
      simp [h3, h2]
  · by_cases h1 : order.testBit 1 = true <;> by_cases h0 : order.testBit 0 = true <;>
      simp [h1, h0]
  · intro r hr0 hr1
    simp [Function.update_noteq hr0, Function.update_noteq hr1]

/-- The value programmed into a sprite control register by lines 413 to 425: its two
z-order bits are the ones asked for, and the other bits are those of the value read. -/
theorem zorder_value (v ze fb m : Nat) (c3 c2 : Bool) (hze : ze < 4294967296)
    (hfb : fb < 4294967296) (hm : m < 4294967296) (hd : fb &&& ze = 0) :
    (if c2 then (if c3 then clear_bits v (fb ||| ze) ||| ze else clear_bits v (fb ||| ze)) ||| fb
      else (if c3 then clear_bits v (fb ||| ze) ||| ze else clear_bits v (fb ||| ze))) &&& ze =
      (if c3 then ze else 0) ∧
    (if c2 then (if c3 then clear_bits v (fb ||| ze) ||| ze else clear_bits v (fb ||| ze)) ||| fb
      else (if c3 then clear_bits v (fb ||| ze) ||| ze else clear_bits v (fb ||| ze))) &&& fb =
      (if c2 then fb else 0) ∧
    clear_bits
      (if c2 then (if c3 then clear_bits v (fb ||| ze) ||| ze else clear_bits v (fb ||| ze)) ||| fb
        else (if c3 then clear_bits v (fb ||| ze) ||| ze else clear_bits v (fb ||| ze)))
      (fb ||| ze ||| m) = clear_bits v (fb ||| ze ||| m) := by
  refine ⟨?_, ?_, ?_⟩ <;> cases c3 <;> cases c2 <;>
    simp only [if_true, if_false, Bool.false_eq_true] <;>
    apply Nat.eq_of_testBit_eq <;> intro i <;>
    have h1 := testBit_u32 hze i <;>
    have h2 := testBit_u32 hfb i <;>
    have h3 := testBit_u32 hm i <;>
    have h4 := congrArg (fun y => y.testBit i) hd <;>
    simp only [Nat.testBit_and, Nat.testBit_or, testBit_clear_bits, Nat.zero_testBit] at h4 ⊢ <;>
    revert h1 h2 h3 h4 <;>
    cases v.testBit i <;> cases ze.testBit i <;> cases fb.testBit i <;> cases m.testBit i <;>
    cases decide (i < 32) <;> simp

/-- Rewriting the pixel format field leaves the bits outside the field alone. -/
theorem format_only (a m f e : Nat) (he : e < 4294967296) (hm : m < 4294967296)
    (hf : f &&& m = f) (hem : e &&& m = 0) :
    (clear_bits a m ||| f) &&& e = a &&& e ∧
    clear_bits (clear_bits a m ||| f) (e ||| m) = clear_bits a (e ||| m) := by
  refine ⟨?_, ?_⟩ <;>
    apply Nat.eq_of_testBit_eq <;> intro i <;>
    have h1 := testBit_u32 he i <;>
    have h2 := testBit_u32 hm i <;>
    have h3 := congrArg (fun y => y.testBit i) hf <;>
    have h4 := congrArg (fun y => y.testBit i) hem <;>
    simp only [Nat.testBit_and, Nat.testBit_or, testBit_clear_bits, Nat.zero_testBit]
      at h3 h4 ⊢ <;>
    revert h1 h2 h3 h4 <;>
    cases a.testBit i <;> cases m.testBit i <;> cases f.testBit i <;> cases e.testBit i <;>
    cases decide (i < 32) <;> simp

/-- The local variable `pipe` is bit 31 of `order`. -/
theorem zorder_pipe_eq (order : Nat) :
    zorder_pipe order = (if order.testBit 31 then 1 else 0) := by
  unfold zorder_pipe
  rw [Nat.testBit_to_div_mod, Nat.and_one_is_mod, Nat.shiftRight_eq_div_pow]
  generalize order / 2 ^ 31 = q
  rcases Nat.mod_two_eq_zero_or_one q with h | h <;> rw [h] <;> simp

/-- The final value of a sprite control register keeps the z-order bits programmed and
the bits outside the z-order bits and the pixel format field. -/
theorem zorder_final_value (z : zorder_bits) (hl : z.sprite_layout) (v x : Nat)
    (c3 c2 : Bool)
    (hx : x = (if c2 then
          (if c3 then clear_bits v (z.SPRITE_FORCE_BOTTOM ||| z.SPRITE_ZORDER_ENABLE) |||
              z.SPRITE_ZORDER_ENABLE
            else clear_bits v (z.SPRITE_FORCE_BOTTOM ||| z.SPRITE_ZORDER_ENABLE)) |||
            z.SPRITE_FORCE_BOTTOM
          else
          (if c3 then clear_bits v (z.SPRITE_FORCE_BOTTOM ||| z.SPRITE_ZORDER_ENABLE) |||
              z.SPRITE_ZORDER_ENABLE
            else clear_bits v (z.SPRITE_FORCE_BOTTOM ||| z.SPRITE_ZORDER_ENABLE))) ∨
      ∃ f, f &&& z.SP_PIXFORMAT_MASK = f ∧
        x = clear_bits (if c2 then
          (if c3 then clear_bits v (z.SPRITE_FORCE_BOTTOM ||| z.SPRITE_ZORDER_ENABLE) |||
              z.SPRITE_ZORDER_ENABLE
            else clear_bits v (z.SPRITE_FORCE_BOTTOM ||| z.SPRITE_ZORDER_ENABLE)) |||
            z.SPRITE_FORCE_BOTTOM
          else
          (if c3 then clear_bits v (z.SPRITE_FORCE_BOTTOM ||| z.SPRITE_ZORDER_ENABLE) |||
              z.SPRITE_ZORDER_ENABLE
            else clear_bits v (z.SPRITE_FORCE_BOTTOM ||| z.SPRITE_ZORDER_ENABLE)))
          z.SP_PIXFORMAT_MASK ||| f) :
    x &&& z.SPRITE_ZORDER_ENABLE = (if c3 then z.SPRITE_ZORDER_ENABLE else 0) ∧
    x &&& z.SPRITE_FORCE_BOTTOM = (if c2 then z.SPRITE_FORCE_BOTTOM else 0) ∧
    clear_bits x (z.SPRITE_FORCE_BOTTOM ||| z.SPRITE_ZORDER_ENABLE ||| z.SP_PIXFORMAT_MASK) =
      clear_bits v (z.SPRITE_FORCE_BOTTOM ||| z.SPRITE_ZORDER_ENABLE ||| z.SP_PIXFORMAT_MASK) := by
  obtain ⟨b1, b2, b3, d1, d2, d3, -⟩ := hl
  obtain ⟨v1, v2, v3⟩ := zorder_value v z.SPRITE_ZORDER_ENABLE z.SPRITE_FORCE_BOTTOM
    z.SP_PIXFORMAT_MASK c3 c2 b2 b1 b3 d1
  rcases hx with hx | ⟨f, hf, hx⟩
  · rw [hx]
    exact ⟨v1, v2, v3⟩
  · have hfz := or_u32 b1 b2
    have hdz : (z.SPRITE_FORCE_BOTTOM ||| z.SPRITE_ZORDER_ENABLE) &&& z.SP_PIXFORMAT_MASK = 0 := by
      rw [Nat.and_comm, Nat.and_or_distrib_left, Nat.and_comm, d2, Nat.and_comm, d3]
      rfl
    rw [hx]
    refine ⟨?_, ?_, ?_⟩
    · rw [(format_only _ _ f _ b2 b3 hf d3).1]
      exact v1
    · rw [(format_only _ _ f _ b1 b3 hf d2).1]
      exact v2
    · rw [(format_only _ _ f _ hfz b3 hf hdz).2]
      exact v3

/-! ## Z-order (claims C13, C14) -/

/-- C13.  For every `order` and every prior register state, `i915_set_plane_zorder`
returns 0; the pipe it works on is bit 31 of `order`; on that pipe it leaves sprite 0's
control register with `SPRITE_ZORDER_ENABLE` set iff bit 3 of `order` is set and
`SPRITE_FORCE_BOTTOM` set iff bit 2 is set, and sprite 1's control register with
`SPRITE_ZORDER_ENABLE` set iff bit 1 is set and `SPRITE_FORCE_BOTTOM` set iff bit 0 is
set, whatever the registers held before; the bits of the two registers outside the
z-order bits and the pixel format field are unchanged; and every register write of the
call goes to `SPCNTR(pipe, 0)`, `SPCNTR(pipe, 1)` or `DSPCNTR(pipe)`, so no sprite
register of the other pipe is written. -/
theorem zorder_programs_sprite_bits (hw : i915_reg) (z : zorder_bits) (regs : Reg → Nat)
    (order : Nat) (hl : z.sprite_layout) :
    zorder_pipe order = (if order.testBit 31 then 1 else 0) ∧
    (i915_set_plane_zorder hw z (reg_file.init regs) order).1 = 0 ∧
    (i915_set_plane_zorder hw z (reg_file.init regs) order).2.regs
        (Reg.SPCNTR (zorder_pipe order) 0) &&& z.SPRITE_ZORDER_ENABLE =
      (if order.testBit 3 then z.SPRITE_ZORDER_ENABLE else 0) ∧
    (i915_set_plane_zorder hw z (reg_file.init regs) order).2.regs
        (Reg.SPCNTR (zorder_pipe order) 0) &&& z.SPRITE_FORCE_BOTTOM =
      (if order.testBit 2 then z.SPRITE_FORCE_BOTTOM else 0) ∧
    (i915_set_plane_zorder hw z (reg_file.init regs) order).2.regs
        (Reg.SPCNTR (zorder_pipe order) 1) &&& z.SPRITE_ZORDER_ENABLE =
      (if order.testBit 1 then z.SPRITE_ZORDER_ENABLE else 0) ∧
    (i915_set_plane_zorder hw z (reg_file.init regs) order).2.regs
        (Reg.SPCNTR (zorder_pipe order) 1) &&& z.SPRITE_FORCE_BOTTOM =
      (if order.testBit 0 then z.SPRITE_FORCE_BOTTOM else 0) ∧
    clear_bits ((i915_set_plane_zorder hw z (reg_file.init regs) order).2.regs
        (Reg.SPCNTR (zorder_pipe order) 0))
        (z.SPRITE_FORCE_BOTTOM ||| z.SPRITE_ZORDER_ENABLE ||| z.SP_PIXFORMAT_MASK) =
      clear_bits (regs (Reg.SPCNTR (zorder_pipe order) 0))
        (z.SPRITE_FORCE_BOTTOM ||| z.SPRITE_ZORDER_ENABLE ||| z.SP_PIXFORMAT_MASK) ∧
    clear_bits ((i915_set_plane_zorder hw z (reg_file.init regs) order).2.regs
        (Reg.SPCNTR (zorder_pipe order) 1))
        (z.SPRITE_FORCE_BOTTOM ||| z.SPRITE_ZORDER_ENABLE ||| z.SP_PIXFORMAT_MASK) =
      clear_bits (regs (Reg.SPCNTR (zorder_pipe order) 1))
        (z.SPRITE_FORCE_BOTTOM ||| z.SPRITE_ZORDER_ENABLE ||| z.SP_PIXFORMAT_MASK) ∧
    (∀ e ∈ (i915_set_plane_zorder hw z (reg_file.init regs) order).2.trace,
      e = hw_event.call extern_call.DRM_ERROR ∨
      ∃ v, e = hw_event.I915_WRITE (Reg.SPCNTR (zorder_pipe order) 0) v ∨
        e = hw_event.I915_WRITE (Reg.SPCNTR (zorder_pipe order) 1) v ∨
        e = hw_event.I915_WRITE (Reg.DSPCNTR (zorder_pipe order)) v) := by
  have h01 : Reg.SPCNTR (zorder_pipe order) 0 ≠ Reg.SPCNTR (zorder_pipe order) 1 := by simp
  have h0d : Reg.SPCNTR (zorder_pipe order) 0 ≠ Reg.DSPCNTR (zorder_pipe order) := by simp
  have h1d : Reg.SPCNTR (zorder_pipe order) 1 ≠ Reg.DSPCNTR (zorder_pipe order) := by simp
  obtain ⟨t4, a0, a1, -⟩ := zorder_bits_effect z (reg_file.init regs) order
  obtain ⟨⟨t5, ht5, et5⟩, f5⟩ := primary_alpha_effect hw z
    (i915_set_plane_zorder_bits z (reg_file.init regs) order) (order &&& 15) (zorder_pipe order)
  obtain ⟨⟨t6, ht6, et6⟩, f6, v6⟩ := sprite_alpha_effect hw z
    (i915_set_primary_alpha hw z (i915_set_plane_zorder_bits z (reg_file.init regs) order)
      (order &&& 15) (zorder_pipe order)) (order &&& 15) (zorder_pipe order) 0 hl
  obtain ⟨⟨t7, ht7, et7⟩, f7, v7⟩ := sprite_alpha_effect hw z
    (i915_set_sprite_alpha hw z
      (i915_set_primary_alpha hw z (i915_set_plane_zorder_bits z (reg_file.init regs) order)
        (order &&& 15) (zorder_pipe order)) (order &&& 15) (zorder_pipe order) 0)
    (order &&& 15) (zorder_pipe order) 1 hl
  rw [f6 _ h01.symm, f5 _ h1d, a1] at v7
  rw [f5 _ h0d, a0] at v6
  have e0 := f7 _ h01
  obtain ⟨p1, p2, p3⟩ := zorder_final_value z hl _ _ _ _ v6
  obtain ⟨q1, q2, q3⟩ := zorder_final_value z hl _ _ _ _ v7
  refine ⟨zorder_pipe_eq order, rfl, ?_, ?_, q1, q2, ?_, q3, ?_⟩
  · exact (congrArg (fun y => y &&& z.SPRITE_ZORDER_ENABLE) e0).trans p1
  · exact (congrArg (fun y => y &&& z.SPRITE_FORCE_BOTTOM) e0).trans p2
  · exact (congrArg (fun y => clear_bits y _) e0).trans p3
  · intro e he
    have htr : (i915_set_plane_zorder hw z (reg_file.init regs) order).2.trace =
        (((i915_set_plane_zorder_bits z (reg_file.init regs) order).trace ++ t5) ++ t6) ++ t7 := by
      rw [← ht5, ← ht6, ← ht7]
      rfl
    rw [htr, t4] at he
    simp only [reg_file.init, List.nil_append, List.mem_append, List.mem_cons,
      List.not_mem_nil, or_false] at he
    rcases he with ((he | he) | he) | he
    · rcases he with he | he | he | he
      · exact Or.inr ⟨_, Or.inl he⟩
      · exact Or.inr ⟨_, Or.inr (Or.inl he)⟩
      · exact Or.inr ⟨_, Or.inl he⟩
      · exact Or.inr ⟨_, Or.inr (Or.inl he)⟩
    · rcases et5 e he with h | ⟨v, h⟩
      · exact Or.inl h
      · exact Or.inr ⟨v, Or.inr (Or.inr h)⟩
    · rcases et6 e he with h | ⟨v, h⟩
      · exact Or.inl h
      · exact Or.inr ⟨v, Or.inl h⟩
    · rcases et7 e he with h | ⟨v, h⟩
      · exact Or.inl h
      · exact Or.inr ⟨v, Or.inr (Or.inl h)⟩

/-- C13 at a concrete input: order 10 sets the z-order enable bit of sprite 0. -/
theorem zorder_programs_sprite_bits_witness :
    sample_zorder.sprite_layout ∧
    (i915_set_plane_zorder sample_reg sample_zorder
        (reg_file.init (sprite_only 2214592517)) 10).2.regs
        (Reg.SPCNTR (zorder_pipe 10) 0) &&& sample_zorder.SPRITE_ZORDER_ENABLE =
      (if Nat.testBit 10 3 then sample_zorder.SPRITE_ZORDER_ENABLE else 0) :=
  ⟨by decide,
   (zorder_programs_sprite_bits sample_reg sample_zorder (sprite_only 2214592517) 10
    (by decide)).2.2.1⟩

/-- C14.  The log of `i915_set_plane_zorder` opens with the two writes that clear
`SPRITE_FORCE_BOTTOM` and `SPRITE_ZORDER_ENABLE` on `SPCNTR(pipe, 0)` and on
`SPCNTR(pipe, 1)`; a register write whose value has one of the two bits set is at
position 2 of the log or later, after both clearing writes. -/
theorem zorder_clears_before_sets (hw : i915_reg) (z : zorder_bits) (regs : Reg → Nat)
    (order : Nat) (hl : z.sprite_layout) :
    (∃ c0 c1 rest,
      (i915_set_plane_zorder hw z (reg_file.init regs) order).2.trace =
        hw_event.I915_WRITE (Reg.SPCNTR (zorder_pipe order) 0) c0 ::
        hw_event.I915_WRITE (Reg.SPCNTR (zorder_pipe order) 1) c1 :: rest ∧
      c0 &&& (z.SPRITE_FORCE_BOTTOM ||| z.SPRITE_ZORDER_ENABLE) = 0 ∧
      c1 &&& (z.SPRITE_FORCE_BOTTOM ||| z.SPRITE_ZORDER_ENABLE) = 0) ∧
    (∀ (i : Nat) (reg : Reg) (v : Nat),
      (i915_set_plane_zorder hw z (reg_file.init regs) order).2.trace[i]? =
        some (hw_event.I915_WRITE reg v) →
      v &&& (z.SPRITE_FORCE_BOTTOM ||| z.SPRITE_ZORDER_ENABLE) ≠ 0 → 2 ≤ i) := by
  have hm := or_u32 hl.1 hl.2.1
  obtain ⟨t4, -, -, -⟩ := zorder_bits_effect z (reg_file.init regs) order
  obtain ⟨⟨t5, ht5, -⟩, -⟩ := primary_alpha_effect hw z
    (i915_set_plane_zorder_bits z (reg_file.init regs) order) (order &&& 15) (zorder_pipe order)
  obtain ⟨⟨t6, ht6, -⟩, -, -⟩ := sprite_alpha_effect hw z
    (i915_set_primary_alpha hw z (i915_set_plane_zorder_bits z (reg_file.init regs) order)
      (order &&& 15) (zorder_pipe order)) (order &&& 15) (zorder_pipe order) 0 hl
  obtain ⟨⟨t7, ht7, -⟩, -, -⟩ := sprite_alpha_effect hw z
    (i915_set_sprite_alpha hw z
      (i915_set_primary_alpha hw z (i915_set_plane_zorder_bits z (reg_file.init regs) order)
        (order &&& 15) (zorder_pipe order)) (order &&& 15) (zorder_pipe order) 0)
    (order &&& 15) (zorder_pipe order) 1 hl
  have htr : (i915_set_plane_zorder hw z (reg_file.init regs) order).2.trace =
      (((i915_set_plane_zorder_bits z (reg_file.init regs) order).trace ++ t5) ++ t6) ++ t7 := by
    rw [← ht5, ← ht6, ← ht7]
    rfl
  have e1 : (reg_file.init regs).trace = [] := rfl
  have e2 : (reg_file.init regs).regs = regs := rfl
  rw [t4, e1, e2] at htr
  simp only [List.nil_append, List.cons_append, List.append_assoc] at htr
  have hc0 := clear_bits_and (regs (Reg.SPCNTR (zorder_pipe order) 0)) hm
  have hc1 := clear_bits_and (regs (Reg.SPCNTR (zorder_pipe order) 1)) hm
  refine ⟨⟨_, _, _, htr, hc0, hc1⟩, ?_⟩
  intro i reg v hi hv
  rw [htr] at hi
  match i, hi with
  | 0, hi =>
    simp only [List.getElem?_cons_zero, Option.some.injEq, hw_event.I915_WRITE.injEq] at hi
    exact absurd (hi.2 ▸ hc0) hv
  | 1, hi =>
    simp only [List.getElem?_cons_succ, List.getElem?_cons_zero, Option.some.injEq,
      hw_event.I915_WRITE.injEq] at hi
    exact absurd (hi.2 ▸ hc1) hv
  | n + 2, _ => exact Nat.le_add_left 2 n

/-- C14 at a concrete input: sprite 1 of pipe 0 holds both z-order bits, order 10 asks
for z-order enable on both sprites. -/
theorem zorder_clears_before_sets_witness :
    sample_zorder.sprite_layout ∧
    (∀ (i : Nat) (reg : Reg) (v : Nat),
      (i915_set_plane_zorder sample_reg sample_zorder
        (reg_file.init (sprite_only 2214592517)) 10).2.trace[i]? =
        some (hw_event.I915_WRITE reg v) →
      v &&& (sample_zorder.SPRITE_FORCE_BOTTOM ||| sample_zorder.SPRITE_ZORDER_ENABLE) ≠ 0 →
      2 ≤ i) :=
  ⟨by decide,
   (zorder_clears_before_sets sample_reg sample_zorder (sprite_only 2214592517) 10
    (by decide)).2⟩

/-! ## Alpha reprogramming (claims C15, C16) -/

/-- An enabled primary plane whose pixel format field holds a value that is no case
label and is not zero: `i915_set_primary_alpha` logs the error and then writes the
control register with the field cleared. -/
theorem unrecognised_primary_format_is_cleared (hw : i915_reg) (z : zorder_bits)
    (s : reg_file) (zorder : Nat) (plane : Int)
    (hm : z.DISPPLANE_PIXFORMAT_MASK < 4294967296)
    (hen : s.regs (Reg.DSPCNTR plane) &&& hw.DISPLAY_PLANE_ENABLE ≠ 0)
    (hnl : s.regs (Reg.DSPCNTR plane) &&& z.DISPPLANE_PIXFORMAT_MASK ∉ primary_alpha_labels z)
    (hnz : s.regs (Reg.DSPCNTR plane) &&& z.DISPPLANE_PIXFORMAT_MASK ≠ 0) :
    i915_set_primary_alpha hw z s zorder plane =
      (s.call extern_call.DRM_ERROR).I915_WRITE (Reg.DSPCNTR plane)
        (clear_bits (s.regs (Reg.DSPCNTR plane)) z.DISPPLANE_PIXFORMAT_MASK) := by
  simp only [primary_alpha_labels, List.mem_cons, List.not_mem_nil, or_false, not_or] at hnl
  obtain ⟨n1, n2, n3, n4, n5, n6, n7, n8, n9, n10⟩ := hnl
  unfold i915_set_primary_alpha primary_alpha_switch
  simp only [reg_file.I915_READ, hen, if_false, n1, n2, n3, n4, n5, n6, n7, n8, n9, n10,
    or_self, if_true, clear_bits_and _ hm, ne_eq, hnz, not_false_eq_true]

/-- An enabled sprite plane whose pixel format field holds a value that is no case
label (and so is not zero when `SP_FORMAT_YUV422` is): `i915_set_sprite_alpha` logs the
error and then writes the control register with the field cleared. -/
theorem unrecognised_sprite_format_is_cleared (hw : i915_reg) (z : zorder_bits)
    (s : reg_file) (zorder : Nat) (pipe plane : Int)
    (hm : z.SP_PIXFORMAT_MASK < 4294967296)
    (hen : s.regs (Reg.SPCNTR pipe plane) &&& hw.DISPLAY_PLANE_ENABLE ≠ 0)
    (hnl : s.regs (Reg.SPCNTR pipe plane) &&& z.SP_PIXFORMAT_MASK ∉ sprite_alpha_labels z)
    (hnz : s.regs (Reg.SPCNTR pipe plane) &&& z.SP_PIXFORMAT_MASK ≠ 0) :
    i915_set_sprite_alpha hw z s zorder pipe plane =
      (s.call extern_call.DRM_ERROR).I915_WRITE (Reg.SPCNTR pipe plane)
        (clear_bits (s.regs (Reg.SPCNTR pipe plane)) z.SP_PIXFORMAT_MASK) := by
  simp only [sprite_alpha_labels, List.mem_cons, List.not_mem_nil, or_false, not_or] at hnl
  obtain ⟨n1, n2, n3, n4, n5, n6, n7, n8⟩ := hnl
  unfold i915_set_sprite_alpha sprite_alpha_switch
  simp only [reg_file.I915_READ, hen, if_false, n1, n2, n3, n4, n5, n6, n7, n8,
    or_self, if_true, clear_bits_and _ hm, ne_eq, hnz, not_false_eq_true]

/-- C15 fails on the code for the pair `DISPPLANE_RGBX101010` / `DISPPLANE_RGBA101010`
of the primary plane, whose case has no `break`: with the primary plane of pipe 0
enabled and its pixel format field holding `DISPPLANE_RGBX101010`, the z-order
`P1S1S2C1` (primary at the bottom, the opaque member is due) leaves the field holding
`DISPPLANE_RGBX101010 | DISPPLANE_BGRX565`, and the z-order `S1P1S2C1` (the alpha member
is due) leaves it holding `DISPPLANE_RGBA101010 | DISPPLANE_BGRX565`; neither is a
member of the pair. -/
theorem primary_rgbx101010_takes_565_bits :
    primary_only 2684354560 (Reg.DSPCNTR 0) &&& sample_reg.DISPLAY_PLANE_ENABLE ≠ 0 ∧
    primary_only 2684354560 (Reg.DSPCNTR 0) &&& sample_zorder.DISPPLANE_PIXFORMAT_MASK =
      sample_zorder.DISPPLANE_RGBX101010 ∧
    (i915_set_plane_zorder sample_reg sample_zorder (reg_file.init (primary_only 2684354560))
      sample_zorder.P1S1S2C1).2.regs (Reg.DSPCNTR 0) &&&
        sample_zorder.DISPPLANE_PIXFORMAT_MASK =
      sample_zorder.DISPPLANE_RGBX101010 ||| sample_zorder.DISPPLANE_BGRX565 ∧
    sample_zorder.DISPPLANE_RGBX101010 ||| sample_zorder.DISPPLANE_BGRX565 ≠
      sample_zorder.DISPPLANE_RGBX101010 ∧
    (i915_set_plane_zorder sample_reg sample_zorder (reg_file.init (primary_only 2684354560))
      sample_zorder.S1P1S2C1).2.regs (Reg.DSPCNTR 0) &&&
        sample_zorder.DISPPLANE_PIXFORMAT_MASK =
      sample_zorder.DISPPLANE_RGBA101010 ||| sample_zorder.DISPPLANE_BGRX565 ∧
    sample_zorder.DISPPLANE_RGBA101010 ||| sample_zorder.DISPPLANE_BGRX565 ≠
      sample_zorder.DISPPLANE_RGBA101010 := by
  decide

/-- C16 fails on the code for a pixel format field that holds no case label: the
`default` branch leaves the field cleared, the test before the write compares the old
field with the cleared one, and the register is written with the field zeroed (here the
primary control register with field value 12, and a sprite control register with field
value 1, both enabled). -/
theorem unrecognised_format_is_written :
    primary_only 2952790016 (Reg.DSPCNTR 0) &&& sample_reg.DISPLAY_PLANE_ENABLE ≠ 0 ∧
    primary_only 2952790016 (Reg.DSPCNTR 0) &&& sample_zorder.DISPPLANE_PIXFORMAT_MASK ∉
      primary_alpha_labels sample_zorder ∧
    (i915_set_primary_alpha sample_reg sample_zorder (reg_file.init (primary_only 2952790016))
      0 0).trace =
      [hw_event.call extern_call.DRM_ERROR, hw_event.I915_WRITE (Reg.DSPCNTR 0) 2147483648] ∧
    sprite_only 2214592512 (Reg.SPCNTR 0 1) &&& sample_reg.DISPLAY_PLANE_ENABLE ≠ 0 ∧
    sprite_only 2214592512 (Reg.SPCNTR 0 1) &&& sample_zorder.SP_PIXFORMAT_MASK ∉
      sprite_alpha_labels sample_zorder ∧
    (i915_set_sprite_alpha sample_reg sample_zorder (reg_file.init (sprite_only 2214592512))
      0 0 1).trace =
      [hw_event.call extern_call.DRM_ERROR, hw_event.I915_WRITE (Reg.SPCNTR 0 1) 2147483648] := by
  decide

/-! ## The `update_plane` backends (claim C17) -/

/-- Every format of `snb_plane_formats`, and so of `ilk_plane_formats`, has a case in
the `switch` of `ilk_update_plane`. -/
theorem ilk_format_bits_some (c : plane_bits) {f : drm_format} (h : f ∈ snb_plane_formats) :
    ∃ bits, ilk_format_bits c f = some bits := by
  simp only [snb_plane_formats, List.mem_cons, List.not_mem_nil, or_false] at h
  rcases h with h | h | h | h | h | h <;> subst h <;> exact ⟨_, rfl⟩

/-- Every format of `snb_plane_formats` has a case in the `switch` of
`ivb_update_plane`. -/
theorem ivb_format_bits_some (c : plane_bits) {f : drm_format} (h : f ∈ snb_plane_formats) :
    ∃ bits, ivb_format_bits c f = some bits := by
  simp only [snb_plane_formats, List.mem_cons, List.not_mem_nil, or_false] at h
  rcases h with h | h | h | h | h | h <;> subst h <;> exact ⟨_, rfl⟩

/-- Every format of `vlv_plane_formats` has a case in the `switch` of
`vlv_update_plane`. -/
theorem vlv_format_bits_some (z : zorder_bits) (c : plane_bits) {f : drm_format}
    (h : f ∈ vlv_plane_formats) : ∃ bits, vlv_format_bits z c f = some bits := by
  simp only [vlv_plane_formats, List.mem_cons, List.not_mem_nil, or_false] at h
  rcases h with h | h | h | h | h | h | h | h | h | h | h <;> subst h <;> exact ⟨_, rfl⟩

/-- The first element after a prefix is a member of the whole list. -/
theorem mem_tail_0 {α : Type} (A : List α) (a : α) (l : List α) : a ∈ A ++ a :: l := by simp

/-- The second element after a prefix. -/
theorem mem_tail_1 {α : Type} (A : List α) (a b : α) (l : List α) :
    b ∈ A ++ a :: b :: l := by simp

/-- The third element after a prefix. -/
theorem mem_tail_2 {α : Type} (A : List α) (a b c : α) (l : List α) :
    c ∈ A ++ a :: b :: c :: l := by simp

/-- The fourth element after a prefix. -/
theorem mem_tail_3 {α : Type} (A : List α) (a b c d : α) (l : List α) :
    d ∈ A ++ a :: b :: c :: d :: l := by simp

/-- The fifth element after a prefix. -/
theorem mem_tail_4 {α : Type} (A : List α) (a b c d e : α) (l : List α) :
    e ∈ A ++ a :: b :: c :: d :: e :: l := by simp

/-- C17.  For every backend and every input whose format is one the backend is
registered with, `update_plane` returns, and its steps end with the write of the control
register, the write of the surface base address register (the GGTT offset of the buffer
plus the page offset computed for the source origin), a posting read of that same
register and `local_irq_enable`: the surface write is the last register write of the
call.  The writes of the stride, position, offset and size registers, and of the scale
register where the backend programs one, come before the write of the control register,
after `local_irq_disable`. -/
theorem update_plane_commits_last (hw : i915_reg) (z : zorder_bits) (c : plane_bits)
    (env : update_env) (dev : drm_device) (regs : Reg → Nat) (plane : intel_plane)
    (crtc : intel_crtc) (fb : drm_framebuffer) (obj : drm_i915_gem_object)
    (crtc_x crtc_y crtc_w crtc_h x y src_w src_h : Int) (disable_primary : Bool)
    (hfmt : fb.pixel_format ∈ plane_formats plane) :
    ∃ (pre : List hw_event) (ctl : Nat) (crtc1 : intel_crtc),
      plane_update_plane hw z c env dev regs plane crtc fb obj crtc_x crtc_y crtc_w crtc_h
          x y src_w src_h disable_primary =
        some (pre ++
          [hw_event.I915_WRITE (plane_control_reg plane) ctl,
           hw_event.I915_MODIFY_DISPBASE (plane_surf_reg plane)
             (u32 (obj.ggtt_offset +
               (env.intel_gen4_compute_page_offset x y obj.tiling_mode
                 (drm_format_plane_cpp fb.pixel_format) fb.pitch).1)),
           hw_event.POSTING_READ (plane_surf_reg plane),
           hw_event.local_irq_enable], crtc1) ∧
      (∃ v, hw_event.I915_WRITE (plane_stride_reg plane) v ∈ pre) ∧
      (∃ v, hw_event.I915_WRITE (plane_pos_reg plane) v ∈ pre) ∧
      (∃ r ∈ plane_offset_regs plane, ∃ v, hw_event.I915_WRITE r v ∈ pre) ∧
      (∃ v, hw_event.I915_WRITE (plane_size_reg plane) v ∈ pre) ∧
      (∀ r, plane_scale_reg plane = some r → ∃ v, hw_event.I915_WRITE r v ∈ pre) ∧
      hw_event.local_irq_disable ∈ pre := by
  cases hp : plane.funcs with
  | ilk =>
    simp only [plane_formats, hp] at hfmt
    obtain ⟨bits, hb⟩ := ilk_format_bits_some c hfmt
    simp only [plane_update_plane, hp, ilk_update_plane, hb, plane_control_reg, plane_surf_reg,
      plane_stride_reg, plane_pos_reg, plane_offset_regs, plane_size_reg, plane_scale_reg]
    refine ⟨_, _, _, rfl, ⟨_, mem_tail_0 _ _ _⟩, ⟨_, mem_tail_1 _ _ _ _⟩, ?_,
      ⟨_, mem_tail_3 _ _ _ _ _ _⟩, ?_, ?_⟩
    · by_cases ht : obj.tiling_mode = I915_TILING_NONE
      · simp only [ht, ne_eq, not_true_eq_false, if_false]
        exact ⟨_, by simp, _, mem_tail_2 _ _ _ _ _⟩
      · simp only [ht, ne_eq, not_false_eq_true, if_true]
        exact ⟨_, by simp, _, mem_tail_2 _ _ _ _ _⟩
    · intro r hr
      simp only [Option.some.injEq] at hr
      subst hr
      exact ⟨_, mem_tail_4 _ _ _ _ _ _ _⟩
    · simp [update_plane_prologue]
  | ivb =>
    simp only [plane_formats, hp] at hfmt
    obtain ⟨bits, hb⟩ := ivb_format_bits_some c hfmt
    simp only [plane_update_plane, hp, ivb_update_plane, hb, plane_control_reg, plane_surf_reg,
      plane_stride_reg, plane_pos_reg, plane_offset_regs, plane_size_reg, plane_scale_reg]
    refine ⟨_, _, _, rfl, ⟨_, List.mem_append_left _ (mem_tail_0 _ _ _)⟩,
      ⟨_, List.mem_append_left _ (mem_tail_1 _ _ _ _)⟩, ?_,
      ⟨_, List.mem_append_left _ (mem_tail_3 _ _ _ _ _ _)⟩, ?_, ?_⟩
    · by_cases hh : dev.is_haswell = true ∨ dev.is_broadwell = true
      · simp only [hh, if_true]
        exact ⟨_, by simp, _, List.mem_append_left _ (mem_tail_2 _ _ _ _ _)⟩
      · by_cases ht : obj.tiling_mode = I915_TILING_NONE
        · simp only [hh, ht, ne_eq, not_true_eq_false, if_false]
          exact ⟨_, by simp, _, List.mem_append_left _ (mem_tail_2 _ _ _ _ _)⟩
        · simp only [hh, ht, ne_eq, not_false_eq_true, if_true, if_false]
          exact ⟨_, by simp, _, List.mem_append_left _ (mem_tail_2 _ _ _ _ _)⟩
    · intro r hr
      by_cases hc : plane.can_scale = true
      · simp only [hc, if_true, Option.some.injEq] at hr ⊢
        subst hr
        exact ⟨_, List.mem_append_right _ (List.mem_singleton.mpr rfl)⟩
      · simp [hc] at hr
    · simp [update_plane_prologue]
  | vlv =>
    simp only [plane_formats, hp] at hfmt
    obtain ⟨bits, hb⟩ := vlv_format_bits_some z c hfmt
    simp only [plane_update_plane, hp, vlv_update_plane, hb, plane_control_reg, plane_surf_reg,
      plane_stride_reg, plane_pos_reg, plane_offset_regs, plane_size_reg, plane_scale_reg]
    refine ⟨_, _, _, rfl, ⟨_, mem_tail_0 _ _ _⟩, ?_, ?_,
      ⟨_, mem_tail_3 _ _ _ _ _ _⟩, ?_, ?_⟩
    · split_ifs <;> exact ⟨_, mem_tail_1 _ _ _ _⟩
    · split_ifs
      all_goals first
        | exact ⟨_, List.mem_cons_self _ _, _, mem_tail_2 _ _ _ _ _⟩
        | exact ⟨_, List.mem_cons_of_mem _ (List.mem_cons_self _ _), _, mem_tail_2 _ _ _ _ _⟩
    · intro r hr
      simp at hr
    · simp [update_plane_prologue]

/-- C17 at a concrete input: an XRGB8888 update of the Ironlake plane. -/
theorem update_plane_commits_last_witness :
    DRM_FORMAT_XRGB8888 ∈ plane_formats ilk_sprite ∧
    ∃ (pre : List hw_event) (ctl : Nat) (crtc1 : intel_crtc),
      plane_update_plane sample_reg sample_zorder sample_plane_bits sample_env ilk_device
          (fun _ => 0) ilk_sprite (pipe_a true 1920 1080)
          (sample_fb DRM_FORMAT_XRGB8888 256 256 1024) (sample_obj 1 0)
          100 50 101 100 0 0 101 100 false =
        some (pre ++
          [hw_event.I915_WRITE (Reg.DVSCNTR 0) ctl,
           hw_event.I915_MODIFY_DISPBASE (Reg.DVSSURF 0) 1048576,
           hw_event.POSTING_READ (Reg.DVSSURF 0),
           hw_event.local_irq_enable], crtc1) :=
  ⟨by decide,
   (update_plane_commits_last sample_reg sample_zorder sample_plane_bits sample_env ilk_device
      (fun _ => 0) ilk_sprite (pipe_a true 1920 1080)
      (sample_fb DRM_FORMAT_XRGB8888 256 256 1024) (sample_obj 1 0)
      100 50 101 100 0 0 101 100 false (by decide)).imp fun _ h =>
        h.imp fun _ h => h.imp fun _ h => h.1⟩

/-! ## The `disable_plane` backends (claim C18) -/

/-- `intel_update_primary` writes `DSPCNTR` and calls out; it neither writes a surface
base address nor does a posting read. -/
theorem update_primary_events (hw : i915_reg) (dev : drm_device) (regs : Reg → Nat)
    (crtc : intel_crtc) :
    ∀ e ∈ intel_update_primary hw dev regs crtc,
      (∃ v, e = hw_event.I915_WRITE (Reg.DSPCNTR crtc.plane) v) ∨ ∃ f, e = hw_event.call f := by
  intro e he
  unfold intel_update_primary at he
  split_ifs at he <;>
    simp only [List.mem_append, List.mem_cons, List.mem_singleton, List.not_mem_nil, or_false,
      false_or] at he <;>
    aesop

/-- C18, as stated, fails for `ivb_disable_plane`, the backend `intel_plane_init`
installs on Ivybridge, Haswell and Broadwell: its steps end with the write of `SPRCTL`
(and of `SPRSCALE` where the plane scales); it writes no surface base address and does
no posting read, and sets `disable_sprite` in the crtc instead. -/
theorem ivb_disable_leaves_surface :
    intel_plane_init sample_reg hsw_device 0 0 = Except.ok (hsw_sprite, snb_plane_formats) ∧
    (plane_disable_plane sample_reg hsw_device (fun _ => 2147483648) hsw_sprite
      (pipe_a true 1920 1080)).1 =
      [hw_event.call (extern_call.intel_update_sprite_watermarks 0 0 false false),
       hw_event.local_irq_disable,
       hw_event.call extern_call.intel_pipe_vblank_evade,
       hw_event.call extern_call.intel_program_watermarks,
       hw_event.I915_WRITE (Reg.DSPCNTR 0) 2147483648,
       hw_event.call (extern_call.intel_flush_primary_plane 0),
       hw_event.call extern_call.hsw_enable_ips,
       hw_event.call extern_call.intel_update_fbc,
       hw_event.call extern_call.trace_i915_sprite_end,
       hw_event.I915_WRITE (Reg.SPRCTL 0) 0,
       hw_event.local_irq_enable] ∧
    hw_event.I915_MODIFY_DISPBASE (Reg.SPRSURF 0) 0 ∉
      (plane_disable_plane sample_reg hsw_device (fun _ => 2147483648) hsw_sprite
        (pipe_a true 1920 1080)).1 ∧
    hw_event.POSTING_READ (Reg.SPRSURF 0) ∉
      (plane_disable_plane sample_reg hsw_device (fun _ => 2147483648) hsw_sprite
        (pipe_a true 1920 1080)).1 ∧
    (plane_disable_plane sample_reg hsw_device (fun _ => 2147483648) hsw_sprite
      (pipe_a true 1920 1080)).2.disable_sprite = true := by
  refine ⟨rfl, by decide, by decide, by decide, by decide⟩

/-- C18, amended.  Every `disable_plane` backend, after the common opening, writes the
control register with the plane enable bit cleared and the other bits as read, then
writes 0 to the scale register where it programs one (`DVSSCALE`; `SPRSCALE` when the
plane can scale).  `ilk_disable_plane` and `vlv_disable_plane` then write 0 to the
surface base address register and do a posting read of it, their last register access
before interrupts come back on.  `ivb_disable_plane` does neither: it sets
`disable_sprite` in the crtc and none of its steps is a surface base address write or a
posting read. -/
theorem disable_backend_steps (hw : i915_reg) (dev : drm_device) (regs : Reg → Nat)
    (plane : intel_plane) (crtc : intel_crtc) (he : plane_enable_bit hw plane < 4294967296) :
    (plane_disable_plane hw dev regs plane crtc).1 =
      disable_plane_prologue hw dev regs crtc ++
      [hw_event.I915_WRITE (plane_control_reg plane)
        (clear_bits (regs (plane_control_reg plane)) (plane_enable_bit hw plane))] ++
      (match plane_scale_reg plane with
       | some scale => [hw_event.I915_WRITE scale 0]
       | none => []) ++
      (if plane.funcs = plane_funcs.ivb then []
       else [hw_event.I915_MODIFY_DISPBASE (plane_surf_reg plane) 0,
             hw_event.POSTING_READ (plane_surf_reg plane)]) ++
      [hw_event.local_irq_enable] ∧
    clear_bits (regs (plane_control_reg plane)) (plane_enable_bit hw plane) &&&
      plane_enable_bit hw plane = 0 ∧
    (∀ i, i < 32 → (plane_enable_bit hw plane).testBit i = false →
      (clear_bits (regs (plane_control_reg plane)) (plane_enable_bit hw plane)).testBit i =
        (regs (plane_control_reg plane)).testBit i) ∧
    (plane.funcs = plane_funcs.ivb →
      (plane_disable_plane hw dev regs plane crtc).2.disable_sprite = true ∧
      ∀ e ∈ (plane_disable_plane hw dev regs plane crtc).1,
        (∀ r, e ≠ hw_event.POSTING_READ r) ∧ (∀ r v, e ≠ hw_event.I915_MODIFY_DISPBASE r v)) := by
  refine ⟨?_, clear_bits_and _ he, ?_, ?_⟩
  · cases hp : plane.funcs <;>
      simp [plane_disable_plane, hp, ilk_disable_plane, ivb_disable_plane, vlv_disable_plane,
        plane_control_reg, plane_enable_bit, plane_scale_reg, plane_surf_reg]
    by_cases hc : plane.can_scale = true <;> simp [hc]
  · intro i hi hb
    rw [testBit_clear_bits, hb]
    simp [hi]
  · intro hp
    refine ⟨by simp [plane_disable_plane, hp, ivb_disable_plane], ?_⟩
    intro e hm
    simp only [plane_disable_plane, hp, ivb_disable_plane, disable_plane_prologue,
      List.mem_append, List.mem_cons, List.mem_singleton, List.not_mem_nil, or_false] at hm
    rcases hm with ((((hm | hm | hm | hm) | hm) | hm) | hm) | hm
    · subst hm; exact ⟨fun r => by simp, fun r v => by simp⟩
    · subst hm; exact ⟨fun r => by simp, fun r v => by simp⟩
    · subst hm; exact ⟨fun r => by simp, fun r v => by simp⟩
    · subst hm; exact ⟨fun r => by simp, fun r v => by simp⟩
    · rcases update_primary_events hw dev regs _ e hm with ⟨v, h⟩ | ⟨f, h⟩ <;> subst h <;>
        exact ⟨fun r => by simp, fun r v => by simp⟩
    · subst hm; exact ⟨fun r => by simp, fun r v => by simp⟩
    · split_ifs at hm
      · simp only [List.mem_singleton] at hm
        subst hm
        exact ⟨fun r => by simp, fun r v => by simp⟩
      · simp at hm
    · subst hm; exact ⟨fun r => by simp, fun r v => by simp⟩

/-- C18, amended, at a concrete input: the Ironlake plane. -/
theorem disable_backend_steps_witness :
    plane_enable_bit sample_reg ilk_sprite < 4294967296 ∧
    (plane_disable_plane sample_reg ilk_device (fun _ => 2147483648) ilk_sprite
      (pipe_a true 1920 1080)).1 =
      disable_plane_prologue sample_reg ilk_device (fun _ => 2147483648)
        (pipe_a true 1920 1080) ++
      [hw_event.I915_WRITE (Reg.DVSCNTR 0) 0] ++ [hw_event.I915_WRITE (Reg.DVSSCALE 0) 0] ++
      [hw_event.I915_MODIFY_DISPBASE (Reg.DVSSURF 0) 0, hw_event.POSTING_READ (Reg.DVSSURF 0)] ++
      [hw_event.local_irq_enable] :=
  ⟨by decide,
   (disable_backend_steps sample_reg ilk_device (fun _ => 2147483648) ilk_sprite
    (pipe_a true 1920 1080) (by decide)).1⟩

/-! ## Releasing the outgoing buffer (claim C19) -/

/-- On a plane that has the `current_surface` callback, `intel_plane_queue_unpin`
compares the address of the buffer with what the callback returns, which is the offset
of the live-surface register: no register content enters the decision. -/
theorem queue_unpin_compares_register_offset (hw : i915_reg) (dev : drm_device)
    (pipe plane : Int) (p : intel_plane) (formats : List drm_format)
    (obj : drm_i915_gem_object)
    (hinit : intel_plane_init hw dev pipe plane = Except.ok (p, formats))
    (hv : dev.is_valleyview = false ∨ dev.gen = 5 ∨ dev.gen = 6) :
    intel_plane_queue_unpin p obj =
      (if (if dev.gen = 5 ∨ dev.gen = 6 then hw.DVSSURFLIVE pipe else hw.SPRSURFLIVE pipe) ≠
          obj.ggtt_offset
       then [action.unpin_fb_obj obj] else [action.crtc_queue_unpin obj]) := by
  unfold intel_plane_init at hinit
  by_cases h1 : dev.gen < 5
  · simp [h1] at hinit
  · by_cases h2 : dev.gen = 5 ∨ dev.gen = 6
    · simp only [h1, h2, if_true, if_false, Except.ok.injEq, Prod.mk.injEq] at hinit
      obtain ⟨rfl, -⟩ := hinit
      simp [intel_plane_queue_unpin, new_plane, h2]
    · have hvv : dev.is_valleyview = false := by
        rcases hv with hv | hv | hv
        · exact hv
        · exact absurd (Or.inl hv) h2
        · exact absurd (Or.inr hv) h2
      by_cases h3 : dev.gen = 7 ∨ dev.gen = 8
      · simp only [h1, h2, h3, hvv, if_true, if_false, Bool.false_eq_true, Except.ok.injEq,
          Prod.mk.injEq] at hinit
        obtain ⟨rfl, -⟩ := hinit
        simp [intel_plane_queue_unpin, new_plane, h2]
      · simp [h1, h2, h3] at hinit

/-- C19 fails on the code: `ilk_current_surface` returns the offset of the register
`DVSSURFLIVE(pipe)` and not its content.  While the hardware reports the outgoing buffer
as live (the register holds the address of the buffer, `0x200000`), the rule of the claim
defers the unpin, and `intel_plane_queue_unpin` unpins at once, because `0x200000` is
not the register offset. -/
theorem live_buffer_is_unpinned_at_once :
    intel_plane_init sample_reg ilk_device 0 0 = Except.ok (ilk_sprite, ilk_plane_formats) ∧
    ilk_sprite.current_surface = some (sample_reg.DVSSURFLIVE 0) ∧
    queue_unpin_on_live_content (fun _ => (sample_obj 2 I915_TILING_NONE).ggtt_offset)
      ilk_sprite (sample_obj 2 I915_TILING_NONE) =
      [action.crtc_queue_unpin (sample_obj 2 I915_TILING_NONE)] ∧
    intel_plane_queue_unpin ilk_sprite (sample_obj 2 I915_TILING_NONE) =
      [action.unpin_fb_obj (sample_obj 2 I915_TILING_NONE)] := by
  refine ⟨rfl, rfl, by decide, by decide⟩

/-! ## What the alpha functions do for the formats they know -/

/-- The tail of the two alpha functions when the `switch` set the field to `f`: the
register ends with `f` in the pixel format field and its other bits as they were. -/
theorem field_is_set (s : reg_file) (reg : Reg) (m f : Nat) (b : Bool)
    (hm : m < 4294967296) (hf : f &&& m = f) :
    (if s.regs reg &&& m ≠ (clear_bits (s.regs reg) m ||| f) &&& m then
        (if b then s.call extern_call.DRM_ERROR else s).I915_WRITE reg
          (clear_bits (s.regs reg) m ||| f)
      else (if b then s.call extern_call.DRM_ERROR else s)).regs reg &&& m = f ∧
    clear_bits ((if s.regs reg &&& m ≠ (clear_bits (s.regs reg) m ||| f) &&& m then
        (if b then s.call extern_call.DRM_ERROR else s).I915_WRITE reg
          (clear_bits (s.regs reg) m ||| f)
      else (if b then s.call extern_call.DRM_ERROR else s)).regs reg) m =
      clear_bits (s.regs reg) m := by
  have hv : (clear_bits (s.regs reg) m ||| f) &&& m = f := by
    rw [Nat.and_comm, Nat.and_or_distrib_left, Nat.and_comm m, clear_bits_and _ hm,
      Nat.and_comm m, hf, Nat.zero_or]
  rw [hv]
  by_cases h : s.regs reg &&& m = f
  · cases b <;> simp [h, reg_file.call]
  · cases b <;>
      simp [h, reg_file.call, reg_file.I915_WRITE, hv, clear_bits_or _ f hm hf]

/-- The `switch` of `i915_set_primary_alpha` on a member of a pair whose case ends in
`break`: it sets the alpha member when `alpha` holds and the opaque member otherwise. -/
theorem primary_alpha_switch_pair (z : zorder_bits) (hn : (primary_alpha_labels z).Nodup)
    (pixformat dspcntr : Nat) (alpha : Bool) (p : Nat × Nat) (hp : p ∈ primary_alpha_pairs z)
    (hpix : pixformat = p.1 ∨ pixformat = p.2) :
    primary_alpha_switch z pixformat dspcntr alpha =
      (dspcntr ||| (if alpha then p.2 else p.1), false) := by
  have hr := List.nodup_reverse.mpr hn
  simp only [primary_alpha_labels, List.nodup_cons, List.mem_cons, List.not_mem_nil, or_false,
    not_or, List.nodup_nil, and_true, List.reverse_cons, List.reverse_nil, List.nil_append,
    List.cons_append] at hn hr
  simp only [primary_alpha_pairs, List.mem_cons, List.not_mem_nil, or_false] at hp
  unfold primary_alpha_switch
  rcases hp with rfl | rfl | rfl <;> rcases hpix with h | h <;> subst h <;>
    cases alpha <;> simp_all

/-- The `switch` of `i915_set_sprite_alpha` on a member of a pair: it sets the alpha
member when `alpha` holds and the opaque member otherwise. -/
theorem sprite_alpha_switch_pair (z : zorder_bits) (hn : (sprite_alpha_labels z).Nodup)
    (pixformat spcntr : Nat) (alpha : Bool) (p : Nat × Nat) (hp : p ∈ sprite_alpha_pairs z)
    (hpix : pixformat = p.1 ∨ pixformat = p.2) :
    sprite_alpha_switch z pixformat spcntr alpha =
      (spcntr ||| (if alpha then p.2 else p.1), false) := by
  have hr := List.nodup_reverse.mpr hn
  simp only [sprite_alpha_labels, List.nodup_cons, List.mem_cons, List.not_mem_nil, or_false,
    not_or, List.nodup_nil, and_true, List.reverse_cons, List.reverse_nil, List.nil_append,
    List.cons_append] at hn hr
  simp only [sprite_alpha_pairs, List.mem_cons, List.not_mem_nil, or_false] at hp
  unfold sprite_alpha_switch
  rcases hp with rfl | rfl | rfl <;> rcases hpix with h | h <;> subst h <;>
    cases alpha <;> simp_all

/-- The `switch` of `i915_set_primary_alpha` on `DISPPLANE_BGRX565` or `DISPPLANE_8BPP`:
it sets the format it found. -/
theorem primary_alpha_switch_plain (z : zorder_bits) (hn : (primary_alpha_labels z).Nodup)
    (pixformat dspcntr : Nat) (alpha : Bool)
    (hpix : pixformat = z.DISPPLANE_BGRX565 ∨ pixformat = z.DISPPLANE_8BPP) :
    primary_alpha_switch z pixformat dspcntr alpha = (dspcntr ||| pixformat, false) := by
  have hr := List.nodup_reverse.mpr hn
  simp only [primary_alpha_labels, List.nodup_cons, List.mem_cons, List.not_mem_nil, or_false,
    not_or, List.nodup_nil, and_true, List.reverse_cons, List.reverse_nil, List.nil_append,
    List.cons_append] at hn hr
  unfold primary_alpha_switch
  rcases hpix with h | h <;> subst h <;> simp_all

/-- The `switch` of `i915_set_sprite_alpha` on `SP_FORMAT_YUV422` or `SP_FORMAT_BGR565`:
it sets the format it found. -/
theorem sprite_alpha_switch_plain (z : zorder_bits) (hn : (sprite_alpha_labels z).Nodup)
    (pixformat spcntr : Nat) (alpha : Bool)
    (hpix : pixformat = z.SP_FORMAT_YUV422 ∨ pixformat = z.SP_FORMAT_BGR565) :
    sprite_alpha_switch z pixformat spcntr alpha = (spcntr ||| pixformat, false) := by
  have hr := List.nodup_reverse.mpr hn
  simp only [sprite_alpha_labels, List.nodup_cons, List.mem_cons, List.not_mem_nil, or_false,
    not_or, List.nodup_nil, and_true, List.reverse_cons, List.reverse_nil, List.nil_append,
    List.cons_append] at hn hr
  unfold sprite_alpha_switch
  rcases hpix with h | h <;> subst h <;> simp_all

/-- On an enabled primary plane whose pixel format field holds a member of a pair whose
case ends in `break`, `i915_set_primary_alpha` leaves the alpha member in the field when
the z-order does not put the primary plane at the bottom, the opaque member otherwise,
and the bits outside the field as they were. -/
theorem primary_alpha_pair_is_programmed (hw : i915_reg) (z : zorder_bits) (s : reg_file)
    (zorder : Nat) (plane : Int) (hl : z.primary_layout)
    (hn : (primary_alpha_labels z).Nodup)
    (hen : s.regs (Reg.DSPCNTR plane) &&& hw.DISPLAY_PLANE_ENABLE ≠ 0)
    (p : Nat × Nat) (hp : p ∈ primary_alpha_pairs z)
    (hpix : s.regs (Reg.DSPCNTR plane) &&& z.DISPPLANE_PIXFORMAT_MASK = p.1 ∨
      s.regs (Reg.DSPCNTR plane) &&& z.DISPPLANE_PIXFORMAT_MASK = p.2) :
    (i915_set_primary_alpha hw z s zorder plane).regs (Reg.DSPCNTR plane) &&&
        z.DISPPLANE_PIXFORMAT_MASK = (if primary_alpha z zorder then p.2 else p.1) ∧
    clear_bits ((i915_set_primary_alpha hw z s zorder plane).regs (Reg.DSPCNTR plane))
        z.DISPPLANE_PIXFORMAT_MASK =
      clear_bits (s.regs (Reg.DSPCNTR plane)) z.DISPPLANE_PIXFORMAT_MASK := by
  have hf : (if primary_alpha z zorder then p.2 else p.1) &&& z.DISPPLANE_PIXFORMAT_MASK =
      (if primary_alpha z zorder then p.2 else p.1) := by
    obtain ⟨-, g1, g2, g3, g4, g5, g6, -⟩ := hl
    simp only [primary_alpha_pairs, List.mem_cons, List.not_mem_nil, or_false] at hp
    rcases hp with rfl | rfl | rfl <;> cases primary_alpha z zorder <;> simp [*]
  unfold i915_set_primary_alpha
  simp only [reg_file.I915_READ, hen, if_false]
  simp only [primary_alpha_switch_pair z hn _ _ _ p hp hpix]
  exact field_is_set s (Reg.DSPCNTR plane) z.DISPPLANE_PIXFORMAT_MASK _ false hl.1 hf

/-- On an enabled sprite plane whose pixel format field holds a member of a pair,
`i915_set_sprite_alpha` leaves the alpha member in the field when the z-order does not
put that sprite at the bottom, the opaque member otherwise, and the bits outside the
field as they were. -/
theorem sprite_alpha_pair_is_programmed (hw : i915_reg) (z : zorder_bits) (s : reg_file)
    (zorder : Nat) (pipe plane : Int) (hl : z.sprite_layout)
    (hn : (sprite_alpha_labels z).Nodup)
    (hen : s.regs (Reg.SPCNTR pipe plane) &&& hw.DISPLAY_PLANE_ENABLE ≠ 0)
    (p : Nat × Nat) (hp : p ∈ sprite_alpha_pairs z)
    (hpix : s.regs (Reg.SPCNTR pipe plane) &&& z.SP_PIXFORMAT_MASK = p.1 ∨
      s.regs (Reg.SPCNTR pipe plane) &&& z.SP_PIXFORMAT_MASK = p.2) :
    (i915_set_sprite_alpha hw z s zorder pipe plane).regs (Reg.SPCNTR pipe plane) &&&
        z.SP_PIXFORMAT_MASK = (if sprite_alpha z zorder plane then p.2 else p.1) ∧
    clear_bits ((i915_set_sprite_alpha hw z s zorder pipe plane).regs (Reg.SPCNTR pipe plane))
        z.SP_PIXFORMAT_MASK =
      clear_bits (s.regs (Reg.SPCNTR pipe plane)) z.SP_PIXFORMAT_MASK := by
  have hf : (if sprite_alpha z zorder plane then p.2 else p.1) &&& z.SP_PIXFORMAT_MASK =
      (if sprite_alpha z zorder plane then p.2 else p.1) := by
    obtain ⟨-, -, -, -, -, -, g1, g2, g3, g4, g5, g6, -⟩ := hl
    simp only [sprite_alpha_pairs, List.mem_cons, List.not_mem_nil, or_false] at hp
    rcases hp with rfl | rfl | rfl <;> cases sprite_alpha z zorder plane <;> simp [*]
  unfold i915_set_sprite_alpha
  simp only [reg_file.I915_READ, hen, if_false]
  simp only [sprite_alpha_switch_pair z hn _ _ _ p hp hpix]
  exact field_is_set s (Reg.SPCNTR pipe plane) z.SP_PIXFORMAT_MASK _ false hl.2.2.1 hf

/-- A format without an alpha member (`DISPPLANE_BGRX565`, `DISPPLANE_8BPP`) in the field
of the primary control register: `i915_set_primary_alpha` writes nothing. -/
theorem primary_plain_format_is_kept (hw : i915_reg) (z : zorder_bits) (s : reg_file)
    (zorder : Nat) (plane : Int) (hm : z.DISPPLANE_PIXFORMAT_MASK < 4294967296)
    (hn : (primary_alpha_labels z).Nodup)
    (hpix : s.regs (Reg.DSPCNTR plane) &&& z.DISPPLANE_PIXFORMAT_MASK = z.DISPPLANE_BGRX565 ∨
      s.regs (Reg.DSPCNTR plane) &&& z.DISPPLANE_PIXFORMAT_MASK = z.DISPPLANE_8BPP) :
    i915_set_primary_alpha hw z s zorder plane = s := by
  have hv : (clear_bits (s.regs (Reg.DSPCNTR plane)) z.DISPPLANE_PIXFORMAT_MASK |||
      (s.regs (Reg.DSPCNTR plane) &&& z.DISPPLANE_PIXFORMAT_MASK)) &&&
      z.DISPPLANE_PIXFORMAT_MASK = s.regs (Reg.DSPCNTR plane) &&& z.DISPPLANE_PIXFORMAT_MASK := by
    rw [Nat.and_comm, Nat.and_or_distrib_left, Nat.and_comm _ (clear_bits _ _),
      clear_bits_and _ hm, Nat.zero_or, Nat.and_comm, Nat.and_assoc, Nat.and_self]
  unfold i915_set_primary_alpha
  simp only [reg_file.I915_READ]
  simp only [primary_alpha_switch_plain z hn _ _ _ hpix]
  simp [hv]

/-- A format without an alpha member (`SP_FORMAT_YUV422`, `SP_FORMAT_BGR565`) in the
field of a sprite control register: `i915_set_sprite_alpha` writes nothing. -/
theorem sprite_plain_format_is_kept (hw : i915_reg) (z : zorder_bits) (s : reg_file)
    (zorder : Nat) (pipe plane : Int) (hm : z.SP_PIXFORMAT_MASK < 4294967296)
    (hn : (sprite_alpha_labels z).Nodup)
    (hpix : s.regs (Reg.SPCNTR pipe plane) &&& z.SP_PIXFORMAT_MASK = z.SP_FORMAT_YUV422 ∨
      s.regs (Reg.SPCNTR pipe plane) &&& z.SP_PIXFORMAT_MASK = z.SP_FORMAT_BGR565) :
    i915_set_sprite_alpha hw z s zorder pipe plane = s := by
  have hv : (clear_bits (s.regs (Reg.SPCNTR pipe plane)) z.SP_PIXFORMAT_MASK |||
      (s.regs (Reg.SPCNTR pipe plane) &&& z.SP_PIXFORMAT_MASK)) &&&
      z.SP_PIXFORMAT_MASK = s.regs (Reg.SPCNTR pipe plane) &&& z.SP_PIXFORMAT_MASK := by
    rw [Nat.and_comm, Nat.and_or_distrib_left, Nat.and_comm _ (clear_bits _ _),
      clear_bits_and _ hm, Nat.zero_or, Nat.and_comm, Nat.and_assoc, Nat.and_self]
  unfold i915_set_sprite_alpha
  simp only [reg_file.I915_READ]
  simp only [sprite_alpha_switch_plain z hn _ _ _ hpix]
  simp [hv]

/-! ## Registered formats and the format switch (claim C21) -/

/-- A format that has a case in the `switch` of the backend lets the backend return. -/
theorem update_plane_returns (hw : i915_reg) (z : zorder_bits) (c : plane_bits)
    (env : update_env) (dev : drm_device) (regs : Reg → Nat) (plane : intel_plane)
    (crtc : intel_crtc) (fb : drm_framebuffer) (obj : drm_i915_gem_object)
    (crtc_x crtc_y crtc_w crtc_h x y src_w src_h : Int) (disable_primary : Bool)
    (h : (plane_format_bits z c plane fb.pixel_format).isSome = true) :
    (plane_update_plane hw z c env dev regs plane crtc fb obj crtc_x crtc_y crtc_w crtc_h
      x y src_w src_h disable_primary).isSome = true := by
  obtain ⟨bits, hb⟩ := Option.isSome_iff_exists.mp h
  cases hp : plane.funcs <;>
    simp only [plane_format_bits, hp] at hb <;>
    simp [plane_update_plane, hp, ilk_update_plane, ivb_update_plane, vlv_update_plane, hb]

/-- The function `intel_plane_init` accepts the generations 5 to 8. -/
theorem intel_plane_init_accepts (hw : i915_reg) (dev : drm_device) (pipe plane : Int)
    (h5 : 5 ≤ dev.gen) (h8 : dev.gen ≤ 8) :
    ∃ p formats, intel_plane_init hw dev pipe plane = Except.ok (p, formats) := by
  unfold intel_plane_init
  have h1 : ¬ dev.gen < 5 := by omega
  by_cases h2 : dev.gen = 5 ∨ dev.gen = 6
  · simp only [h1, h2, if_true, if_false]
    exact ⟨_, _, rfl⟩
  · have h3 : dev.gen = 7 ∨ dev.gen = 8 := by omega
    simp only [h1, h2, h3, if_true, if_false]
    by_cases hv : dev.is_valleyview = true
    · simp only [hv, if_true]
      exact ⟨_, _, rfl⟩
    · simp only [hv, if_false]
      exact ⟨_, _, rfl⟩

/-- Claim C21: when `intel_plane_init` succeeds and registers the plane `p` with the
format list `formats`, the device is of generation 5 to 8, and for every framebuffer whose
pixel format is in `formats` the format `switch` of the backend selected for `p` takes one
of its cases, so the backend `update_plane` returns instead of reaching the `BUG()` of the
`default` branch. -/
theorem registered_formats_have_a_case (hw : i915_reg) (z : zorder_bits) (c : plane_bits)
    (env : update_env) (dev : drm_device) (regs : Reg → Nat) (pipe plane : Int)
    (p : intel_plane) (formats : List drm_format) (crtc : intel_crtc) (fb : drm_framebuffer)
    (obj : drm_i915_gem_object) (crtc_x crtc_y crtc_w crtc_h x y src_w src_h : Int)
    (disable_primary : Bool)
    (hinit : intel_plane_init hw dev pipe plane = Except.ok (p, formats))
    (hf : fb.pixel_format ∈ formats) :
    5 ≤ dev.gen ∧ dev.gen ≤ 8 ∧
    (plane_format_bits z c p fb.pixel_format).isSome = true ∧
    (plane_update_plane hw z c env dev regs p crtc fb obj crtc_x crtc_y crtc_w crtc_h
      x y src_w src_h disable_primary).isSome = true := by
  have key : 5 ≤ dev.gen ∧ dev.gen ≤ 8 ∧
      (plane_format_bits z c p fb.pixel_format).isSome = true := by
    unfold intel_plane_init at hinit
    by_cases h1 : dev.gen < 5
    · simp [h1] at hinit
    · by_cases h2 : dev.gen = 5 ∨ dev.gen = 6
      · simp only [h1, h2, if_true, if_false, Except.ok.injEq, Prod.mk.injEq] at hinit
        obtain ⟨rfl, rfl⟩ := hinit
        refine ⟨by omega, by omega, ?_⟩
        have hs : fb.pixel_format ∈ snb_plane_formats := by
          by_cases h6 : dev.gen = 6
          · simpa [h6] using hf
          · simp only [h6, if_false] at hf
            simp only [ilk_plane_formats, List.mem_cons, List.not_mem_nil, or_false] at hf
            simp only [snb_plane_formats, List.mem_cons, List.not_mem_nil, or_false]
            exact Or.inr hf
        obtain ⟨bits, hb⟩ := ilk_format_bits_some c hs
        simp [plane_format_bits, new_plane, hb]
      · by_cases h3 : dev.gen = 7 ∨ dev.gen = 8
        · simp only [h1, h2, h3, if_true, if_false] at hinit
          by_cases hv : dev.is_valleyview = true
          · simp only [hv, if_true, Except.ok.injEq, Prod.mk.injEq] at hinit
            obtain ⟨rfl, rfl⟩ := hinit
            obtain ⟨bits, hb⟩ := vlv_format_bits_some z c hf
            exact ⟨by omega, by omega, by simp [plane_format_bits, new_plane, hb]⟩
          · simp only [hv, if_false, Except.ok.injEq, Prod.mk.injEq] at hinit
            obtain ⟨rfl, rfl⟩ := hinit
            obtain ⟨bits, hb⟩ := ivb_format_bits_some c hf
            exact ⟨by omega, by omega, by simp [plane_format_bits, new_plane, hb]⟩
        · simp [h1, h2, h3] at hinit
  exact ⟨key.1, key.2.1, key.2.2,
    update_plane_returns hw z c env dev regs p crtc fb obj crtc_x crtc_y crtc_w crtc_h
      x y src_w src_h disable_primary key.2.2⟩

/-- Claim C21 on the sprite of pipe 0 of a generation 5 device showing a YUYV
framebuffer. -/
theorem registered_formats_have_a_case_witness :
    intel_plane_init sample_reg ilk_device 0 0 = Except.ok (ilk_sprite, ilk_plane_formats) ∧
    (sample_fb DRM_FORMAT_YUYV 64 64 128).pixel_format ∈ ilk_plane_formats ∧
    (5 ≤ ilk_device.gen ∧ ilk_device.gen ≤ 8 ∧
      (plane_format_bits sample_zorder sample_plane_bits ilk_sprite
        (sample_fb DRM_FORMAT_YUYV 64 64 128).pixel_format).isSome = true ∧
      (plane_update_plane sample_reg sample_zorder sample_plane_bits sample_env ilk_device
        (fun _ => 0) ilk_sprite (pipe_a true 1024 768) (sample_fb DRM_FORMAT_YUYV 64 64 128)
        (sample_obj 1 I915_TILING_NONE) 0 0 64 64 0 0 64 64 false).isSome = true) :=
  ⟨rfl, by decide,
    registered_formats_have_a_case sample_reg sample_zorder sample_plane_bits sample_env
      ilk_device (fun _ => 0) 0 0 ilk_sprite ilk_plane_formats (pipe_a true 1024 768)
      (sample_fb DRM_FORMAT_YUYV 64 64 128) (sample_obj 1 I915_TILING_NONE)
      0 0 64 64 0 0 64 64 false rfl (by decide)⟩

/-! ## The assertion on `disable_primary` (claim C22) -/

/-- A plane that leaves the clip stage hidden was clipped away, or is a YUV plane whose
destination width came down to 0. -/
theorem clip_stage_hidden_inv {p : intel_plane} {crtc : intel_crtc} {fb : drm_framebuffer}
    {a : plane_request} {s : resolved}
    (h : intel_update_plane_clip p crtc fb a = resolve_result.ok s)
    (hv : s.visible = false) :
    ((clip_of p crtc a).visible = false ∨ s.crtc_w = 0) ∧
    WARN.primary_off_but_hidden ∉ s.warns ∧ WARN.scaling_on_fixed_plane ∉ s.warns := by
  unfold intel_update_plane_clip at h
  simp only at h
  simp only [clip_of]
  split at h
  · exact absurd h (by simp)
  split at h
  · exact absurd h (by simp)
  split at h
  · next hvis =>
    split at h
    · exact absurd h (by simp)
    split at h
    · exact absurd h (by simp)
    injection h with h
    subst h
    simp only at hv ⊢
    refine ⟨Or.inr ?_, ?_, ?_⟩
    · cases hy : format_is_yuv fb.pixel_format <;> cases hcs : p.can_scale <;>
        simp [hy, hcs] at hv ⊢ <;> exact hv
    · split <;> simp
    · split <;> simp
  · next hvis =>
    injection h with h
    subst h
    simp only [Bool.not_eq_true] at hvis
    exact ⟨Or.inl hvis, by simp, by simp⟩

/-- The clip stage raises no assertion but the one on the source viewport. -/
theorem clip_stage_only_warns_enlarged {p : intel_plane} {crtc : intel_crtc}
    {fb : drm_framebuffer} {a : plane_request} {s : resolved}
    (h : intel_update_plane_clip p crtc fb a = resolve_result.ok s) :
    ∀ w ∈ s.warns, w = WARN.src_viewport_enlarged := by
  unfold intel_update_plane_clip at h
  simp only at h
  split at h
  · exact absurd h (by simp)
  split at h
  · exact absurd h (by simp)
  split at h
  · split at h
    · exact absurd h (by simp)
    split at h
    · exact absurd h (by simp)
    injection h with h
    subst h
    intro w hw
    simp only at hw
    split at hw
    · simpa using hw
    · exact absurd hw (by simp)
  · injection h with h
    subst h
    intro w hw
    exact absurd hw (by simp)

/-- On an active pipe with a non-empty source size, the destination of a plane that
leaves the clip stage hidden is not the clip rectangle. -/
theorem hidden_is_not_full {p : intel_plane} {crtc : intel_crtc} {fb : drm_framebuffer}
    {a : plane_request} {s : resolved} (h : a.well_formed) (hc : crtc.sized)
    (hact : crtc.active = true) (hw : 0 < crtc.pipe_src_w) (hh : 0 < crtc.pipe_src_h)
    (hclip : intel_update_plane_clip p crtc fb a = resolve_result.ok s)
    (hv : s.visible = false) :
    drm_rect_equals
      { x1 := s.crtc_x, x2 := to_int (to_u32 (s.crtc_x + s.crtc_w)),
        y1 := s.crtc_y, y2 := to_int (to_u32 (s.crtc_y + s.crtc_h)) } (pipe_clip crtc) =
      false := by
  obtain ⟨d1, d2, d3, d4⟩ := clip_stage_dst_inv hclip
  obtain ⟨e1, e2⟩ := clip_of_dst p h hc
  obtain ⟨hcase, -, -⟩ := clip_stage_hidden_inv hclip hv
  obtain ⟨w1, w2, w3, w4, w5, w6, w7, w8, w9, w10, w11, w12, w13, w14⟩ := h
  obtain ⟨c1, c2, c3, c4⟩ := hc
  have px : (pipe_clip crtc).x2 = crtc.pipe_src_w := by simp [pipe_clip, hact]
  have py : (pipe_clip crtc).y2 = crtc.pipe_src_h := by simp [pipe_clip, hact]
  have qx : (pipe_clip crtc).x1 = 0 := rfl
  have qy : (pipe_clip crtc).y1 = 0 := rfl
  rw [px, py] at e1 e2
  rw [e1] at d1 d2 d3 d4
  simp only [drm_rect_width, drm_rect_height] at d3 d4
  by_contra hne
  simp only [drm_rect_equals, Bool.not_eq_false, Bool.and_eq_true, decide_eq_true_eq, px, py,
    qx, qy] at hne
  obtain ⟨⟨⟨q1, q2⟩, q3⟩, q4⟩ := hne
  rcases hcase with hcase | hcase
  · rw [hcase] at d4
    simp only [Bool.false_and, Bool.false_eq_true, if_false] at d4
    have hnv : ¬ (max a.crtc_x 0 < min (a.crtc_x + a.crtc_w) crtc.pipe_src_w ∧
        max a.crtc_y 0 < min (a.crtc_y + a.crtc_h) crtc.pipe_src_h) := by
      rw [← e2, hcase]
      simp
    rw [d1, d4] at q2
    rw [d2, d3] at q4
    rw [d1] at q1
    rw [d2] at q3
    clear e1 e2 d1 d2 d3 d4 hclip hv hcase px py qx qy
    unfold to_int to_u32 at q2 q4
    omega
  · rw [hcase, d1] at q2
    rw [d1] at q1
    clear e1 e2 d2 d3 d4 hclip hv hcase px py qx qy
    unfold to_int to_u32 at q2
    omega

/-- An assertion is in the list after its own check iff the check fired or it was there
before. -/
theorem mem_warns_ite_self (c : Prop) [Decidable c] (l : List WARN) (x : WARN) :
    x ∈ (if c then l ++ [x] else l) ↔ c ∨ x ∈ l := by
  split <;> simp [*]

/-- On an active pipe with a non-empty source size the assertion on `disable_primary`
fires only when the size restrictions of lines 1317-1321 hide a plane that the clip stage
left visible and scaled. -/
theorem assertion_fires_only_after_size_check {p : intel_plane} {crtc : intel_crtc}
    {fb : drm_framebuffer} {a : plane_request} {g : resolved} (h : a.well_formed)
    (hc : crtc.sized) (hact : crtc.active = true) (hw : 0 < crtc.pipe_src_w)
    (hh : 0 < crtc.pipe_src_h)
    (hres : intel_update_plane_resolve p crtc fb a = resolve_result.ok g)
    (hwarn : WARN.primary_off_but_hidden ∈ g.warns) :
    ∃ s, intel_update_plane_clip p crtc fb a = resolve_result.ok s ∧ s.visible = true ∧
      (s.src_w ≠ s.crtc_w ∨ s.src_h ≠ s.crtc_h) ∧
      (s.crtc_w < 3 ∨ s.crtc_h < 3 ∨ s.src_w < 3 ∨ s.src_h < 3) ∧
      g.visible = false ∧ g.disable_primary = true := by
  obtain ⟨s, hclip, hlim⟩ := resolve_ok_inv hres
  have hnw := clip_stage_only_warns_enlarged hclip
  refine ⟨s, hclip, ?_⟩
  unfold intel_update_plane_limits at hlim
  simp only at hlim
  split at hlim
  · exact absurd hlim (by simp)
  injection hlim with hlim
  subst hlim
  simp only at hwarn ⊢
  rw [mem_warns_ite_self] at hwarn
  rcases hwarn with hcond | hw2
  swap
  · rw [mem_warns_ite _ _ _ _ (by decide)] at hw2
    exact absurd (hnw _ hw2) (by decide)
  obtain ⟨h12, -⟩ := Bool.and_eq_true_iff.mp hcond
  obtain ⟨hdp, hnv⟩ := Bool.and_eq_true_iff.mp h12
  have hvis := (Bool.not_eq_true' _).mp hnv
  clear hcond h12 hnv
  refine ⟨?_, ?_, ?_, hvis, hdp⟩
  · cases hv : s.visible
    · rw [hidden_is_not_full h hc hact hw hh hclip hv] at hdp
      exact absurd hdp (by simp)
    · rfl
  · by_contra hs
    have hs1 : (decide (s.src_w ≠ s.crtc_w) || decide (s.src_h ≠ s.crtc_h)) = false := by
      simpa using hs
    simp only [hs1, Bool.and_false, Bool.false_and, Bool.false_eq_true, if_false] at hvis
    rw [hidden_is_not_full h hc hact hw hh hclip hvis] at hdp
    exact absurd hdp (by simp)
  · by_contra hsm
    have h1 : (decide (s.crtc_w < 3) || decide (s.crtc_h < 3)) = false := by
      simp only [Bool.or_eq_false_iff, decide_eq_false_iff_not]
      exact ⟨fun hx => hsm (Or.inl hx), fun hx => hsm (Or.inr (Or.inl hx))⟩
    have h2 : (decide (s.src_w < 3) || decide (s.src_h < 3)) = false := by
      simp only [Bool.or_eq_false_iff, decide_eq_false_iff_not]
      exact ⟨fun hx => hsm (Or.inr (Or.inr (Or.inl hx))),
        fun hx => hsm (Or.inr (Or.inr (Or.inr hx)))⟩
    simp only [h1, h2, Bool.and_false, Bool.false_eq_true, if_false] at hvis
    rw [hidden_is_not_full h hc hact hw hh hclip hvis] at hdp
    exact absurd hdp (by simp)

/-- Claim C22, evaluated on the code: the plane that `intel_plane_init` registers for pipe
0 of a generation 5 device is asked to show a source of 2x3 pixels over the whole of the
active 1024x768 pipe.  The request passes the guards and the scale checks; the size
restriction of lines 1320-1321 clears `visible` (`src_w` is 2), line 1341 still finds the
destination equal to the clip rectangle and sets `disable_primary`, and the assertion
`WARN_ON(disable_primary && !visible && intel_crtc->active)` of line 1342 fires; the call
goes on to disable the sprite and returns 0. -/
theorem hidden_full_screen_request_trips_assertion :
    intel_plane_init sample_reg ilk_device 0 0 = Except.ok (ilk_sprite, ilk_plane_formats) ∧
    passes_guards ilk_sprite (pipe_a true 1024 768) (sample_fb DRM_FORMAT_XRGB8888 64 64 256) ∧
    tiny_full_request.well_formed ∧ (pipe_a true 1024 768).sized ∧
    (∃ g, intel_update_plane_resolve ilk_sprite (pipe_a true 1024 768)
        (sample_fb DRM_FORMAT_XRGB8888 64 64 256) tiny_full_request = resolve_result.ok g ∧
      g.crtc_w = 1024 ∧ g.crtc_h = 768 ∧ g.src_w = 2 ∧ g.src_h = 3 ∧
      g.disable_primary = true ∧ g.visible = false ∧
      g.warns = [WARN.primary_off_but_hidden]) ∧
    intel_update_plane ilk_sprite (pipe_a true 1024 768)
        (sample_fb DRM_FORMAT_XRGB8888 64 64 256) tiny_full_request 0 =
      { ret := retval.ret 0
        plane := { ilk_sprite with
          crtc_x := 0, crtc_y := 0, crtc_w := 1024, crtc_h := 768
          src_x := 0, src_y := 0, src_w := 131072, src_h := 196608
          obj := some (sample_obj 1 I915_TILING_NONE) }
        trace := [action.pin_and_fence_fb_obj (sample_obj 1 I915_TILING_NONE),
          action.disable_plane] } := by
  refine ⟨rfl, by decide, by decide, by decide, ⟨_, rfl, rfl, rfl, rfl, rfl, rfl, rfl, rfl⟩, ?_⟩
  decide

end IntelSprite
